import Mathlib

/-!
The service gostream-official/tracks: query model, store, router and handlers.

A shallow embedding of the Go sources

* `pkg/store/query/{query,filter,update}.go` (filter and update operators and their `Compile`),
* `pkg/store/mongo.go` (the generic store),
* `pkg/router/ginrouter.go` (path and query parameter extraction),
* `impl/funcs/updatetrack/updatetrack.go` (the update handler and its selective merge),
* `impl/funcs/createtrack/createtrack.go`, `impl/funcs/gettrack/gettrack.go`,
  `impl/funcs/gettracks/gettracks.go`, `impl/funcs/deletetrack/deletetrack.go` (the create,
  get-by-id, list and delete handlers),
* `impl/models/track.go` (the track model and its musical-key constants),
* `pkg/parallel/context.go` (the request context),

followed by theorems about them.

Conventions of the embedding.

* Go `string` is Lean `String`; the string functions used by the sources only look for the
  ASCII bytes `/`, `:` and `,`, so working on characters instead of bytes does not change them.
* A Go `map[string]V` is an association list `GoMap V` whose keys are kept distinct by
  `GoMap.set` (Go's `m[k] = v`); a map literal is the list of its entries in source order.
* `interface{}` values that end up in a BSON document are values of `bson.Value`.
* `uint32` is a `Nat` below `2 ^ 32`, `int` and `int64` are `Int`, `float32` is its IEEE-754
  bit pattern (`F32`).
-/

set_option autoImplicit false

/-! ## Go maps -/

/-- A Go map with string keys, as an association list with pairwise distinct keys. -/
abbrev GoMap (V : Type) : Type := List (String × V)

namespace GoMap

/-- The keys of a map. -/
def keys {V : Type} (m : GoMap V) : List String := m.map Prod.fst

/-- Go's `v, ok := m[k]`. -/
def get? {V : Type} : GoMap V → String → Option V
  | [], _ => none
  | (k', v) :: m, k => if k' = k then some v else get? m k

/-- Go's `m[k] = v`: overwrite the entry of `k` if there is one, add one otherwise. -/
def set {V : Type} : GoMap V → String → V → GoMap V
  | [], k, v => [(k, v)]
  | (k', v') :: m, k, v => if k' = k then (k', v) :: m else (k', v') :: set m k v

end GoMap

/-! ## BSON values -/

/-- A Go `float32`, as its 32 bit IEEE-754 pattern (sign bit 31, exponent 30..23,
fraction 22..0). -/
structure F32 where
  bits : Nat
deriving DecidableEq, Repr

/-- Go's `x != 0` on `float32`: false exactly for the two zeros `+0` and `-0`
(every bit below the sign bit is clear). -/
def F32.isNonZero (x : F32) : Bool := x.bits % 2 ^ 31 != 0

/-- Go's `time.Time`, as an instant: seconds since January 1, year 1, 00:00:00 UTC and
nanoseconds within the second. The zero value `time.Time{}` is that origin. -/
structure time.Time where
  sec : Int
  nsec : Nat
deriving DecidableEq, Repr

/-- The zero value `time.Time{}`. -/
def time.Time.zero : time.Time := ⟨0, 0⟩

/-- The Go values that the sources put into BSON documents (`interface{}` in `bson.M`). -/
inductive bson.Value where
  | null
  | str (s : String)
  | uint32 (n : Nat)
  | int (i : Int)
  | float32 (x : F32)
  | time (t : time.Time)
  | strs (xs : List String)
  | doc (m : List (String × bson.Value))
  | arr (xs : List bson.Value)

/-- The driver's `bson.M`, a `map[string]interface{}`. -/
abbrev bson.M : Type := GoMap bson.Value

/-! ## `pkg/store/query` -/

namespace query

/-- The implementers of the interface `IQuery` (`query.go`): the eight filter operators of
`filter.go` and the update operator of `update.go`, each with the fields of its struct
(the embedded `IQuery` field of the structs is never read and is left out).
Interface values held in `And`/`Or` are non-nil. -/
inductive IQuery where
  | FilterOperatorAnd (And : List IQuery)
  | FilterOperatorOr (Or : List IQuery)
  | FilterOperatorEq (Key : String) (Value : bson.Value)
  | FilterOperatorNeq (Key : String) (Value : bson.Value)
  | FilterOperatorLt (Key : String) (Value : bson.Value)
  | FilterOperatorLte (Key : String) (Value : bson.Value)
  | FilterOperatorGt (Key : String) (Value : bson.Value)
  | FilterOperatorGte (Key : String) (Value : bson.Value)
  | UpdateOperatorSet (Set : GoMap bson.Value)

mutual
/-- The method `Compile` of each operator (`filter.go` lines 147-238, `update.go` line 33). -/
def IQuery.Compile : IQuery → bson.M
  | .FilterOperatorAnd And => [("$and", bson.Value.arr (compileRange And))]
  | .FilterOperatorOr Or => [("$or", bson.Value.arr (compileRange Or))]
  | .FilterOperatorEq Key Value => [(Key, Value)]
  | .FilterOperatorNeq Key Value => [(Key, bson.Value.doc [("$ne", Value)])]
  | .FilterOperatorLt Key Value => [(Key, bson.Value.doc [("$lt", Value)])]
  | .FilterOperatorLte Key Value => [(Key, bson.Value.doc [("$lte", Value)])]
  | .FilterOperatorGt Key Value => [(Key, bson.Value.doc [("$gt", Value)])]
  | .FilterOperatorGte Key Value => [(Key, bson.Value.doc [("$gte", Value)])]
  | .UpdateOperatorSet Set => [("$set", bson.Value.doc Set)]
/-- The loop `for _, c := range children { array = append(array, c.Compile()) }` of the
composite operators, started from the empty array. -/
def compileRange : List IQuery → List bson.Value
  | [] => []
  | c :: cs => bson.Value.doc c.Compile :: compileRange cs
end

/-- The struct `Filter` (`filter.go` line 11); a nil `Root` is `none`. -/
structure Filter where
  Root : Option IQuery
  Limit : Nat

/-- The struct `Update` (`update.go` line 8); a nil `Root` is `none`. -/
structure Update where
  Root : Option IQuery

end query

/-! ## The MongoDB driver (external)

The driver and the database server are not part of the repository. A client is a record of
the four collection operations the store uses, acting on a database state `σ`; every call a
store makes is also appended to a log, so that what is passed to the database can be stated.
Of the driver's own work only the check of the update document in `UpdateOne` is modelled,
because it decides what an update without operator does. -/

namespace mongo

/-- One call on a collection (named by database and collection name) with its arguments. -/
inductive Call where
  | InsertOne (database collection : String) (document : bson.Value)
  | UpdateOne (database collection : String) (filter update : bson.M)
  | Find (database collection : String) (filter : bson.M) (limit : Int)
  | DeleteOne (database collection : String) (filter : bson.M)

/-- The driver's `*mongo.Client` with the server behind it. `UpdateOne` answers the
`ModifiedCount`, `Find` the documents its cursor yields, `DeleteOne` the `DeletedCount`;
`Except.error` is a non-nil `error`. -/
structure Client (σ : Type) where
  InsertOne : String → String → bson.Value → σ → Except String Unit × σ
  UpdateOne : String → String → bson.M → bson.M → σ → Except String Int × σ
  Find : String → String → bson.M → Int → σ → Except String (List bson.Value) × σ
  DeleteOne : String → String → bson.M → σ → Except String Int × σ

/-- The driver's `*mongo.Collection`. -/
structure Collection (σ : Type) where
  client : Client σ
  database : String
  name : String

/-- The database state together with the log of the calls made so far, oldest first. -/
structure World (σ : Type) where
  db : σ
  calls : List Call

/-- The driver's check of an update document (`ensureDollarKey` in the driver's package
`mongo`), which `UpdateOne` makes before anything is sent to the server: the document must
have a first element, and the key of that element must begin with `$`. Every document the
repository compiles has a single key; of a document with several keys the first entry of
the association list stands for the first element. -/
def ensureDollarKey (update : bson.M) : Except String Unit :=
  match update with
  | [] => Except.error "update document must have at least one element"
  | (key, _) :: _ =>
    if key.data.head? = some '$' then Except.ok ()
    else Except.error "update document must contain key beginning with '$'"

/-- The call `collection.UpdateOne(ctx, filter, update)`: the call is logged, and the server
behind the client is reached only with an update document that passes `ensureDollarKey`. -/
def Collection.UpdateOne {σ : Type} (c : Collection σ) (filter update : bson.M)
    (w : World σ) : Except String Int × World σ :=
  match ensureDollarKey update with
  | Except.error err =>
    (Except.error err, ⟨w.db, w.calls ++ [Call.UpdateOne c.database c.name filter update]⟩)
  | Except.ok _ =>
    let r := c.client.UpdateOne c.database c.name filter update w.db
    (r.1, ⟨r.2, w.calls ++ [Call.UpdateOne c.database c.name filter update]⟩)

/-- The call `collection.Find(ctx, filter, options.Find().SetLimit(limit))`. -/
def Collection.Find {σ : Type} (c : Collection σ) (filter : bson.M) (limit : Int)
    (w : World σ) : Except String (List bson.Value) × World σ :=
  let r := c.client.Find c.database c.name filter limit w.db
  (r.1, ⟨r.2, w.calls ++ [Call.Find c.database c.name filter limit]⟩)

end mongo

/-! ## `pkg/store/mongo.go` -/

namespace store

/-- The struct `MongoInstance` (line 16). -/
structure MongoInstance (σ : Type) where
  Client : mongo.Client σ

/-- The struct `MongoStore[T]` (line 26). -/
structure MongoStore (σ : Type) (T : Type) where
  Collection : mongo.Collection σ

/-- `NewMongoStore` (line 82). -/
def NewMongoStore {σ : Type} (T : Type) (inst : MongoInstance σ) (database : String)
    (collection : String) : MongoStore σ T :=
  ⟨⟨inst.Client, database, collection⟩⟩

/-- `UpdateItem` (line 126). Go's `(0, err)` is `Except.error err`. -/
def MongoStore.UpdateItem {σ T : Type} (store : MongoStore σ T) (filter : query.Filter)
    (update : query.Update) (w : mongo.World σ) : Except String Int × mongo.World σ :=
  let query : bson.M :=
    match filter.Root with
    | none => []
    | some root => root.Compile
  let updateQuery : bson.M :=
    match update.Root with
    | none => []
    | some root => root.Compile
  match store.Collection.UpdateOne query updateQuery w with
  | (Except.error err, w) => (Except.error err, w)
  | (Except.ok result, w) => (Except.ok result, w)

/-- The loop `for cursor.Next(ctx)` of `FindItems` (lines 185-194): `decode` is the driver's
`cursor.Decode(&item)` for the type `T`, `cursor` the documents still to come and `items`
the slice built so far. -/
def MongoStore.FindItems.loop {T : Type} (decode : bson.Value → Except String T) :
    List bson.Value → List T → Except String (List T)
  | [], items => Except.ok items
  | document :: cursor, items =>
    match decode document with
    | Except.error err => Except.error err
    | Except.ok item => MongoStore.FindItems.loop decode cursor (items ++ [item])

/-- `FindItems` (line 164). `int64(filter.Limit)` converts a `uint32` and is never
negative. -/
def MongoStore.FindItems {σ T : Type} (decode : bson.Value → Except String T)
    (store : MongoStore σ T) (filter : query.Filter) (w : mongo.World σ) :
    Except String (List T) × mongo.World σ :=
  let items : List T := []
  let query : bson.M :=
    match filter.Root with
    | none => []
    | some root => root.Compile
  match store.Collection.Find query (Int.ofNat (filter.Limit % 2 ^ 32)) w with
  | (Except.error err, w) => (Except.error err, w)
  | (Except.ok cursor, w) => (MongoStore.FindItems.loop decode cursor items, w)

end store

/-! ## Go's `strings` functions used by the router and the handlers -/

namespace strings

/-- `strings.HasPrefix(s, p)`. -/
def HasPrefix (s p : String) : Bool := p.data.isPrefixOf s.data

/-- `strings.TrimPrefix(s, p)`: `s` without the leading `p`, or `s` itself. -/
def TrimPrefix (s p : String) : String :=
  if HasPrefix s p then ⟨s.data.drop p.data.length⟩ else s

/-- The pieces of a character list between the occurrences of `sep`. -/
def splitChars (sep : Char) : List Char → List (List Char)
  | [] => [[]]
  | c :: cs =>
    if c = sep then [] :: splitChars sep cs
    else (c :: (splitChars sep cs).headD []) :: (splitChars sep cs).tail

/-- `strings.Split(s, sep)` for a separator `sep` of one character (the sources split on
`"/"` only): the substrings between the separators, `[""]` for the empty string. -/
def Split (s : String) (sep : Char) : List String := (splitChars sep s.data).map String.mk

/-- `strings.Join(elems, sep)`. -/
def Join : List String → String → String
  | [], _ => ""
  | [a], _ => a
  | a :: b :: rest, sep => a ++ sep ++ Join (b :: rest) sep

/-- Go's `unicode.IsSpace`. -/
def isSpace (c : Char) : Bool :=
  c = '\t' || c = '\n' || c.toNat = 0x0B || c.toNat = 0x0C || c = '\r' || c = ' ' ||
  c.toNat = 0x85 || c.toNat = 0xA0 || c.toNat = 0x1680 ||
  (0x2000 ≤ c.toNat && c.toNat ≤ 0x200A) || c.toNat = 0x2028 || c.toNat = 0x2029 ||
  c.toNat = 0x202F || c.toNat = 0x205F || c.toNat = 0x3000

/-- `strings.TrimSpace(s)`: `s` without leading and trailing white space. -/
def TrimSpace (s : String) : String :=
  ⟨((s.data.dropWhile isSpace).reverse.dropWhile isSpace).reverse⟩

end strings

/-! ## `pkg/router/ginrouter.go` -/

namespace router

/-- The loop of `extractPathParameters` (lines 243-250) from position `index` on, `rest`
being the template segments not yet visited. An index outside `pathSegments` is Go's
run-time panic, reported here as an error of its own. -/
def extractPathParameters.loop (pathSegments : List String) :
    List String → Nat → GoMap String → Except String (GoMap String)
  | [], _, result => Except.ok result
  | segment :: rest, index, result =>
    if !strings.HasPrefix segment ":" then
      extractPathParameters.loop pathSegments rest (index + 1) result
    else
      let paramName := strings.TrimPrefix segment ":"
      match pathSegments[index]? with
      | none => Except.error "panic: runtime error: index out of range"
      | some value =>
        extractPathParameters.loop pathSegments rest (index + 1) (result.set paramName value)

/-- `extractPathParameters` (line 230). -/
def extractPathParameters (handle : String) (path : String) : Except String (GoMap String) :=
  let result : GoMap String := []
  let path := strings.TrimPrefix path "/"
  let handle := strings.TrimPrefix handle "/"
  let pathSegments := strings.Split path '/'
  let handleSegments := strings.Split handle '/'
  if handleSegments.length ≠ pathSegments.length then
    Except.error "router: number of url segments does not match number of path segments"
  else
    extractPathParameters.loop pathSegments handleSegments 0 result

end router

/-! ### `net/url` (external)

`url.Parse` is a parameter of the embedding. Of a parsed URL only the query matters here:
`pairs` lists the `key=value` occurrences that `URL.Query()` keeps, in their order in the
query string, and `Query` groups them the way `url.ParseQuery` does
(`m[key] = append(m[key], value)`). -/

namespace url

/-- A parsed URL, reduced to the occurrences `key=value` of its query string. -/
structure URL where
  pairs : List (String × String)

/-- The type `url.Values`, a `map[string][]string`. -/
abbrev Values : Type := GoMap (List String)

/-- One step of `url.ParseQuery`: `m[key] = append(m[key], value)`. -/
def Values.add (m : Values) (key value : String) : Values :=
  m.set key ((m.get? key).getD [] ++ [value])

/-- The method `URL.Query()`. -/
def URL.Query (u : URL) : Values :=
  u.pairs.foldl (fun m kv => Values.add m kv.1 kv.2) []

end url

namespace router

/-- The loop of `extractQueryParameters` (lines 276-278) over the entries of `query`. -/
def extractQueryParameters.loop : List (String × List String) → GoMap String → GoMap String
  | [], parameters => parameters
  | (key, values) :: rest, parameters =>
    extractQueryParameters.loop rest (parameters.set key (strings.Join values ","))

/-- `extractQueryParameters` (line 266); `Parse` is `url.Parse`. -/
def extractQueryParameters (Parse : String → Except String url.URL) (path : String) :
    Except String (GoMap String) :=
  let parameters : GoMap String := []
  match Parse path with
  | Except.error err => Except.error err
  | Except.ok parsedURL =>
    let query := parsedURL.Query
    Except.ok (extractQueryParameters.loop query parameters)

end router

/-! ## `pkg/api`, `pkg/arrays`, `impl/models`, `impl/inject` -/

namespace api

/-- The struct `APIRequest` (`request.go`). -/
structure APIRequest where
  Url : String
  Path : String
  Method : String
  Headers : GoMap String
  PathParameters : GoMap String
  QueryParameters : GoMap String
  Body : String

/-- The struct `APIResponse` (`response.go`). `Body` is an `interface{}`: `none` is nil,
and `B` collects the types of the bodies a handler answers with. -/
structure APIResponse (B : Type) where
  StatusCode : Int
  Headers : GoMap String := []
  Body : Option B := none

end api

/-- `arrays.Map` (`utils.go` line 16). -/
def arrays.Map {TArray UResult : Type} (array : List TArray) (mapFunc : TArray → UResult) :
    List UResult :=
  array.map mapFunc

namespace models

/-- The struct `TrackStats` (`track.go` line 39); the counters are `uint32`. -/
structure TrackStats where
  Streams : Nat
  Likes : Nat

/-- The struct `AudioFeatures` (`track.go` line 51). -/
structure AudioFeatures where
  Key : String
  Tempo : F32
  Duration : F32
  Energy : F32
  Danceability : F32
  Accousticness : F32
  Instrumentalness : F32
  Liveness : F32
  Loudness : F32
  TimeSignature : Int

/-- The struct `TrackInfo` (`track.go` line 9). A nil slice and an empty slice of featured
artists are both the empty list. -/
structure TrackInfo where
  ID : String
  ArtistID : String
  FeaturedArtistIDs : List String
  Title : String
  Label : String
  ReleaseDate : time.Time
  TrackStats : TrackStats
  AudioFeatures : AudioFeatures

end models

namespace inject

/-- The struct `Injector` (`injector.go`). -/
structure Injector (σ : Type) where
  MongoInstance : store.MongoInstance σ

/-- The `interface{}` value a handler is called with: a value of dynamic type
`inject.Injector`, or anything else (nil included). -/
inductive Object (σ : Type) where
  | Injector (injector : inject.Injector σ)
  | other

end inject

/-- The library functions the handlers call and the repository does not contain, as
parameters: `uuidParseOk s` says that `uuid.Parse(s)` returns a nil error, `timeParse` is
`time.Parse`, `decodeTrack` and `decodeArtist` are the driver's `cursor.Decode` into
`models.TrackInfo` and into `models.ArtistInfo`. The declaration of `models.ArtistInfo` is
not among the sources, so the type is the parameter `A`. -/
structure Lib (A : Type) where
  uuidParseOk : String → Bool
  timeParse : String → String → Except String time.Time
  decodeTrack : bson.Value → Except String models.TrackInfo
  decodeArtist : bson.Value → Except String A

/-! ## `impl/funcs/updatetrack/updatetrack.go` -/

namespace updatetrack

/-- The struct `UpdateTrackStatsRequestBody` (line 53). -/
structure UpdateTrackStatsRequestBody where
  Streams : Nat
  Likes : Nat

/-- The struct `UpdateTrackAudioFeaturesRequestBody` (line 65). -/
structure UpdateTrackAudioFeaturesRequestBody where
  Key : String
  Tempo : F32
  Duration : F32
  Energy : F32
  Danceability : F32
  Accousticness : F32
  Instrumentalness : F32
  Liveness : F32
  Loudness : F32
  TimeSignature : Int

/-- The struct `UpdateTrackRequestBody` (line 26). -/
structure UpdateTrackRequestBody where
  ArtistID : String
  FeaturedArtistIDs : List String
  Title : String
  Label : String
  ReleaseDate : String
  TrackStats : UpdateTrackStatsRequestBody
  AudioFeatures : UpdateTrackAudioFeaturesRequestBody

/-- The struct `UpdateTrackErrorResponseBody` (line 101). -/
structure UpdateTrackErrorResponseBody where
  Message : String

/-- The struct `UpdateTrackValidationError` (line 110). -/
structure UpdateTrackValidationError where
  FieldRef : String
  ErrorMessage : String

/-- The struct `UpdateTrackPathValidationError` (line 122). -/
structure UpdateTrackPathValidationError where
  PathRef : String
  ErrorMessage : String

/-- The types of the non-nil response bodies of the update handler. -/
inductive ResponseBody where
  | PathValidationError (e : UpdateTrackPathValidationError)
  | ValidationError (e : UpdateTrackValidationError)
  | ErrorResponseBody (e : UpdateTrackErrorResponseBody)

/-- `GetSafeInjector` (line 143). -/
def GetSafeInjector {σ : Type} (object : inject.Object σ) : Except String (inject.Injector σ) :=
  match object with
  | inject.Object.Injector injector => Except.ok injector
  | inject.Object.other => Except.error "updatetrack: failed to deduce injector"

/-- `ExtractRequestBody` (line 164); `Unmarshal` is `json.Unmarshal` into a fresh
`UpdateTrackRequestBody`. -/
def ExtractRequestBody (Unmarshal : String → Except String UpdateTrackRequestBody)
    (request : api.APIRequest) : Except String UpdateTrackRequestBody :=
  match Unmarshal request.Body with
  | Except.error err => Except.error err
  | Except.ok body => Except.ok body

/-- `GetAndValidateID` (line 189); a missing map entry reads as `""`. -/
def GetAndValidateID {A : Type} (lib : Lib A) (request : api.APIRequest) :
    Except UpdateTrackPathValidationError String :=
  let id := (request.PathParameters.get? "id").getD ""
  if !lib.uuidParseOk id then
    Except.error ⟨":id", "value is not a valid uuid"⟩
  else
    Except.ok id

/-- `ValidateStatsRequestBody` (line 287). -/
def ValidateStatsRequestBody (_request : UpdateTrackStatsRequestBody) :
    Option UpdateTrackValidationError :=
  none

/-- `ValidateAudioFeaturesRequestBody` (line 302). -/
def ValidateAudioFeaturesRequestBody (_request : UpdateTrackAudioFeaturesRequestBody) :
    Option UpdateTrackValidationError :=
  none

/-- The loop over the trimmed featured artists in `ValidateRequestBody` (lines 234-242). -/
def ValidateRequestBody.loop {A : Type} (lib : Lib A) :
    List String → Option UpdateTrackValidationError
  | [] => none
  | artist :: rest =>
    if !lib.uuidParseOk artist then
      some ⟨"featuredArtistIds", "array contains invalid uuid"⟩
    else ValidateRequestBody.loop lib rest

/-- `ValidateRequestBody` (line 214); `none` is the nil result. -/
def ValidateRequestBody {A : Type} (lib : Lib A) (request : UpdateTrackRequestBody) :
    Option UpdateTrackValidationError :=
  if request.ArtistID ≠ "" ∧ !lib.uuidParseOk (strings.TrimSpace request.ArtistID) then
    some ⟨"artistId", "value is not a valid uuid"⟩
  else
    let featured : Option UpdateTrackValidationError :=
      if request.FeaturedArtistIDs.length > 0 then
        ValidateRequestBody.loop lib
          (arrays.Map request.FeaturedArtistIDs (fun artist => strings.TrimSpace artist))
      else none
    match featured with
    | some err => some err
    | none =>
      if request.Title ≠ "" ∧ (strings.TrimSpace request.Title).length = 0 then
        some ⟨"title", "value must not be empty"⟩
      else if request.ReleaseDate ≠ "" ∧
          (lib.timeParse "2006-01-02" (strings.TrimSpace request.ReleaseDate)).toBool = false then
        some ⟨"releaseDate", "expected following format: yyyy-MM-dd"⟩
      else
        match ValidateStatsRequestBody request.TrackStats with
        | some result => some result
        | none => ValidateAudioFeaturesRequestBody request.AudioFeatures

/-- `FindTrackByID` (line 319). -/
def FindTrackByID {σ A : Type} (lib : Lib A) (store : store.MongoStore σ models.TrackInfo)
    (id : String) (w : mongo.World σ) : Except String models.TrackInfo × mongo.World σ :=
  let filter : query.Filter :=
    { Root := some (query.IQuery.FilterOperatorEq "_id" (bson.Value.str id)), Limit := 1 }
  match store.FindItems lib.decodeTrack filter w with
  | (Except.error err, w) => (Except.error err, w)
  | (Except.ok [], w) => (Except.error "update: track not found", w)
  | (Except.ok (item :: _), w) => (Except.ok item, w)

/-- `CheckIfArtistExists` (line 353). -/
def CheckIfArtistExists {σ A : Type} (lib : Lib A) (store : store.MongoStore σ A)
    (artistID : String) (w : mongo.World σ) : Except String Unit × mongo.World σ :=
  let filter : query.Filter :=
    { Root := some (query.IQuery.FilterOperatorEq "_id" (bson.Value.str artistID)), Limit := 1 }
  match store.FindItems lib.decodeArtist filter w with
  | (Except.error err, w) => (Except.error err, w)
  | (Except.ok [], w) => (Except.error "artist not found", w)
  | (Except.ok (_ :: _), w) => (Except.ok (), w)

/-- The loop over the featured artists in `Handler` (lines 454-465): the response of the
first failing check, or `none` when the loop runs to its end. -/
def Handler.featuredLoop {σ A : Type} (lib : Lib A) (artistStore : store.MongoStore σ A) :
    List String → mongo.World σ → Option (api.APIResponse ResponseBody) × mongo.World σ
  | [], w => (none, w)
  | featuredArtist :: rest, w =>
    match CheckIfArtistExists lib artistStore featuredArtist w with
    | (Except.error _, w) =>
      (some { StatusCode := 400,
              Body := some (ResponseBody.ErrorResponseBody ⟨"featured artist does not exist"⟩) },
        w)
    | (Except.ok _, w) => Handler.featuredLoop lib artistStore rest w

/-- The selective merge of `Handler` (lines 468-535): the stored track after the
assignments from the request body. A failed `time.Parse` yields the zero time, its error
is discarded. -/
def Handler.merge {A : Type} (lib : Lib A) (trackInfo : models.TrackInfo)
    (requestBody : UpdateTrackRequestBody) : models.TrackInfo :=
  let trackInfo :=
    if requestBody.ArtistID ≠ "" then { trackInfo with ArtistID := requestBody.ArtistID }
    else trackInfo
  let trackInfo :=
    if requestBody.FeaturedArtistIDs.length > 0 then
      { trackInfo with FeaturedArtistIDs := requestBody.FeaturedArtistIDs }
    else trackInfo
  let trackInfo :=
    if requestBody.Title ≠ "" then { trackInfo with Title := requestBody.Title }
    else trackInfo
  let trackInfo :=
    if requestBody.Label ≠ "" then { trackInfo with Label := requestBody.Label }
    else trackInfo
  let trackInfo :=
    if requestBody.ReleaseDate ≠ "" then
      let releaseDate :=
        match lib.timeParse "2006-01-02" requestBody.ReleaseDate with
        | Except.ok t => t
        | Except.error _ => time.Time.zero
      { trackInfo with ReleaseDate := releaseDate }
    else trackInfo
  let trackInfo :=
    if requestBody.TrackStats.Streams ≠ 0 then
      { trackInfo with
        TrackStats := { trackInfo.TrackStats with Streams := requestBody.TrackStats.Streams } }
    else trackInfo
  let trackInfo :=
    if requestBody.TrackStats.Likes ≠ 0 then
      { trackInfo with
        TrackStats := { trackInfo.TrackStats with Likes := requestBody.TrackStats.Likes } }
    else trackInfo
  let trackInfo :=
    if requestBody.AudioFeatures.Key ≠ "" then
      { trackInfo with
        AudioFeatures := { trackInfo.AudioFeatures with Key := requestBody.AudioFeatures.Key } }
    else trackInfo
  let trackInfo :=
    if requestBody.AudioFeatures.Tempo.isNonZero then
      { trackInfo with
        AudioFeatures :=
          { trackInfo.AudioFeatures with Tempo := requestBody.AudioFeatures.Tempo } }
    else trackInfo
  let trackInfo :=
    if requestBody.AudioFeatures.Duration.isNonZero then
      { trackInfo with
        AudioFeatures :=
          { trackInfo.AudioFeatures with Duration := requestBody.AudioFeatures.Duration } }
    else trackInfo
  let trackInfo :=
    if requestBody.AudioFeatures.Energy.isNonZero then
      { trackInfo with
        AudioFeatures :=
          { trackInfo.AudioFeatures with Energy := requestBody.AudioFeatures.Energy } }
    else trackInfo
  let trackInfo :=
    if requestBody.AudioFeatures.Danceability.isNonZero then
      { trackInfo with
        AudioFeatures :=
          { trackInfo.AudioFeatures with
            Danceability := requestBody.AudioFeatures.Danceability } }
    else trackInfo
  let trackInfo :=
    if requestBody.AudioFeatures.Accousticness.isNonZero then
      { trackInfo with
        AudioFeatures :=
          { trackInfo.AudioFeatures with
            Accousticness := requestBody.AudioFeatures.Accousticness } }
    else trackInfo
  let trackInfo :=
    if requestBody.AudioFeatures.Instrumentalness.isNonZero then
      { trackInfo with
        AudioFeatures :=
          { trackInfo.AudioFeatures with
            Instrumentalness := requestBody.AudioFeatures.Instrumentalness } }
    else trackInfo
  let trackInfo :=
    if requestBody.AudioFeatures.Liveness.isNonZero then
      { trackInfo with
        AudioFeatures :=
          { trackInfo.AudioFeatures with Liveness := requestBody.AudioFeatures.Liveness } }
    else trackInfo
  let trackInfo :=
    if requestBody.AudioFeatures.Loudness.isNonZero then
      { trackInfo with
        AudioFeatures :=
          { trackInfo.AudioFeatures with
            Instrumentalness := requestBody.AudioFeatures.Loudness } }
    else trackInfo
  let trackInfo :=
    if requestBody.AudioFeatures.TimeSignature ≠ 0 then
      { trackInfo with
        AudioFeatures :=
          { trackInfo.AudioFeatures with
            TimeSignature := requestBody.AudioFeatures.TimeSignature } }
    else trackInfo
  trackInfo

/-- The value `updateOperator` of `Handler` (lines 544-566), built from the merged track. -/
def Handler.updateOperator (trackInfo : models.TrackInfo) : query.Update :=
  { Root := some (query.IQuery.UpdateOperatorSet [
      ("artistId", bson.Value.str trackInfo.ArtistID),
      ("featuredArtistIds", bson.Value.strs trackInfo.FeaturedArtistIDs),
      ("title", bson.Value.str trackInfo.Title),
      ("label", bson.Value.str trackInfo.Label),
      ("releaseDate", bson.Value.time trackInfo.ReleaseDate),
      ("trackStats.streams", bson.Value.uint32 trackInfo.TrackStats.Streams),
      ("trackStats.likes", bson.Value.uint32 trackInfo.TrackStats.Likes),
      ("audioFeatures.key", bson.Value.str trackInfo.AudioFeatures.Key),
      ("audioFeatures.tempo", bson.Value.float32 trackInfo.AudioFeatures.Tempo),
      ("audioFeatures.duration", bson.Value.float32 trackInfo.AudioFeatures.Duration),
      ("audioFeatures.energy", bson.Value.float32 trackInfo.AudioFeatures.Energy),
      ("audioFeatures.danceability", bson.Value.float32 trackInfo.AudioFeatures.Danceability),
      ("audioFeatures.accousticness", bson.Value.float32 trackInfo.AudioFeatures.Accousticness),
      ("audioFeatures.instrumentalness",
        bson.Value.float32 trackInfo.AudioFeatures.Instrumentalness),
      ("audioFeatures.liveness", bson.Value.float32 trackInfo.AudioFeatures.Liveness),
      ("audioFeatures.loudness", bson.Value.float32 trackInfo.AudioFeatures.Loudness),
      ("audioFeatures.timeSignature", bson.Value.int trackInfo.AudioFeatures.TimeSignature)]) }

/-- `Handler` (line 386). Logging and the request context, which only feeds the log, are
left out; `Unmarshal` is `json.Unmarshal` into an `UpdateTrackRequestBody`. -/
def Handler {σ A : Type} (lib : Lib A)
    (Unmarshal : String → Except String UpdateTrackRequestBody)
    (request : api.APIRequest) (object : inject.Object σ) (w : mongo.World σ) :
    api.APIResponse ResponseBody × mongo.World σ :=
  match GetSafeInjector object with
  | Except.error _ => ({ StatusCode := 500 }, w)
  | Except.ok injector =>
  match GetAndValidateID lib request with
  | Except.error validationErr =>
    ({ StatusCode := 400, Body := some (ResponseBody.PathValidationError validationErr) }, w)
  | Except.ok id =>
  let trackStore := store.NewMongoStore models.TrackInfo injector.MongoInstance "gostream" "tracks"
  let artistStore := store.NewMongoStore A injector.MongoInstance "gostream" "artists"
  match FindTrackByID lib trackStore id w with
  | (Except.error _, w) => ({ StatusCode := 404 }, w)
  | (Except.ok trackInfo, w) =>
  match ExtractRequestBody Unmarshal request with
  | Except.error _ =>
    ({ StatusCode := 400,
       Body := some (ResponseBody.ErrorResponseBody ⟨"invalid request body"⟩) }, w)
  | Except.ok requestBody =>
  match ValidateRequestBody lib requestBody with
  | some validationError =>
    ({ StatusCode := 400, Body := some (ResponseBody.ValidationError validationError) }, w)
  | none =>
  let artistCheck : Except String Unit × mongo.World σ :=
    if requestBody.ArtistID ≠ "" then CheckIfArtistExists lib artistStore requestBody.ArtistID w
    else (Except.ok (), w)
  match artistCheck with
  | (Except.error _, w) =>
    ({ StatusCode := 400,
       Body := some (ResponseBody.ErrorResponseBody ⟨"artist does not exist"⟩) }, w)
  | (Except.ok _, w) =>
  let featuredCheck : Option (api.APIResponse ResponseBody) × mongo.World σ :=
    if requestBody.FeaturedArtistIDs.length > 0 then
      Handler.featuredLoop lib artistStore requestBody.FeaturedArtistIDs w
    else (none, w)
  match featuredCheck with
  | (some response, w) => (response, w)
  | (none, w) =>
  let trackInfo := Handler.merge lib trackInfo requestBody
  let updateFilter : query.Filter :=
    { Root := some (query.IQuery.FilterOperatorEq "_id" (bson.Value.str id)), Limit := 0 }
  let updateOperator := Handler.updateOperator trackInfo
  match trackStore.UpdateItem updateFilter updateOperator w with
  | (Except.error _, w) => ({ StatusCode := 500 }, w)
  | (Except.ok count, w) =>
    if count = 0 then ({ StatusCode := 204 }, w)
    else ({ StatusCode := 204 }, w)

end updatetrack

/-! ### Sample data for concrete evaluations of the update handler -/

namespace updatetrack.sample

/-- A track id. -/
def id : String := "123e4567-e89b-12d3-a456-426614174000"

/-- A stored track; instrumentalness is 0.5 (`0x3F000000`), loudness is -7
(`0xC0E00000`), tempo is 120 (`0x42F00000`). -/
def track : models.TrackInfo :=
  { ID := id
    ArtistID := "9b2f8c1e-3d4a-4f6b-8a7c-5e6d7f8a9b0c"
    FeaturedArtistIDs := []
    Title := "Old Title"
    Label := "Label"
    ReleaseDate := ⟨63839664000, 0⟩
    TrackStats := { Streams := 10, Likes := 3 }
    AudioFeatures :=
      { Key := "A Minor", Tempo := ⟨0x42F00000⟩, Duration := ⟨0x42F00000⟩,
        Energy := ⟨0x3F000000⟩, Danceability := ⟨0x3F000000⟩, Accousticness := ⟨0x3F000000⟩,
        Instrumentalness := ⟨0x3F000000⟩, Liveness := ⟨0x3F000000⟩, Loudness := ⟨0xC0E00000⟩,
        TimeSignature := 4 } }

/-- Library functions that accept the id `id` and the date `2024-01-01` only and decode
every document to `track`. -/
def lib : Lib Unit :=
  { uuidParseOk := fun s => s == id
    timeParse := fun _ value =>
      if value == "2024-01-01" then Except.ok ⟨63839664000, 0⟩ else Except.error "parsing time"
    decodeTrack := fun _ => Except.ok track
    decodeArtist := fun _ => Except.ok () }

/-- A database without state whose `Find` yields one document and whose `UpdateOne`
modifies one. -/
def client : mongo.Client Unit :=
  { InsertOne := fun _ _ _ s => (Except.ok (), s)
    UpdateOne := fun _ _ _ _ s => (Except.ok 1, s)
    Find := fun _ _ _ _ s => (Except.ok [bson.Value.null], s)
    DeleteOne := fun _ _ _ s => (Except.ok 1, s) }

/-- The request `PUT /tracks/<id>` with the given body. -/
def request (body : String) : api.APIRequest :=
  { Url := "/tracks/123e4567-e89b-12d3-a456-426614174000"
    Path := "/tracks/123e4567-e89b-12d3-a456-426614174000"
    Method := "PUT"
    Headers := []
    PathParameters := [("id", id)]
    QueryParameters := []
    Body := body }

/-- The request body all of whose fields have their zero value. -/
def emptyBody : UpdateTrackRequestBody :=
  { ArtistID := "", FeaturedArtistIDs := [], Title := "", Label := "", ReleaseDate := ""
    TrackStats := { Streams := 0, Likes := 0 }
    AudioFeatures :=
      { Key := "", Tempo := ⟨0⟩, Duration := ⟨0⟩, Energy := ⟨0⟩, Danceability := ⟨0⟩,
        Accousticness := ⟨0⟩, Instrumentalness := ⟨0⟩, Liveness := ⟨0⟩, Loudness := ⟨0⟩,
        TimeSignature := 0 } }

/-- The decoded body `{"title": "New Title"}`. -/
def titleOnly : UpdateTrackRequestBody := { emptyBody with Title := "New Title" }

/-- The decoded body `{"audioFeatures": {"loudness": -5}}`; -5 is `0xC0A00000`. -/
def loudnessOnly : UpdateTrackRequestBody :=
  { emptyBody with AudioFeatures := { emptyBody.AudioFeatures with Loudness := ⟨0xC0A00000⟩ } }

end updatetrack.sample

/-! ## The remaining store operations (`pkg/store/mongo.go`) -/

/-- The call `collection.InsertOne(ctx, document)`. -/
def mongo.Collection.InsertOne {σ : Type} (c : mongo.Collection σ) (document : bson.Value)
    (w : mongo.World σ) : Except String Unit × mongo.World σ :=
  let r := c.client.InsertOne c.database c.name document w.db
  (r.1, ⟨r.2, w.calls ++ [mongo.Call.InsertOne c.database c.name document]⟩)

/-- The call `collection.DeleteOne(ctx, filter)`. -/
def mongo.Collection.DeleteOne {σ : Type} (c : mongo.Collection σ) (filter : bson.M)
    (w : mongo.World σ) : Except String Int × mongo.World σ :=
  let r := c.client.DeleteOne c.database c.name filter w.db
  (r.1, ⟨r.2, w.calls ++ [mongo.Call.DeleteOne c.database c.name filter]⟩)

/-- `CreateItem` (line 102). The `interface{}` argument is given as the document the
driver marshals it to. -/
def store.MongoStore.CreateItem {σ T : Type} (store : store.MongoStore σ T)
    (item : bson.Value) (w : mongo.World σ) : Except String Unit × mongo.World σ :=
  match store.Collection.InsertOne item w with
  | (Except.error err, w) => (Except.error err, w)
  | (Except.ok _, w) => (Except.ok (), w)

/-- `DeleteItem` (line 211). Go's `(0, err)` is `Except.error err`. -/
def store.MongoStore.DeleteItem {σ T : Type} (store : store.MongoStore σ T) (id : String)
    (w : mongo.World σ) : Except String Int × mongo.World σ :=
  match store.Collection.DeleteOne [("_id", bson.Value.str id)] w with
  | (Except.error err, w) => (Except.error err, w)
  | (Except.ok result, w) => (Except.ok result, w)

/-- The document a `models.TrackInfo` is marshalled to, field by field under the names of
its `bson` struct tags (`track.go` lines 9-82). -/
def models.TrackInfo.Marshal (t : models.TrackInfo) : bson.Value :=
  bson.Value.doc [
    ("_id", bson.Value.str t.ID),
    ("artistId", bson.Value.str t.ArtistID),
    ("featuredArtistIds", bson.Value.strs t.FeaturedArtistIDs),
    ("title", bson.Value.str t.Title),
    ("label", bson.Value.str t.Label),
    ("releaseDate", bson.Value.time t.ReleaseDate),
    ("trackStats", bson.Value.doc [
      ("streams", bson.Value.uint32 t.TrackStats.Streams),
      ("likes", bson.Value.uint32 t.TrackStats.Likes)]),
    ("audioFeatures", bson.Value.doc [
      ("key", bson.Value.str t.AudioFeatures.Key),
      ("tempo", bson.Value.float32 t.AudioFeatures.Tempo),
      ("duration", bson.Value.float32 t.AudioFeatures.Duration),
      ("energy", bson.Value.float32 t.AudioFeatures.Energy),
      ("danceability", bson.Value.float32 t.AudioFeatures.Danceability),
      ("accousticness", bson.Value.float32 t.AudioFeatures.Accousticness),
      ("instrumentalness", bson.Value.float32 t.AudioFeatures.Instrumentalness),
      ("liveness", bson.Value.float32 t.AudioFeatures.Liveness),
      ("loudness", bson.Value.float32 t.AudioFeatures.Loudness),
      ("timeSignature", bson.Value.int t.AudioFeatures.TimeSignature)])]

/-! ## Go's `strconv.Atoi` and `time.Parse` (standard library) -/

namespace strconv

/-- The value of a string of decimal digits read after the value `acc`, `none` when a
character is not one of `0` to `9`. -/
def parseDigits : List Char → Nat → Option Nat
  | [], acc => some acc
  | c :: cs, acc =>
    if '0' ≤ c ∧ c ≤ '9' then parseDigits cs (acc * 10 + (c.toNat - '0'.toNat)) else none

/-- `strconv.Atoi(s)` for the 64 bit `int`: an optional sign `+` or `-`, then at least one
decimal digit and nothing else; a value outside the range of `int` is an error. Only the
distinction between a nil and a non-nil error is kept. -/
def Atoi (s : String) : Except String Int :=
  let neg : Bool := s.data.head? = some '-'
  let digits : List Char :=
    if s.data.head? = some '-' ∨ s.data.head? = some '+' then s.data.tail else s.data
  if digits = [] then Except.error "invalid syntax"
  else
    match parseDigits digits 0 with
    | none => Except.error "invalid syntax"
    | some n =>
      let value : Int := if neg then -(n : Int) else (n : Int)
      if value < -(2 ^ 63) ∨ 2 ^ 63 - 1 < value then Except.error "value out of range"
      else Except.ok value

end strconv

namespace time

/-- Whether `year` is a leap year. -/
def isLeap (year : Nat) : Bool := year % 4 = 0 && (year % 100 != 0 || year % 400 = 0)

/-- The number of days of `month` (1 to 12) in `year`. -/
def daysIn (month year : Nat) : Nat :=
  if month = 2 then (if isLeap year then 29 else 28)
  else if month = 4 ∨ month = 6 ∨ month = 9 ∨ month = 11 then 30
  else 31

/-- The number of days from January 1 of `year` to the first day of `month`. -/
def daysBefore (month year : Nat) : Nat :=
  ((List.range (month - 1)).map (fun m => daysIn (m + 1) year)).sum

/-- `time.Date(year, month, day, 0, 0, 0, 0, time.UTC)` for a valid date. -/
def Date (year month day : Nat) : time.Time :=
  let y : Int := (year : Int) - 1
  let days : Int := 365 * y + y / 4 - y / 100 + y / 400 + daysBefore month year + day - 1
  ⟨days * 86400, 0⟩

/-- The two digit number `c1 c2`, `none` unless both are decimal digits. -/
def twoDigits (c1 c2 : Char) : Option Nat := strconv.parseDigits [c1, c2] 0

/-- `time.Parse("2006-01-02", value)`: `value` must be four digits, `-`, two digits, `-`,
two digits and nothing else, the month must lie in 1 to 12 and the day in 1 to the length
of the month. -/
def ParseDate (value : String) : Except String time.Time :=
  match value.data with
  | [y1, y2, y3, y4, s1, m1, m2, s2, d1, d2] =>
    if s1 = '-' ∧ s2 = '-' then
      match strconv.parseDigits [y1, y2, y3, y4] 0, twoDigits m1 m2, twoDigits d1 d2 with
      | some year, some month, some day =>
        if month = 0 ∨ 12 < month then Except.error "parsing time: month out of range"
        else if day < 1 ∨ daysIn month year < day then
          Except.error "parsing time: day out of range"
        else Except.ok (Date year month day)
      | _, _, _ => Except.error "parsing time: cannot parse"
    else Except.error "parsing time: cannot parse"
  | _ => Except.error "parsing time: cannot parse"

end time

/-! ## `impl/funcs/createtrack/createtrack.go` -/

namespace createtrack

/-- The struct `CreateTrackStatsRequestBody` (line 52). -/
structure CreateTrackStatsRequestBody where
  Streams : Nat
  Likes : Nat

/-- The struct `CreateTrackAudioFeaturesRequestBody` (line 64). -/
structure CreateTrackAudioFeaturesRequestBody where
  Key : String
  Tempo : F32
  Duration : F32
  Energy : F32
  Danceability : F32
  Accousticness : F32
  Instrumentalness : F32
  Liveness : F32
  Loudness : F32
  TimeSignature : Int

/-- The struct `CreateTrackRequestBody` (line 26). -/
structure CreateTrackRequestBody where
  ArtistID : String
  FeaturedArtistIDs : List String
  Title : String
  Label : String
  ReleaseDate : String
  TrackStats : CreateTrackStatsRequestBody
  AudioFeatures : CreateTrackAudioFeaturesRequestBody

/-- The struct `CreateTrackErrorResponseBody` (line 100). -/
structure CreateTrackErrorResponseBody where
  Message : String

/-- The struct `CreateTrackValidationError` (line 109). -/
structure CreateTrackValidationError where
  FieldRef : String
  ErrorMessage : String

/-- The types of the non-nil response bodies of the create handler. -/
inductive ResponseBody where
  | ErrorResponseBody (e : CreateTrackErrorResponseBody)
  | ValidationError (e : CreateTrackValidationError)
  | Track (track : models.TrackInfo)

/-- `GetSafeInjector` (line 130). -/
def GetSafeInjector {σ : Type} (object : inject.Object σ) : Except String (inject.Injector σ) :=
  match object with
  | inject.Object.Injector injector => Except.ok injector
  | inject.Object.other => Except.error "createtrack: failed to deduce injector"

/-- `ExtractRequestBody` (line 151); `Unmarshal` is `json.Unmarshal` into a fresh
`CreateTrackRequestBody`. -/
def ExtractRequestBody (Unmarshal : String → Except String CreateTrackRequestBody)
    (request : api.APIRequest) : Except String CreateTrackRequestBody :=
  match Unmarshal request.Body with
  | Except.error err => Except.error err
  | Except.ok body => Except.ok body

/-- `ValidateStatsRequestBody` (line 236). -/
def ValidateStatsRequestBody (_request : CreateTrackStatsRequestBody) :
    Option CreateTrackValidationError :=
  none

/-- `ValidateAudioFeaturesRequestBody` (line 251). -/
def ValidateAudioFeaturesRequestBody (_request : CreateTrackAudioFeaturesRequestBody) :
    Option CreateTrackValidationError :=
  none

/-- The loop over the trimmed featured artists in `ValidateRequestBody` (lines 192-200). -/
def ValidateRequestBody.loop {A : Type} (lib : Lib A) :
    List String → Option CreateTrackValidationError
  | [] => none
  | artist :: rest =>
    if !lib.uuidParseOk artist then
      some ⟨"featuredArtistIds", "array contains invalid uuid"⟩
    else ValidateRequestBody.loop lib rest

/-- `ValidateRequestBody` (line 175); `none` is the nil result. -/
def ValidateRequestBody {A : Type} (lib : Lib A) (request : CreateTrackRequestBody) :
    Option CreateTrackValidationError :=
  let artistID := strings.TrimSpace request.ArtistID
  let featuredArtistIDs :=
    arrays.Map request.FeaturedArtistIDs (fun artist => strings.TrimSpace artist)
  let title := strings.TrimSpace request.Title
  let releaseDate := strings.TrimSpace request.ReleaseDate
  if !lib.uuidParseOk artistID then
    some ⟨"artistId", "value is not a valid uuid"⟩
  else
    match ValidateRequestBody.loop lib featuredArtistIDs with
    | some err => some err
    | none =>
      if title.length = 0 then
        some ⟨"title", "value must not be empty"⟩
      else if (lib.timeParse "2006-01-02" releaseDate).toBool = false then
        some ⟨"releaseDate", "expected following format: yyyy-MM-dd"⟩
      else
        match ValidateStatsRequestBody request.TrackStats with
        | some result => some result
        | none => ValidateAudioFeaturesRequestBody request.AudioFeatures

/-- `CheckIfArtistExists` (line 268). -/
def CheckIfArtistExists {σ A : Type} (lib : Lib A) (store : store.MongoStore σ A)
    (artistID : String) (w : mongo.World σ) : Except String Unit × mongo.World σ :=
  let filter : query.Filter :=
    { Root := some (query.IQuery.FilterOperatorEq "_id" (bson.Value.str artistID)), Limit := 1 }
  match store.FindItems lib.decodeArtist filter w with
  | (Except.error err, w) => (Except.error err, w)
  | (Except.ok [], w) => (Except.error "artist not found", w)
  | (Except.ok (_ :: _), w) => (Except.ok (), w)

/-- The loop over the featured artists in `Handler` (lines 349-360): the response of the
first failing check, or `none` when the loop runs to its end. -/
def Handler.featuredLoop {σ A : Type} (lib : Lib A) (artistStore : store.MongoStore σ A) :
    List String → mongo.World σ → Option (api.APIResponse ResponseBody) × mongo.World σ
  | [], w => (none, w)
  | featuredArtist :: rest, w =>
    match CheckIfArtistExists lib artistStore featuredArtist w with
    | (Except.error _, w) =>
      (some { StatusCode := 400,
              Body := some (ResponseBody.ErrorResponseBody ⟨"featured artist does not exist"⟩) },
        w)
    | (Except.ok _, w) => Handler.featuredLoop lib artistStore rest w

/-- The value `track` of `Handler` (lines 362-386); `newID` is `uuid.New().String()`. A
failed `time.Parse` yields the zero time, its error is discarded. -/
def Handler.track {A : Type} (lib : Lib A) (newID : String)
    (requestBody : CreateTrackRequestBody) : models.TrackInfo :=
  let releaseDate :=
    match lib.timeParse "2006-01-02" requestBody.ReleaseDate with
    | Except.ok t => t
    | Except.error _ => time.Time.zero
  { ID := newID
    ArtistID := requestBody.ArtistID
    FeaturedArtistIDs := requestBody.FeaturedArtistIDs
    Title := requestBody.Title
    Label := requestBody.Label
    ReleaseDate := releaseDate
    TrackStats :=
      { Streams := requestBody.TrackStats.Streams
        Likes := requestBody.TrackStats.Likes }
    AudioFeatures :=
      { Key := requestBody.AudioFeatures.Key
        Tempo := requestBody.AudioFeatures.Tempo
        Duration := requestBody.AudioFeatures.Duration
        Energy := requestBody.AudioFeatures.Energy
        Danceability := requestBody.AudioFeatures.Danceability
        Accousticness := requestBody.AudioFeatures.Accousticness
        Instrumentalness := requestBody.AudioFeatures.Instrumentalness
        Liveness := requestBody.AudioFeatures.Liveness
        Loudness := requestBody.AudioFeatures.Loudness
        TimeSignature := requestBody.AudioFeatures.TimeSignature } }

/-- `Handler` (line 301). Logging and the request context, which only feeds the log, are
left out; `Unmarshal` is `json.Unmarshal` into a `CreateTrackRequestBody` and `newID` the
string of the id that `uuid.New()` generates. -/
def Handler {σ A : Type} (lib : Lib A)
    (Unmarshal : String → Except String CreateTrackRequestBody) (newID : String)
    (request : api.APIRequest) (object : inject.Object σ) (w : mongo.World σ) :
    api.APIResponse ResponseBody × mongo.World σ :=
  match GetSafeInjector object with
  | Except.error _ => ({ StatusCode := 500 }, w)
  | Except.ok injector =>
  match ExtractRequestBody Unmarshal request with
  | Except.error _ =>
    ({ StatusCode := 400,
       Body := some (ResponseBody.ErrorResponseBody ⟨"invalid request body"⟩) }, w)
  | Except.ok requestBody =>
  match ValidateRequestBody lib requestBody with
  | some validationError =>
    ({ StatusCode := 400, Body := some (ResponseBody.ValidationError validationError) }, w)
  | none =>
  let trackStore := store.NewMongoStore models.TrackInfo injector.MongoInstance "gostream" "tracks"
  let artistStore := store.NewMongoStore A injector.MongoInstance "gostream" "artists"
  match CheckIfArtistExists lib artistStore requestBody.ArtistID w with
  | (Except.error _, w) =>
    ({ StatusCode := 400,
       Body := some (ResponseBody.ErrorResponseBody ⟨"artist does not exist"⟩) }, w)
  | (Except.ok _, w) =>
  match Handler.featuredLoop lib artistStore requestBody.FeaturedArtistIDs w with
  | (some response, w) => (response, w)
  | (none, w) =>
  let track := Handler.track lib newID requestBody
  match trackStore.CreateItem track.Marshal w with
  | (Except.error _, w) => ({ StatusCode := 500 }, w)
  | (Except.ok _, w) => ({ StatusCode := 200, Body := some (ResponseBody.Track track) }, w)

end createtrack

/-! ## `impl/funcs/gettrack/gettrack.go` -/

namespace gettrack

/-- `GetSafeInjector` (line 30); its `context` argument is not used. -/
def GetSafeInjector {σ : Type} (object : inject.Object σ) : Except String (inject.Injector σ) :=
  match object with
  | inject.Object.Injector injector => Except.ok injector
  | inject.Object.other => Except.error "gettrackbyid: failed to deduce injector"

/-- `Handler` (line 52), without logging; a missing map entry reads as `""`. The response
body is the track found. -/
def Handler {σ A : Type} (lib : Lib A) (request : api.APIRequest) (object : inject.Object σ)
    (w : mongo.World σ) : api.APIResponse models.TrackInfo × mongo.World σ :=
  match GetSafeInjector object with
  | Except.error _ => ({ StatusCode := 500 }, w)
  | Except.ok injector =>
  let store := store.NewMongoStore models.TrackInfo injector.MongoInstance "tracks" "tracks"
  let filter : query.Filter :=
    { Root := some (query.IQuery.FilterOperatorEq "_id"
        (bson.Value.str ((request.PathParameters.get? "id").getD ""))),
      Limit := 10 }
  match store.FindItems lib.decodeTrack filter w with
  | (Except.error _, w) => ({ StatusCode := 500 }, w)
  | (Except.ok [], w) => ({ StatusCode := 404 }, w)
  | (Except.ok (resultItem :: _), w) => ({ StatusCode := 200, Body := some resultItem }, w)

end gettrack

/-! ## `impl/funcs/gettracks/gettracks.go` -/

namespace gettracks

/-- `GetSafeInjector` (line 30). -/
def GetSafeInjector {σ : Type} (object : inject.Object σ) : Except String (inject.Injector σ) :=
  match object with
  | inject.Object.Injector injector => Except.ok injector
  | inject.Object.other => Except.error "gettracks: failed to deduce injector"

/-- `CreateFilterFromQueryParameters` (line 84). `uint32(realLimit)` keeps the low 32
bits of the `int`. -/
def CreateFilterFromQueryParameters (request : api.APIRequest) : query.Filter :=
  let andFilter : List query.IQuery := []
  let limit := request.QueryParameters.get? "limit"
  let realLimit : Option (Except String Int) :=
    match limit with
    | some limit => some (strconv.Atoi limit)
    | none => none
  let artist := request.QueryParameters.get? "artist"
  let andFilter : List query.IQuery :=
    match artist with
    | some artist =>
      andFilter ++ [query.IQuery.FilterOperatorEq "artistId" (bson.Value.str artist)]
    | none => andFilter
  let resultFilter : query.Filter := { Root := none, Limit := 0 }
  let resultFilter : query.Filter :=
    match realLimit with
    | some (Except.ok realLimit) => { resultFilter with Limit := (realLimit % 2 ^ 32).toNat }
    | _ => resultFilter
  let resultFilter : query.Filter :=
    if andFilter.length > 0 then
      { resultFilter with Root := some (query.IQuery.FilterOperatorAnd andFilter) }
    else resultFilter
  resultFilter

/-- `Handler` (line 52), without logging. The response body is the list of tracks. -/
def Handler {σ A : Type} (lib : Lib A) (request : api.APIRequest) (object : inject.Object σ)
    (w : mongo.World σ) : api.APIResponse (List models.TrackInfo) × mongo.World σ :=
  match GetSafeInjector object with
  | Except.error _ => ({ StatusCode := 500 }, w)
  | Except.ok injector =>
  let store := store.NewMongoStore models.TrackInfo injector.MongoInstance "gostream" "tracks"
  let filter := CreateFilterFromQueryParameters request
  match store.FindItems lib.decodeTrack filter w with
  | (Except.error _, w) => ({ StatusCode := 500 }, w)
  | (Except.ok items, w) => ({ StatusCode := 200, Body := some items }, w)

end gettracks

/-! ## `impl/funcs/deletetrack/deletetrack.go` -/

namespace deletetrack

/-- `GetSafeInjector` (line 29); its `context` argument is not used. -/
def GetSafeInjector {σ : Type} (object : inject.Object σ) : Except String (inject.Injector σ) :=
  match object with
  | inject.Object.Injector injector => Except.ok injector
  | inject.Object.other => Except.error "gettrackbyid: failed to deduce injector"

/-- `Handler` (line 51), without logging; a missing map entry reads as `""`. No response
of this handler has a body. -/
def Handler {σ : Type} (request : api.APIRequest) (object : inject.Object σ)
    (w : mongo.World σ) : api.APIResponse Empty × mongo.World σ :=
  match GetSafeInjector object with
  | Except.error _ => ({ StatusCode := 500 }, w)
  | Except.ok injector =>
  let idToDelete := (request.PathParameters.get? "id").getD ""
  let store := store.NewMongoStore models.TrackInfo injector.MongoInstance "tracks" "tracks"
  match store.DeleteItem idToDelete w with
  | (Except.error _, w) => ({ StatusCode := 500 }, w)
  | (Except.ok count, w) =>
    if count = 0 then ({ StatusCode := 204 }, w)
    else ({ StatusCode := 202 }, w)

end deletetrack

/-! ### Sample library functions and sample databases for concrete evaluations -/

namespace sample

/-- Whether `c` is a hexadecimal digit. -/
def isHex (c : Char) : Bool :=
  ('0' ≤ c && c ≤ '9') || ('a' ≤ c && c ≤ 'f') || ('A' ≤ c && c ≤ 'F')

/-- Whether `s` has the canonical form of a UUID: 36 characters, `-` at the positions 8,
13, 18 and 23 and hexadecimal digits elsewhere. -/
def uuidCanonical (s : String) : Bool :=
  s.data.length = 36 &&
  (List.range 36).all (fun i =>
    if i = 8 ∨ i = 13 ∨ i = 18 ∨ i = 23 then s.data.getD i ' ' == '-'
    else isHex (s.data.getD i ' '))

/-- The field `key` of a document. -/
def field (document : bson.Value) (key : String) : Option bson.Value :=
  match document with
  | bson.Value.doc m => GoMap.get? m key
  | _ => none

/-- The string field `key` of a document. -/
def getStr (document : bson.Value) (key : String) : Except String String :=
  match field document key with
  | some (bson.Value.str s) => Except.ok s
  | _ => Except.error "cannot decode"

/-- The `float32` field `key` of a document. -/
def getF32 (document : bson.Value) (key : String) : Except String F32 :=
  match field document key with
  | some (bson.Value.float32 x) => Except.ok x
  | _ => Except.error "cannot decode"

/-- The `uint32` field `key` of a document. -/
def getU32 (document : bson.Value) (key : String) : Except String Nat :=
  match field document key with
  | some (bson.Value.uint32 n) => Except.ok n
  | _ => Except.error "cannot decode"

/-- The sub-document `key` of a document. -/
def getDoc (document : bson.Value) (key : String) : Except String bson.Value :=
  match field document key with
  | some (bson.Value.doc m) => Except.ok (bson.Value.doc m)
  | _ => Except.error "cannot decode"

/-- Decodes a document of the shape of `models.TrackInfo.Marshal`. -/
def decodeTrack (document : bson.Value) : Except String models.TrackInfo := do
  let id ← getStr document "_id"
  let artistID ← getStr document "artistId"
  let featured ←
    match field document "featuredArtistIds" with
    | some (bson.Value.strs xs) => Except.ok xs
    | _ => Except.error "cannot decode"
  let title ← getStr document "title"
  let label ← getStr document "label"
  let releaseDate ←
    match field document "releaseDate" with
    | some (bson.Value.time t) => Except.ok t
    | _ => Except.error "cannot decode"
  let stats ← getDoc document "trackStats"
  let streams ← getU32 stats "streams"
  let likes ← getU32 stats "likes"
  let audio ← getDoc document "audioFeatures"
  let key ← getStr audio "key"
  let tempo ← getF32 audio "tempo"
  let duration ← getF32 audio "duration"
  let energy ← getF32 audio "energy"
  let danceability ← getF32 audio "danceability"
  let accousticness ← getF32 audio "accousticness"
  let instrumentalness ← getF32 audio "instrumentalness"
  let liveness ← getF32 audio "liveness"
  let loudness ← getF32 audio "loudness"
  let timeSignature ←
    match field audio "timeSignature" with
    | some (bson.Value.int i) => Except.ok i
    | _ => Except.error "cannot decode"
  return { ID := id, ArtistID := artistID, FeaturedArtistIDs := featured, Title := title,
           Label := label, ReleaseDate := releaseDate,
           TrackStats := { Streams := streams, Likes := likes },
           AudioFeatures :=
             { Key := key, Tempo := tempo, Duration := duration, Energy := energy,
               Danceability := danceability, Accousticness := accousticness,
               Instrumentalness := instrumentalness, Liveness := liveness,
               Loudness := loudness, TimeSignature := timeSignature } }

/-- Library functions: UUIDs in canonical form, dates by `time.ParseDate`, tracks decoded
from the shape they are marshalled to, every artist document decoded. -/
def lib : Lib Unit :=
  { uuidParseOk := uuidCanonical
    timeParse := fun _ value => time.ParseDate value
    decodeTrack := decodeTrack
    decodeArtist := fun _ => Except.ok () }

/-- The state of the sample database: the stored documents, each with the names of its
database and its collection, oldest first. -/
abbrev Memory : Type := List (String × String × bson.Value)

/-- Whether a document satisfies a query all of whose entries ask for a field to equal a
string (the only queries the handlers that read the sample database send). -/
def agrees (filter : bson.M) (document : bson.Value) : Bool :=
  filter.all (fun kv =>
    match kv.2, field document kv.1 with
    | bson.Value.str a, some (bson.Value.str b) => a == b
    | _, _ => false)

/-- Whether a stored entry lies in the given collection and satisfies the query. -/
def selected (database collection : String) (filter : bson.M)
    (entry : String × String × bson.Value) : Bool :=
  entry.1 == database && entry.2.1 == collection && agrees filter entry.2.2

/-- A database in memory: `InsertOne` appends the document to its collection, `Find`
yields the documents of the collection that satisfy the query, at most `limit` of them
when `limit` is positive, `DeleteOne` removes the first such document; `UpdateOne` is not
supported and answers an error. -/
def memoryClient : mongo.Client Memory :=
  { InsertOne := fun database collection document s =>
      (Except.ok (), s ++ [(database, collection, document)])
    UpdateOne := fun _ _ _ _ s => (Except.error "update is not supported", s)
    Find := fun database collection filter limit s =>
      let found := (s.filter (selected database collection filter)).map (fun e => e.2.2)
      (Except.ok (if 0 < limit then found.take limit.toNat else found), s)
    DeleteOne := fun database collection filter s =>
      if s.any (selected database collection filter) then
        (Except.ok 1, s.eraseP (selected database collection filter))
      else (Except.ok 0, s) }

/-- The database in memory with every write answered by an error. -/
def readOnlyClient : mongo.Client Memory :=
  { memoryClient with
    InsertOne := fun _ _ _ s => (Except.error "read only", s)
    DeleteOne := fun _ _ _ s => (Except.error "read only", s) }

/-- A database that answers every call with an error. -/
def downClient : mongo.Client Memory :=
  { InsertOne := fun _ _ _ s => (Except.error "connection lost", s)
    UpdateOne := fun _ _ _ _ s => (Except.error "connection lost", s)
    Find := fun _ _ _ _ s => (Except.error "connection lost", s)
    DeleteOne := fun _ _ _ s => (Except.error "connection lost", s) }

/-- The database in memory with every `Find` on a collection named `artists` answered by
an error. -/
def artistsDownClient : mongo.Client Memory :=
  { memoryClient with
    Find := fun database collection filter limit s =>
      if collection == "artists" then (Except.error "connection lost", s)
      else memoryClient.Find database collection filter limit s }

/-- The id of an artist. -/
def artistID : String := "9b2f8c1e-3d4a-4f6b-8a7c-5e6d7f8a9b0c"

/-- The id of another artist. -/
def featuredID : String := "0a1b2c3d-4e5f-4a6b-8c7d-9e0f1a2b3c4d"

/-- The id generated for a new track. -/
def newID : String := "123e4567-e89b-12d3-a456-426614174000"

/-- A stored artist document. -/
def artistDocument (id : String) : bson.Value := bson.Value.doc [("_id", bson.Value.str id)]

/-- A database state with the one artist `artistID` and no track. -/
def oneArtist : Memory := [("gostream", "artists", artistDocument artistID)]

/-- A decoded create request body naming the artist `artistID`, released 2024-01-01. -/
def createBody : createtrack.CreateTrackRequestBody :=
  { ArtistID := artistID, FeaturedArtistIDs := [], Title := "Title", Label := "Label"
    ReleaseDate := "2024-01-01"
    TrackStats := { Streams := 0, Likes := 0 }
    AudioFeatures :=
      { Key := "A Minor", Tempo := ⟨0x42F00000⟩, Duration := ⟨0x42F00000⟩,
        Energy := ⟨0x3F000000⟩, Danceability := ⟨0x3F000000⟩, Accousticness := ⟨0x3F000000⟩,
        Instrumentalness := ⟨0x3F000000⟩, Liveness := ⟨0x3F000000⟩, Loudness := ⟨0xC0E00000⟩,
        TimeSignature := 4 } }

/-- A request with the given method, path parameters, query parameters and body. -/
def request (method : String) (pathParameters queryParameters : GoMap String)
    (body : String) : api.APIRequest :=
  { Url := "/tracks", Path := "/tracks", Method := method, Headers := []
    PathParameters := pathParameters, QueryParameters := queryParameters, Body := body }

/-- The track the create handler builds from `createBody` with the id `newID`. -/
def createdTrack : models.TrackInfo := createtrack.Handler.track lib newID createBody

/-- A database state with the artist `artistID` and, in the collection `tracks` of the
database `gostream`, the track `createdTrack`. -/
def artistAndTrack : Memory :=
  [("gostream", "artists", artistDocument artistID),
   ("gostream", "tracks", createdTrack.Marshal)]

/-- A decoded update request body that names the artist `artistID` and nothing else. -/
def updateBody : updatetrack.UpdateTrackRequestBody :=
  { ArtistID := artistID, FeaturedArtistIDs := [], Title := "", Label := "", ReleaseDate := ""
    TrackStats := { Streams := 0, Likes := 0 }
    AudioFeatures :=
      { Key := "", Tempo := ⟨0⟩, Duration := ⟨0⟩, Energy := ⟨0⟩, Danceability := ⟨0⟩,
        Accousticness := ⟨0⟩, Instrumentalness := ⟨0⟩, Liveness := ⟨0⟩, Loudness := ⟨0⟩,
        TimeSignature := 0 } }

/-- A request whose `id` path parameter is `newID`. -/
def idRequest : api.APIRequest := request "PUT" [("id", newID)] [] ""

end sample

/-! ## The musical key constants of `impl/models/track.go` -/

namespace models

/-- The constant `AudioKeyAmin` (`track.go`). -/
def AudioKeyAmin : String := "A Minor"

/-- The constant `AudioKeyBmin` (`track.go`). -/
def AudioKeyBmin : String := "B Minor"

/-- The constant `AudioKeyCmin` (`track.go`). -/
def AudioKeyCmin : String := "C Minor"

/-- The constant `AudioKeyDmin` (`track.go`). -/
def AudioKeyDmin : String := "D Minor"

/-- The constant `AudioKeyEmin` (`track.go`). -/
def AudioKeyEmin : String := "E Minor"

/-- The constant `AudioKeyFmin` (`track.go`). -/
def AudioKeyFmin : String := "F Minor"

/-- The constant `AudioKeyGmin` (`track.go`). -/
def AudioKeyGmin : String := "G Minor"

/-- The constant `AudioKeyAmaj` (`track.go`). -/
def AudioKeyAmaj : String := "A Major"

/-- The constant `AudioKeyBmaj` (`track.go`). -/
def AudioKeyBmaj : String := "B Major"

/-- The constant `AudioKeyCmaj` (`track.go`). -/
def AudioKeyCmaj : String := "C Major"

/-- The constant `AudioKeyDmaj` (`track.go`). -/
def AudioKeyDmaj : String := "D Major"

/-- The constant `AudioKeyEmaj` (`track.go`). -/
def AudioKeyEmaj : String := "E Major"

/-- The constant `AudioKeyFmaj` (`track.go`). -/
def AudioKeyFmaj : String := "F Major"

/-- The constant `AudioKeyGmaj` (`track.go`). -/
def AudioKeyGmaj : String := "G Major"

/-- The constant `AudioKeyAsharpmin` (`track.go`). -/
def AudioKeyAsharpmin : String := "A# Minor"

/-- The constant `AudioKeyBsharpmin` (`track.go`). -/
def AudioKeyBsharpmin : String := "B# Minor"

/-- The constant `AudioKeyCsharpmin` (`track.go`). -/
def AudioKeyCsharpmin : String := "C# Minor"

/-- The constant `AudioKeyDsharpmin` (`track.go`). -/
def AudioKeyDsharpmin : String := "D# Minor"

/-- The constant `AudioKeyEsharpmin` (`track.go`). -/
def AudioKeyEsharpmin : String := "E# Minor"

/-- The constant `AudioKeyFsharpmin` (`track.go`). -/
def AudioKeyFsharpmin : String := "F# Minor"

/-- The constant `AudioKeyGsharpmin` (`track.go`). -/
def AudioKeyGsharpmin : String := "G# Minor"

/-- The constant `AudioKeyAflatmaj` (`track.go`). -/
def AudioKeyAflatmaj : String := "Ab Major"

/-- The constant `AudioKeyBflatmaj` (`track.go`). -/
def AudioKeyBflatmaj : String := "Bb Major"

/-- The constant `AudioKeyCflatmaj` (`track.go`). -/
def AudioKeyCflatmaj : String := "Cb Major"

/-- The constant `AudioKeyDflatmaj` (`track.go`). -/
def AudioKeyDflatmaj : String := "Db Major"

/-- The constant `AudioKeyEflatmaj` (`track.go`). -/
def AudioKeyEflatmaj : String := "Eb Major"

/-- The constant `AudioKeyFflatmaj` (`track.go`). -/
def AudioKeyFflatmaj : String := "Fb Major"

/-- The constant `AudioKeyGflatmaj` (`track.go`). -/
def AudioKeyGflatmaj : String := "Gb Major"

/-- The constants of the `const` block of `track.go` (lines 84-169), in source order. -/
def AudioKeys : List String :=
  [AudioKeyAmin, AudioKeyBmin, AudioKeyCmin, AudioKeyDmin, AudioKeyEmin, AudioKeyFmin,
   AudioKeyGmin, AudioKeyAmaj, AudioKeyBmaj, AudioKeyCmaj, AudioKeyDmaj, AudioKeyEmaj,
   AudioKeyFmaj, AudioKeyGmaj, AudioKeyAsharpmin, AudioKeyBsharpmin, AudioKeyCsharpmin,
   AudioKeyDsharpmin, AudioKeyEsharpmin, AudioKeyFsharpmin, AudioKeyGsharpmin,
   AudioKeyAflatmaj, AudioKeyBflatmaj, AudioKeyCflatmaj, AudioKeyDflatmaj,
   AudioKeyEflatmaj, AudioKeyFflatmaj, AudioKeyGflatmaj]

end models

/-! ## `crypto/sha256`, `encoding/base64` and `strconv.FormatInt` (standard library) -/

namespace sha256

/-- A 32 bit word rotated right by `n` bits (`0 < n < 32`). -/
def rotr (x n : Nat) : Nat := ((x >>> n) ||| (x <<< (32 - n))) % 2 ^ 32

/-- The round constants of SHA-256 (FIPS 180-4, section 4.2.2). -/
def K : List Nat :=
  [0x428a2f98, 0x71374491, 0xb5c0fbcf, 0xe9b5dba5, 0x3956c25b, 0x59f111f1, 0x923f82a4,
   0xab1c5ed5, 0xd807aa98, 0x12835b01, 0x243185be, 0x550c7dc3, 0x72be5d74, 0x80deb1fe,
   0x9bdc06a7, 0xc19bf174, 0xe49b69c1, 0xefbe4786, 0x0fc19dc6, 0x240ca1cc, 0x2de92c6f,
   0x4a7484aa, 0x5cb0a9dc, 0x76f988da, 0x983e5152, 0xa831c66d, 0xb00327c8, 0xbf597fc7,
   0xc6e00bf3, 0xd5a79147, 0x06ca6351, 0x14292967, 0x27b70a85, 0x2e1b2138, 0x4d2c6dfc,
   0x53380d13, 0x650a7354, 0x766a0abb, 0x81c2c92e, 0x92722c85, 0xa2bfe8a1, 0xa81a664b,
   0xc24b8b70, 0xc76c51a3, 0xd192e819, 0xd6990624, 0xf40e3585, 0x106aa070, 0x19a4c116,
   0x1e376c08, 0x2748774c, 0x34b0bcb5, 0x391c0cb3, 0x4ed8aa4a, 0x5b9cca4f, 0x682e6ff3,
   0x748f82ee, 0x78a5636f, 0x84c87814, 0x8cc70208, 0x90befffa, 0xa4506ceb, 0xbef9a3f7,
   0xc67178f2]

/-- The eight working words of SHA-256. -/
structure State where
  a : Nat
  b : Nat
  c : Nat
  d : Nat
  e : Nat
  f : Nat
  g : Nat
  h : Nat

/-- The initial hash value (FIPS 180-4, section 5.3.3). -/
def init : State :=
  ⟨0x6a09e667, 0xbb67ae85, 0x3c6ef372, 0xa54ff53a, 0x510e527f, 0x9b05688c, 0x1f83d9ab,
   0x5be0cd19⟩

/-- The message with its padding: the byte `0x80`, zero bytes up to 56 modulo 64 and the
length of the message in bits as 8 bytes, most significant first. -/
def pad (message : List Nat) : List Nat :=
  let bits := 8 * message.length % 2 ^ 64
  message ++ [0x80] ++ List.replicate ((64 - (message.length + 9) % 64) % 64) 0 ++
    (List.range 8).map (fun i => (bits >>> (8 * (7 - i))) % 256)

/-- The 32 bit word of four bytes, most significant first. -/
def word (bytes : List Nat) : Nat :=
  bytes.foldl (fun acc byte => acc * 256 + byte % 256) 0

/-- The sixteen words of the block number `i` of the padded message. -/
def block (padded : List Nat) (i : Nat) : List Nat :=
  (List.range 16).map (fun j => word ((padded.drop (64 * i + 4 * j)).take 4))

/-- The message schedule extended by `count` words. -/
def schedule : Nat → List Nat → List Nat
  | 0, w => w
  | count + 1, w =>
    let t := w.length
    let w15 := w.getD (t - 15) 0
    let w2 := w.getD (t - 2) 0
    let s0 := rotr w15 7 ^^^ rotr w15 18 ^^^ (w15 >>> 3)
    let s1 := rotr w2 17 ^^^ rotr w2 19 ^^^ (w2 >>> 10)
    schedule count (w ++ [(w.getD (t - 16) 0 + s0 + w.getD (t - 7) 0 + s1) % 2 ^ 32])

/-- One round of the compression function with the constant `k` and the schedule word
`w`. -/
def round (s : State) (kw : Nat × Nat) : State :=
  let s1 := rotr s.e 6 ^^^ rotr s.e 11 ^^^ rotr s.e 25
  let ch := (s.e &&& s.f) ^^^ ((s.e ^^^ (2 ^ 32 - 1)) &&& s.g)
  let temp1 := (s.h + s1 + ch + kw.1 + kw.2) % 2 ^ 32
  let s0 := rotr s.a 2 ^^^ rotr s.a 13 ^^^ rotr s.a 22
  let maj := (s.a &&& s.b) ^^^ (s.a &&& s.c) ^^^ (s.b &&& s.c)
  let temp2 := (s0 + maj) % 2 ^ 32
  ⟨(temp1 + temp2) % 2 ^ 32, s.a, s.b, s.c, (s.d + temp1) % 2 ^ 32, s.e, s.f, s.g⟩

/-- The hash value after the block of the sixteen words `words`. -/
def compress (s : State) (words : List Nat) : State :=
  let r := (K.zip (schedule 48 words)).foldl round s
  ⟨(s.a + r.a) % 2 ^ 32, (s.b + r.b) % 2 ^ 32, (s.c + r.c) % 2 ^ 32, (s.d + r.d) % 2 ^ 32,
   (s.e + r.e) % 2 ^ 32, (s.f + r.f) % 2 ^ 32, (s.g + r.g) % 2 ^ 32, (s.h + r.h) % 2 ^ 32⟩

/-- The four bytes of a 32 bit word, most significant first. -/
def wordBytes (w : Nat) : List Nat :=
  [(w >>> 24) % 256, (w >>> 16) % 256, (w >>> 8) % 256, w % 256]

/-- The SHA-256 digest of a byte sequence (`sha.Write(bytes)` followed by `sha.Sum(nil)` on
a fresh `sha256.New()`), as a list of bytes. -/
def Sum256 (message : List Nat) : List Nat :=
  let padded := pad message
  let s := ((List.range (padded.length / 64)).map (block padded)).foldl compress init
  wordBytes s.a ++ wordBytes s.b ++ wordBytes s.c ++ wordBytes s.d ++
    wordBytes s.e ++ wordBytes s.f ++ wordBytes s.g ++ wordBytes s.h

end sha256

namespace base64

/-- The alphabet of `base64.URLEncoding`. -/
def encodeURL : String := "ABCDEFGHIJKLMNOPQRSTUVWXYZabcdefghijklmnopqrstuvwxyz0123456789-_"

/-- The character of the 6 bit value `v`. -/
def char (v : Nat) : Char := encodeURL.data.getD (v % 64) 'A'

/-- The encoding of a byte sequence by `base64.URLEncoding` (with `=` padding). -/
def encode : List Nat → List Char
  | b0 :: b1 :: b2 :: rest =>
    char (b0 >>> 2) :: char (((b0 % 4) <<< 4) ||| (b1 >>> 4)) ::
      char (((b1 % 16) <<< 2) ||| (b2 >>> 6)) :: char (b2 % 64) :: encode rest
  | [b0, b1] =>
    [char (b0 >>> 2), char (((b0 % 4) <<< 4) ||| (b1 >>> 4)), char ((b1 % 16) <<< 2), '=']
  | [b0] => [char (b0 >>> 2), char ((b0 % 4) <<< 4), '=', '=']
  | [] => []

/-- `base64.URLEncoding.EncodeToString(src)`. -/
def EncodeToString (src : List Nat) : String := ⟨encode src⟩

end base64

/-- `strconv.FormatInt(i, 10)`: the decimal form of `i`, with a leading `-` when `i` is
negative. -/
def strconv.FormatInt (i : Int) : String :=
  if i < 0 then "-" ++ toString i.natAbs else toString i.toNat

/-! ## `pkg/parallel/context.go` -/

namespace parallel

/-- The struct `Context` (line 18). -/
structure Context where
  ID : String
  ShortID : String
  LongID : String

/-- `NewContext` (line 37); `currentTime` is the value of `time.Now().UnixNano()`. The
decimal string consists of ASCII characters, so its bytes are the codes of its characters.
A slice `decoded[0:7]` beyond the end of `decoded` is Go's run-time panic, reported as an
error. -/
def NewContext (currentTime : Int) : Except String Context :=
  let input := strconv.FormatInt currentTime
  let bytes := input.data.map Char.toNat
  let result := sha256.Sum256 bytes
  let decoded := base64.EncodeToString result
  if 7 ≤ decoded.length then
    let shortend : String := ⟨decoded.data.take 7⟩
    Except.ok { ID := shortend, ShortID := shortend, LongID := decoded }
  else Except.error "panic: runtime error: slice bounds out of range"

end parallel

/-! ## Theorems -/

theorem query.compileRange_eq_map (cs : List query.IQuery) :
    query.compileRange cs = cs.map (fun c => bson.Value.doc c.Compile) := by
  induction cs with
  | nil => simp [query.compileRange]
  | cons c cs ih => simp [query.compileRange, ih]

/-- C1: every leaf filter compiles to a document with exactly one entry, whose key is the
filter's key: `Eq` maps the key to the value itself, and `Neq`, `Lt`, `Lte`, `Gt`, `Gte`
map it to a document with the single entry `$ne`, `$lt`, `$lte`, `$gt`, `$gte` holding the
value. -/
theorem query.Compile_leaf (k : String) (v : bson.Value) :
    (query.IQuery.FilterOperatorEq k v).Compile = [(k, v)] ∧
    (query.IQuery.FilterOperatorNeq k v).Compile = [(k, bson.Value.doc [("$ne", v)])] ∧
    (query.IQuery.FilterOperatorLt k v).Compile = [(k, bson.Value.doc [("$lt", v)])] ∧
    (query.IQuery.FilterOperatorLte k v).Compile = [(k, bson.Value.doc [("$lte", v)])] ∧
    (query.IQuery.FilterOperatorGt k v).Compile = [(k, bson.Value.doc [("$gt", v)])] ∧
    (query.IQuery.FilterOperatorGte k v).Compile = [(k, bson.Value.doc [("$gte", v)])] := by
  simp [query.IQuery.Compile]

/-- C2: `And` and `Or` compile to a document with the single key `$and`, respectively
`$or`, whose array holds the compiled children: it has the length of the child list, its
entry at every position is the compiled child of that position, and it is the empty array
for the empty child list. -/
theorem query.Compile_composite (cs : List query.IQuery) :
    (query.IQuery.FilterOperatorAnd cs).Compile
      = [("$and", bson.Value.arr (cs.map (fun c => bson.Value.doc c.Compile)))] ∧
    (query.IQuery.FilterOperatorOr cs).Compile
      = [("$or", bson.Value.arr (cs.map (fun c => bson.Value.doc c.Compile)))] ∧
    (cs.map (fun c => bson.Value.doc c.Compile)).length = cs.length ∧
    (∀ i : Nat, (cs.map (fun c => bson.Value.doc c.Compile))[i]?
      = (cs[i]?).map (fun c => bson.Value.doc c.Compile)) ∧
    (query.IQuery.FilterOperatorAnd []).Compile = [("$and", bson.Value.arr [])] ∧
    (query.IQuery.FilterOperatorOr []).Compile = [("$or", bson.Value.arr [])] := by
  refine ⟨?_, ?_, ?_, ?_, ?_, ?_⟩
  · simp [query.IQuery.Compile, query.compileRange_eq_map]
  · simp [query.IQuery.Compile, query.compileRange_eq_map]
  · simp
  · intro i
    simp
  · simp [query.IQuery.Compile, query.compileRange]
  · simp [query.IQuery.Compile, query.compileRange]

/-- C3: `Set(m)` compiles to the document with the single key `$set` whose value is the
map `m` itself, so every field path of `m`, dotted or not, is a key of the `$set` value
with the value it has in `m`, and there is no other key. -/
theorem query.Compile_set (m : GoMap bson.Value) :
    (query.IQuery.UpdateOperatorSet m).Compile = [("$set", bson.Value.doc m)] ∧
    (query.IQuery.UpdateOperatorSet [("trackStats.streams", bson.Value.uint32 7)]).Compile
      = [("$set", bson.Value.doc [("trackStats.streams", bson.Value.uint32 7)])] := by
  simp [query.IQuery.Compile]

theorem mongo.Collection.UpdateOne_calls {σ : Type} (c : mongo.Collection σ)
    (filter update : bson.M) (w : mongo.World σ) :
    (c.UpdateOne filter update w).2.calls
      = w.calls ++ [mongo.Call.UpdateOne c.database c.name filter update] := by
  unfold mongo.Collection.UpdateOne
  split <;> rfl

theorem mongo.Collection.UpdateOne_empty {σ : Type} (c : mongo.Collection σ)
    (filter : bson.M) (w : mongo.World σ) :
    c.UpdateOne filter [] w
      = (Except.error "update document must have at least one element",
          ⟨w.db, w.calls ++ [mongo.Call.UpdateOne c.database c.name filter []]⟩) := rfl

theorem store.FindItems_world {σ T : Type} (decode : bson.Value → Except String T)
    (s : store.MongoStore σ T) (filter : query.Filter) (w : mongo.World σ) :
    (s.FindItems decode filter w).2 = (s.Collection.Find
      (match filter.Root with
       | none => []
       | some root => root.Compile) (Int.ofNat (filter.Limit % 2 ^ 32)) w).2 := by
  unfold store.MongoStore.FindItems
  simp only []
  split <;> simp_all

theorem store.UpdateItem_world {σ T : Type} (s : store.MongoStore σ T)
    (filter : query.Filter) (update : query.Update) (w : mongo.World σ) :
    (s.UpdateItem filter update w).2 = (s.Collection.UpdateOne
      (match filter.Root with
       | none => []
       | some root => root.Compile)
      (match update.Root with
       | none => []
       | some root => root.Compile) w).2 := by
  unfold store.MongoStore.UpdateItem
  simp only []
  split <;> simp_all

/-- C4, amended: `FindItems` and `UpdateItem` pass the empty document as query when the
filter's `Root` is nil and `Root.Compile()` otherwise, and `UpdateItem` passes the empty
document as update when the update's `Root` is nil and `Root.Compile()` otherwise, each in
exactly one call. An update whose `Root` is nil is not a no-op: the driver rejects the empty
update document, so `UpdateItem` returns the error "update document must have at least one
element" and leaves the database as it was. The empty query matches everything: against the
database in memory, `FindItems` with a nil `Root` and no limit decodes every document of the
collection. -/
theorem store.root_documents {σ T : Type} (decode : bson.Value → Except String T)
    (s : store.MongoStore σ T) (root uroot : query.IQuery) (limit : Nat)
    (w : mongo.World σ) :
    (s.FindItems decode ⟨none, limit⟩ w).2.calls = w.calls ++
      [mongo.Call.Find s.Collection.database s.Collection.name []
        (Int.ofNat (limit % 2 ^ 32))] ∧
    (s.FindItems decode ⟨some root, limit⟩ w).2.calls = w.calls ++
      [mongo.Call.Find s.Collection.database s.Collection.name root.Compile
        (Int.ofNat (limit % 2 ^ 32))] ∧
    (s.UpdateItem ⟨none, limit⟩ ⟨none⟩ w).2.calls = w.calls ++
      [mongo.Call.UpdateOne s.Collection.database s.Collection.name [] []] ∧
    (s.UpdateItem ⟨none, limit⟩ ⟨some uroot⟩ w).2.calls = w.calls ++
      [mongo.Call.UpdateOne s.Collection.database s.Collection.name [] uroot.Compile] ∧
    (s.UpdateItem ⟨some root, limit⟩ ⟨none⟩ w).2.calls = w.calls ++
      [mongo.Call.UpdateOne s.Collection.database s.Collection.name root.Compile []] ∧
    (s.UpdateItem ⟨some root, limit⟩ ⟨some uroot⟩ w).2.calls = w.calls ++
      [mongo.Call.UpdateOne s.Collection.database s.Collection.name root.Compile
        uroot.Compile] ∧
    (s.UpdateItem ⟨none, limit⟩ ⟨none⟩ w).1
      = Except.error "update document must have at least one element" ∧
    (s.UpdateItem ⟨some root, limit⟩ ⟨none⟩ w).1
      = Except.error "update document must have at least one element" ∧
    (s.UpdateItem ⟨none, limit⟩ ⟨none⟩ w).2.db = w.db ∧
    (s.UpdateItem ⟨some root, limit⟩ ⟨none⟩ w).2.db = w.db ∧
    (∀ (database collection : String) (m : sample.Memory) (calls : List mongo.Call),
      ((store.NewMongoStore T ⟨sample.memoryClient⟩ database collection).FindItems decode
          ⟨none, 0⟩ ⟨m, calls⟩).1
        = store.MongoStore.FindItems.loop decode
            ((m.filter (fun entry => entry.1 == database && entry.2.1 == collection)).map
              (fun entry => entry.2.2)) []) := by
  refine ⟨?_, ?_, ?_, ?_, ?_, ?_, ?_, ?_, ?_, ?_, ?_⟩
  · simp [store.FindItems_world, mongo.Collection.Find]
  · simp [store.FindItems_world, mongo.Collection.Find]
  · simp [store.UpdateItem_world, mongo.Collection.UpdateOne_calls]
  · simp [store.UpdateItem_world, mongo.Collection.UpdateOne_calls]
  · simp [store.UpdateItem_world, mongo.Collection.UpdateOne_calls]
  · simp [store.UpdateItem_world, mongo.Collection.UpdateOne_calls]
  · simp [store.MongoStore.UpdateItem, mongo.Collection.UpdateOne_empty]
  · simp [store.MongoStore.UpdateItem, mongo.Collection.UpdateOne_empty]
  · simp [store.MongoStore.UpdateItem, mongo.Collection.UpdateOne_empty]
  · simp [store.MongoStore.UpdateItem, mongo.Collection.UpdateOne_empty]
  · intro database collection m calls
    have hsel : sample.selected database collection []
        = fun entry => entry.1 == database && entry.2.1 == collection := by
      funext entry
      simp [sample.selected, sample.agrees]
    simp [store.MongoStore.FindItems, mongo.Collection.Find, store.NewMongoStore,
      sample.memoryClient, hsel]

/-- C4, as stated, fails for an update whose `Root` is nil: against a database whose
`UpdateOne` modifies one document, `UpdateItem` with the filter `Eq("_id", id)` and the
update `Update{Root: nil}` answers the driver's error "update document must have at least
one element" and no count, so the empty update document is rejected rather than executed as
a no-op; with the update `Set({"title": "T"})` the same call answers the count 1. -/
theorem store.UpdateItem_nil_update_evaluated :
    ((store.NewMongoStore models.TrackInfo ⟨updatetrack.sample.client⟩ "gostream"
        "tracks").UpdateItem
      ⟨some (query.IQuery.FilterOperatorEq "_id" (bson.Value.str updatetrack.sample.id)), 0⟩
      ⟨none⟩ ⟨(), []⟩).1
      = Except.error "update document must have at least one element" ∧
    ((store.NewMongoStore models.TrackInfo ⟨updatetrack.sample.client⟩ "gostream"
        "tracks").UpdateItem
      ⟨some (query.IQuery.FilterOperatorEq "_id" (bson.Value.str updatetrack.sample.id)), 0⟩
      ⟨some (query.IQuery.UpdateOperatorSet [("title", bson.Value.str "T")])⟩ ⟨(), []⟩).1
      = Except.ok 1 :=
  ⟨rfl, rfl⟩

/-! ### Go maps -/

theorem GoMap.get?_set {V : Type} (m : GoMap V) (k k' : String) (v : V) :
    (GoMap.set m k v).get? k' = if k = k' then some v else m.get? k' := by
  induction m with
  | nil => simp [GoMap.set, GoMap.get?]
  | cons e m ih =>
    obtain ⟨k0, v0⟩ := e
    by_cases h0 : k0 = k
    · subst h0
      by_cases h1 : k0 = k' <;> simp [GoMap.set, GoMap.get?, h1]
    · by_cases h1 : k0 = k'
      · subst h1
        have h2 : ¬ k = k0 := fun h => h0 h.symm
        simp [GoMap.set, GoMap.get?, h0, h2]
      · simp [GoMap.set, GoMap.get?, h0, h1, ih]

theorem GoMap.mem_keys_set {V : Type} (m : GoMap V) (k k' : String) (v : V) :
    k' ∈ (GoMap.set m k v).keys ↔ k' = k ∨ k' ∈ m.keys := by
  induction m with
  | nil => simp [GoMap.set, GoMap.keys]
  | cons e m ih =>
    obtain ⟨k0, v0⟩ := e
    by_cases h0 : k0 = k
    · subst h0
      simp [GoMap.set, GoMap.keys]
    · simp only [GoMap.keys] at ih
      simp [GoMap.set, GoMap.keys, h0, ih]
      tauto

theorem GoMap.nodup_keys_set {V : Type} (m : GoMap V) (k : String) (v : V)
    (h : m.keys.Nodup) : (GoMap.set m k v).keys.Nodup := by
  induction m with
  | nil => simp [GoMap.set, GoMap.keys]
  | cons e m ih =>
    obtain ⟨k0, v0⟩ := e
    by_cases h0 : k0 = k
    · subst h0
      simpa [GoMap.set, GoMap.keys] using h
    · have hn : k0 ∉ GoMap.keys m ∧ (GoMap.keys m).Nodup := by
        simpa [GoMap.keys] using h
      have hk : k0 ∉ (GoMap.set m k v).keys := by
        rw [GoMap.mem_keys_set]
        rintro (h1 | h1)
        · exact h0 h1
        · exact hn.1 h1
      have := ih hn.2
      simp only [GoMap.set, h0, if_false, GoMap.keys, List.map_cons, List.nodup_cons]
      exact ⟨by simpa [GoMap.keys] using hk, by simpa [GoMap.keys] using this⟩

theorem GoMap.get?_eq_none_iff {V : Type} (m : GoMap V) (k : String) :
    m.get? k = none ↔ k ∉ m.keys := by
  induction m with
  | nil => simp [GoMap.get?, GoMap.keys]
  | cons e m ih =>
    obtain ⟨k0, v0⟩ := e
    by_cases h0 : k0 = k
    · subst h0
      simp [GoMap.get?, GoMap.keys]
    · have h1 : ¬ k = k0 := fun h => h0 h.symm
      simp only [GoMap.keys] at ih
      simp [GoMap.get?, GoMap.keys, h0, h1, ih]

/-! ### Path parameters -/

/-- The loop of `extractPathParameters` never indexes out of range when the segments left
fit into the path, and its result holds, besides the entries of `result` for other names,
one entry per parameter name of `rest`, taken from the last segment with that name. -/
theorem router.extractPathParameters.loop_spec (ps : List String) :
    ∀ (rest : List String) (idx : Nat) (result : GoMap String),
      idx + rest.length ≤ ps.length →
      ∃ m, router.extractPathParameters.loop ps rest idx result = Except.ok m ∧
        (∀ k, k ∈ m.keys ↔ k ∈ result.keys ∨
          ∃ seg ∈ rest, strings.HasPrefix seg ":" = true ∧ strings.TrimPrefix seg ":" = k) ∧
        (∀ k, (∀ seg ∈ rest, strings.HasPrefix seg ":" = true →
            strings.TrimPrefix seg ":" ≠ k) → m.get? k = result.get? k) ∧
        (∀ j seg, rest[j]? = some seg → strings.HasPrefix seg ":" = true →
          (∀ j' seg', j < j' → rest[j']? = some seg' → strings.HasPrefix seg' ":" = true →
            strings.TrimPrefix seg' ":" ≠ strings.TrimPrefix seg ":") →
          m.get? (strings.TrimPrefix seg ":") = ps[idx + j]?) := by
  intro rest
  induction rest with
  | nil =>
    intro idx result _
    exact ⟨result, rfl, by simp, fun k _ => rfl, by simp⟩
  | cons s rest ih =>
    intro idx result hlen
    have hlen' : idx + 1 + rest.length ≤ ps.length := by
      simp only [List.length_cons] at hlen
      omega
    by_cases hp : strings.HasPrefix s ":" = true
    · have hidx : idx < ps.length := by
        simp only [List.length_cons] at hlen
        omega
      obtain ⟨m, hm, hkeys, hother, hlast⟩ :=
        ih (idx + 1) (GoMap.set result (strings.TrimPrefix s ":") ps[idx]) hlen'
      refine ⟨m, ?_, ?_, ?_, ?_⟩
      · simp [router.extractPathParameters.loop, hp, List.getElem?_eq_getElem hidx, hm]
      · intro k
        rw [hkeys k, GoMap.mem_keys_set]
        constructor
        · rintro ((h | h) | ⟨seg, hseg, h1, h2⟩)
          · exact Or.inr ⟨s, by simp, hp, h.symm⟩
          · exact Or.inl h
          · exact Or.inr ⟨seg, by simp [hseg], h1, h2⟩
        · rintro (h | ⟨seg, hseg, h1, h2⟩)
          · exact Or.inl (Or.inr h)
          · rcases List.mem_cons.mp hseg with h | h
            · subst h
              exact Or.inl (Or.inl h2.symm)
            · exact Or.inr ⟨seg, h, h1, h2⟩
      · intro k hk
        rw [hother k (fun seg hseg => hk seg (by simp [hseg])), GoMap.get?_set]
        simp [hk s (by simp) hp]
      · intro j seg hj hseg hlater
        cases j with
        | zero =>
          simp only [List.getElem?_cons_zero, Option.some.injEq] at hj
          subst hj
          have h1 : ∀ seg' ∈ rest, strings.HasPrefix seg' ":" = true →
              strings.TrimPrefix seg' ":" ≠ strings.TrimPrefix s ":" := by
            intro seg' hmem hpre
            obtain ⟨n, hn, hget⟩ := List.mem_iff_getElem.mp hmem
            refine hlater (n + 1) seg' (by omega) ?_ hpre
            simp [List.getElem?_eq_getElem hn, hget]
          rw [hother _ h1, GoMap.get?_set]
          simp [List.getElem?_eq_getElem hidx]
        | succ j =>
          simp only [List.getElem?_cons_succ] at hj
          have := hlast j seg hj hseg (fun j' seg' hlt hj' hpre =>
            hlater (j' + 1) seg' (by omega) (by simpa using hj') hpre)
          rw [this]
          congr 1
          omega
    · obtain ⟨m, hm, hkeys, hother, hlast⟩ := ih (idx + 1) result hlen'
      refine ⟨m, ?_, ?_, ?_, ?_⟩
      · simp [router.extractPathParameters.loop, hp, hm]
      · intro k
        rw [hkeys k]
        constructor
        · rintro (h | ⟨seg, hseg, h1, h2⟩)
          · exact Or.inl h
          · exact Or.inr ⟨seg, by simp [hseg], h1, h2⟩
        · rintro (h | ⟨seg, hseg, h1, h2⟩)
          · exact Or.inl h
          · rcases List.mem_cons.mp hseg with h | h
            · subst h
              exact absurd h1 hp
            · exact Or.inr ⟨seg, h, h1, h2⟩
      · intro k hk
        exact hother k (fun seg hseg => hk seg (by simp [hseg]))
      · intro j seg hj hseg hlater
        cases j with
        | zero =>
          simp only [List.getElem?_cons_zero, Option.some.injEq] at hj
          subst hj
          exact absurd hseg hp
        | succ j =>
          simp only [List.getElem?_cons_succ] at hj
          have := hlast j seg hj hseg (fun j' seg' hlt hj' hpre =>
            hlater (j' + 1) seg' (by omega) (by simpa using hj') hpre)
          rw [this]
          congr 1
          omega

/-- C6, as stated, fails when a parameter name is repeated in the template: for the
template `/:a/:a` and the path `/x/y` the segment counts agree and extraction succeeds,
but the name of the template segment at index 0 is mapped to `y`, the path segment at
index 1, not to the path segment `x` at index 0. -/
theorem router.extractPathParameters_repeated_name :
    (strings.Split (strings.TrimPrefix "/:a/:a" "/") '/').length
      = (strings.Split (strings.TrimPrefix "/x/y" "/") '/').length ∧
    ¬ (∀ m, router.extractPathParameters "/:a/:a" "/x/y" = Except.ok m →
        ∀ (i : Nat) (seg : String),
          (strings.Split (strings.TrimPrefix "/:a/:a" "/") '/')[i]? = some seg →
          strings.HasPrefix seg ":" = true →
          m.get? (strings.TrimPrefix seg ":")
            = (strings.Split (strings.TrimPrefix "/x/y" "/") '/')[i]?) := by
  refine ⟨by decide, fun h => ?_⟩
  have h0 := h [("a", "y")] rfl 0 ":a" (by decide) (by decide)
  revert h0
  decide

/-- C6, amended: when template and path have the same number of segments, extraction
succeeds, the keys of the result are exactly the names of the `:name` template segments,
and the name of the `:name` segment at index `i` is mapped to the path segment at index
`i` provided no later template segment has the same name; `/tracks/:id` against
`/tracks/abc` yields exactly the map with the one entry `id` to `abc`. -/
theorem router.extractPathParameters_ok (handle path : String)
    (hlen : (strings.Split (strings.TrimPrefix handle "/") '/').length
      = (strings.Split (strings.TrimPrefix path "/") '/').length) :
    (∃ m, router.extractPathParameters handle path = Except.ok m ∧
      (∀ k, k ∈ m.keys ↔ ∃ seg ∈ strings.Split (strings.TrimPrefix handle "/") '/',
        strings.HasPrefix seg ":" = true ∧ strings.TrimPrefix seg ":" = k) ∧
      (∀ (i : Nat) (seg : String),
        (strings.Split (strings.TrimPrefix handle "/") '/')[i]? = some seg →
        strings.HasPrefix seg ":" = true →
        (∀ (j : Nat) (seg' : String), i < j →
          (strings.Split (strings.TrimPrefix handle "/") '/')[j]? = some seg' →
          strings.HasPrefix seg' ":" = true →
          strings.TrimPrefix seg' ":" ≠ strings.TrimPrefix seg ":") →
        m.get? (strings.TrimPrefix seg ":")
          = (strings.Split (strings.TrimPrefix path "/") '/')[i]?)) ∧
    router.extractPathParameters "/tracks/:id" "/tracks/abc" = Except.ok [("id", "abc")] := by
  refine ⟨?_, rfl⟩
  obtain ⟨m, hm, hkeys, _, hlast⟩ :=
    router.extractPathParameters.loop_spec (strings.Split (strings.TrimPrefix path "/") '/')
      (strings.Split (strings.TrimPrefix handle "/") '/') 0 [] (by omega)
  refine ⟨m, ?_, ?_, ?_⟩
  · simp [router.extractPathParameters, hlen, hm]
  · intro k
    rw [hkeys k]
    simp [GoMap.keys]
  · intro i seg hi hseg hlater
    have := hlast i seg hi hseg hlater
    simpa using this

/-- Witness of C6 (amended) at the template `/tracks/:id` and the path `/tracks/abc`. -/
theorem router.extractPathParameters_ok_witness :
    (∃ m, router.extractPathParameters "/tracks/:id" "/tracks/abc" = Except.ok m ∧
      (∀ k, k ∈ m.keys ↔ ∃ seg ∈ strings.Split (strings.TrimPrefix "/tracks/:id" "/") '/',
        strings.HasPrefix seg ":" = true ∧ strings.TrimPrefix seg ":" = k) ∧
      (∀ (i : Nat) (seg : String),
        (strings.Split (strings.TrimPrefix "/tracks/:id" "/") '/')[i]? = some seg →
        strings.HasPrefix seg ":" = true →
        (∀ (j : Nat) (seg' : String), i < j →
          (strings.Split (strings.TrimPrefix "/tracks/:id" "/") '/')[j]? = some seg' →
          strings.HasPrefix seg' ":" = true →
          strings.TrimPrefix seg' ":" ≠ strings.TrimPrefix seg ":") →
        m.get? (strings.TrimPrefix seg ":")
          = (strings.Split (strings.TrimPrefix "/tracks/abc" "/") '/')[i]?)) ∧
    router.extractPathParameters "/tracks/:id" "/tracks/abc" = Except.ok [("id", "abc")] :=
  router.extractPathParameters_ok "/tracks/:id" "/tracks/abc" (by decide)

/-- C7: `extractPathParameters` returns an error, and then no parameter map, if and only if
the template and the path, each without one leading `/` and split on `/`, have different
numbers of segments; the error is the segment count error of line 240, and with equal
segment counts a parameter map is returned. -/
theorem router.extractPathParameters_error_iff (handle path : String) :
    ((∃ err, router.extractPathParameters handle path = Except.error err) ↔
      (strings.Split (strings.TrimPrefix handle "/") '/').length
        ≠ (strings.Split (strings.TrimPrefix path "/") '/').length) ∧
    (router.extractPathParameters handle path = Except.error
        "router: number of url segments does not match number of path segments" ↔
      (strings.Split (strings.TrimPrefix handle "/") '/').length
        ≠ (strings.Split (strings.TrimPrefix path "/") '/').length) ∧
    ((∃ m, router.extractPathParameters handle path = Except.ok m) ↔
      (strings.Split (strings.TrimPrefix handle "/") '/').length
        = (strings.Split (strings.TrimPrefix path "/") '/').length) := by
  by_cases hlen : (strings.Split (strings.TrimPrefix handle "/") '/').length
      = (strings.Split (strings.TrimPrefix path "/") '/').length
  · obtain ⟨m, hm, -⟩ :=
      router.extractPathParameters.loop_spec (strings.Split (strings.TrimPrefix path "/") '/')
        (strings.Split (strings.TrimPrefix handle "/") '/') 0 [] (by omega)
    have hr : router.extractPathParameters handle path = Except.ok m := by
      simp [router.extractPathParameters, hlen, hm]
    simp [hr, hlen]
  · have hr : router.extractPathParameters handle path = Except.error
        "router: number of url segments does not match number of path segments" := by
      simp [router.extractPathParameters, hlen]
    simp [hr, hlen]

/-! ### Query parameters -/

/-- Grouping the occurrences `pairs` into the map `m`: a key without occurrence keeps its
entry, a key with occurrences gets its old values followed by the new ones in order. -/
theorem url.Values.foldl_add_get? (k : String) :
    ∀ (pairs : List (String × String)) (m : url.Values),
      GoMap.get? (pairs.foldl (fun m kv => url.Values.add m kv.1 kv.2) m) k
        = if (pairs.filter (fun kv => kv.1 = k)).map Prod.snd = [] then GoMap.get? m k
          else some ((GoMap.get? m k).getD []
            ++ (pairs.filter (fun kv => kv.1 = k)).map Prod.snd) := by
  intro pairs
  induction pairs with
  | nil => intro m; simp
  | cons p pairs ih =>
    intro m
    obtain ⟨k0, v0⟩ := p
    simp only [List.foldl_cons]
    rw [ih (url.Values.add m k0 v0)]
    simp only [url.Values.add, GoMap.get?_set]
    by_cases h0 : k0 = k
    · subst h0
      by_cases h1 : (pairs.filter (fun kv => kv.1 = k0)).map Prod.snd = []
      · simp [h1]
      · simp [h1]
    · have hf : (((k0, v0) :: pairs).filter (fun kv => kv.1 = k))
          = pairs.filter (fun kv => kv.1 = k) := by
        simp [List.filter_cons, h0]
      rw [hf]
      simp [h0]

theorem url.Values.foldl_add_keys (k : String) :
    ∀ (pairs : List (String × String)) (m : url.Values),
      k ∈ GoMap.keys (pairs.foldl (fun m kv => url.Values.add m kv.1 kv.2) m)
        ↔ k ∈ GoMap.keys m ∨ k ∈ pairs.map Prod.fst := by
  intro pairs
  induction pairs with
  | nil => intro m; simp
  | cons p pairs ih =>
    intro m
    obtain ⟨k0, v0⟩ := p
    simp only [List.foldl_cons]
    rw [ih (url.Values.add m k0 v0)]
    simp only [url.Values.add, GoMap.mem_keys_set]
    simp
    tauto

theorem url.Values.foldl_add_nodup :
    ∀ (pairs : List (String × String)) (m : url.Values), (GoMap.keys m).Nodup →
      (GoMap.keys (pairs.foldl (fun m kv => url.Values.add m kv.1 kv.2) m)).Nodup := by
  intro pairs
  induction pairs with
  | nil => intro m h; simpa using h
  | cons p pairs ih =>
    intro m h
    simp only [List.foldl_cons]
    exact ih _ (GoMap.nodup_keys_set m _ _ h)

theorem router.extractQueryParameters.loop_keys (k : String) :
    ∀ (q : List (String × List String)) (p : GoMap String),
      k ∈ (router.extractQueryParameters.loop q p).keys ↔ k ∈ p.keys ∨ k ∈ GoMap.keys q := by
  intro q
  induction q with
  | nil => intro p; simp [router.extractQueryParameters.loop, GoMap.keys]
  | cons e q ih =>
    intro p
    obtain ⟨k0, vs0⟩ := e
    simp only [router.extractQueryParameters.loop]
    rw [ih, GoMap.mem_keys_set]
    simp only [GoMap.keys, List.map_cons, List.mem_cons]
    tauto

theorem router.extractQueryParameters.loop_nodup :
    ∀ (q : List (String × List String)) (p : GoMap String), p.keys.Nodup →
      (router.extractQueryParameters.loop q p).keys.Nodup := by
  intro q
  induction q with
  | nil => intro p h; simpa [router.extractQueryParameters.loop] using h
  | cons e q ih =>
    intro p h
    obtain ⟨k0, vs0⟩ := e
    simp only [router.extractQueryParameters.loop]
    exact ih _ (GoMap.nodup_keys_set p _ _ h)

theorem router.extractQueryParameters.loop_get? (k : String) :
    ∀ (q : List (String × List String)) (p : GoMap String), (GoMap.keys q).Nodup →
      (router.extractQueryParameters.loop q p).get? k
        = match GoMap.get? q k with
          | some values => some (strings.Join values ",")
          | none => p.get? k := by
  intro q
  induction q with
  | nil => intro p _; simp [router.extractQueryParameters.loop, GoMap.get?]
  | cons e q ih =>
    intro p h
    obtain ⟨k0, vs0⟩ := e
    have hn : k0 ∉ GoMap.keys q ∧ (GoMap.keys q).Nodup := by
      simpa [GoMap.keys] using h
    simp only [router.extractQueryParameters.loop]
    rw [ih _ hn.2]
    by_cases h0 : k0 = k
    · subst h0
      have : GoMap.get? q k0 = none := (GoMap.get?_eq_none_iff q k0).mpr hn.1
      simp [this, GoMap.get?, GoMap.get?_set]
    · simp [GoMap.get?, h0, GoMap.get?_set]

/-- C8: when the URL parses, `extractQueryParameters` returns a map whose keys are exactly
the keys occurring in the query, and the value of each such key is the values of its
occurrences, in their order of occurrence, joined with `,`; a key that occurs once is
mapped to its single value unchanged. -/
theorem router.extractQueryParameters_joined (Parse : String → Except String url.URL)
    (path : String) (u : url.URL) (hparse : Parse path = Except.ok u) :
    ∃ m, router.extractQueryParameters Parse path = Except.ok m ∧
      m.keys.Nodup ∧
      (∀ k, k ∈ m.keys ↔ k ∈ u.pairs.map Prod.fst) ∧
      (∀ k, k ∈ u.pairs.map Prod.fst →
        m.get? k
          = some (strings.Join ((u.pairs.filter (fun kv => kv.1 = k)).map Prod.snd) ",")) ∧
      (∀ k v, (u.pairs.filter (fun kv => kv.1 = k)).map Prod.snd = [v] →
        m.get? k = some v) := by
  have hnodup : (GoMap.keys u.Query).Nodup :=
    url.Values.foldl_add_nodup u.pairs [] (by simp [GoMap.keys])
  have hget : ∀ k, k ∈ u.pairs.map Prod.fst →
      GoMap.get? (router.extractQueryParameters.loop u.Query []) k
        = some (strings.Join ((u.pairs.filter (fun kv => kv.1 = k)).map Prod.snd) ",") := by
    intro k hk
    rw [router.extractQueryParameters.loop_get? k _ _ hnodup]
    have hq := url.Values.foldl_add_get? k u.pairs []
    have hne : (u.pairs.filter (fun kv => kv.1 = k)).map Prod.snd ≠ [] := by
      obtain ⟨kv, hkv, hfst⟩ := List.mem_map.mp hk
      intro hnil
      have hmem : kv.2 ∈ (u.pairs.filter (fun kv => kv.1 = k)).map Prod.snd :=
        List.mem_map.mpr ⟨kv, List.mem_filter.mpr ⟨hkv, by simp [hfst]⟩, rfl⟩
      rw [hnil] at hmem
      simp at hmem
    have hq' : GoMap.get? u.Query k
        = some ((u.pairs.filter (fun kv => kv.1 = k)).map Prod.snd) := by
      unfold url.URL.Query
      rw [hq]
      simp [hne, GoMap.get?]
    rw [hq']
  refine ⟨router.extractQueryParameters.loop u.Query [], ?_, ?_, ?_, hget, ?_⟩
  · simp [router.extractQueryParameters, hparse]
  · exact router.extractQueryParameters.loop_nodup _ _ (by simp [GoMap.keys])
  · intro k
    rw [router.extractQueryParameters.loop_keys]
    unfold url.URL.Query
    rw [url.Values.foldl_add_keys]
    simp [GoMap.keys]
  · intro k v hv
    have hk : k ∈ u.pairs.map Prod.fst := by
      have hmem : v ∈ (u.pairs.filter (fun kv => kv.1 = k)).map Prod.snd := by
        rw [hv]
        simp
      obtain ⟨kv, hkv, _⟩ := List.mem_map.mp hmem
      have := List.mem_filter.mp hkv
      exact List.mem_map.mpr ⟨kv, this.1, by simpa using this.2⟩
    rw [hget k hk, hv]
    simp [strings.Join]

/-- Witness of C8 at the query `a=1&b=2&a=3`. -/
theorem router.extractQueryParameters_joined_witness :
    ∃ m, router.extractQueryParameters
        (fun _ => Except.ok ⟨[("a", "1"), ("b", "2"), ("a", "3")]⟩)
        "/tracks?a=1&b=2&a=3" = Except.ok m ∧
      m.keys.Nodup ∧
      (∀ k, k ∈ m.keys ↔ k ∈ [("a", "1"), ("b", "2"), ("a", "3")].map Prod.fst) ∧
      (∀ k, k ∈ [("a", "1"), ("b", "2"), ("a", "3")].map Prod.fst →
        m.get? k = some (strings.Join
          (([("a", "1"), ("b", "2"), ("a", "3")].filter (fun kv => kv.1 = k)).map Prod.snd)
          ",")) ∧
      (∀ k v, ([("a", "1"), ("b", "2"), ("a", "3")].filter (fun kv => kv.1 = k)).map Prod.snd
          = [v] → m.get? k = some v) :=
  router.extractQueryParameters_joined
    (fun _ => Except.ok ⟨[("a", "1"), ("b", "2"), ("a", "3")]⟩)
    "/tracks?a=1&b=2&a=3" ⟨[("a", "1"), ("b", "2"), ("a", "3")]⟩ rfl

/-! ### The update handler -/

/-- C9 at a failing input: for the stored track `sample.track` (instrumentalness 0.5,
loudness -7) and the body `{"audioFeatures": {"loudness": -5}}`, whose instrumentalness
is zero and whose loudness is not, the merge leaves the loudness at the stored -7 and
overwrites the instrumentalness with the body's loudness -5, and these are the values the
handler writes to the database under `audioFeatures.loudness` and
`audioFeatures.instrumentalness`. -/
theorem updatetrack.Handler.merge_loudness_evaluated :
    (updatetrack.sample.loudnessOnly.AudioFeatures.Loudness.isNonZero = true ∧
     updatetrack.sample.loudnessOnly.AudioFeatures.Instrumentalness.isNonZero = false ∧
     (updatetrack.Handler.merge updatetrack.sample.lib updatetrack.sample.track
        updatetrack.sample.loudnessOnly).AudioFeatures.Loudness
      = updatetrack.sample.track.AudioFeatures.Loudness ∧
     (updatetrack.Handler.merge updatetrack.sample.lib updatetrack.sample.track
        updatetrack.sample.loudnessOnly).AudioFeatures.Loudness
      ≠ updatetrack.sample.loudnessOnly.AudioFeatures.Loudness ∧
     (updatetrack.Handler.merge updatetrack.sample.lib updatetrack.sample.track
        updatetrack.sample.loudnessOnly).AudioFeatures.Instrumentalness
      = updatetrack.sample.loudnessOnly.AudioFeatures.Loudness ∧
     (updatetrack.Handler.merge updatetrack.sample.lib updatetrack.sample.track
        updatetrack.sample.loudnessOnly).AudioFeatures.Instrumentalness
      ≠ updatetrack.sample.track.AudioFeatures.Instrumentalness) ∧
    (updatetrack.Handler updatetrack.sample.lib
        (fun _ => Except.ok updatetrack.sample.loudnessOnly)
        (updatetrack.sample.request "\x7b\"audioFeatures\": \x7b\"loudness\": -5\x7d\x7d")
        (inject.Object.Injector ⟨⟨updatetrack.sample.client⟩⟩) ⟨(), []⟩).2.calls
      = [mongo.Call.Find "gostream" "tracks" [("_id", bson.Value.str updatetrack.sample.id)] 1,
         mongo.Call.UpdateOne "gostream" "tracks"
          [("_id", bson.Value.str updatetrack.sample.id)]
          [("$set", bson.Value.doc [
            ("artistId", bson.Value.str "9b2f8c1e-3d4a-4f6b-8a7c-5e6d7f8a9b0c"),
            ("featuredArtistIds", bson.Value.strs []),
            ("title", bson.Value.str "Old Title"),
            ("label", bson.Value.str "Label"),
            ("releaseDate", bson.Value.time ⟨63839664000, 0⟩),
            ("trackStats.streams", bson.Value.uint32 10),
            ("trackStats.likes", bson.Value.uint32 3),
            ("audioFeatures.key", bson.Value.str "A Minor"),
            ("audioFeatures.tempo", bson.Value.float32 ⟨0x42F00000⟩),
            ("audioFeatures.duration", bson.Value.float32 ⟨0x42F00000⟩),
            ("audioFeatures.energy", bson.Value.float32 ⟨0x3F000000⟩),
            ("audioFeatures.danceability", bson.Value.float32 ⟨0x3F000000⟩),
            ("audioFeatures.accousticness", bson.Value.float32 ⟨0x3F000000⟩),
            ("audioFeatures.instrumentalness", bson.Value.float32 ⟨0xC0A00000⟩),
            ("audioFeatures.liveness", bson.Value.float32 ⟨0x3F000000⟩),
            ("audioFeatures.loudness", bson.Value.float32 ⟨0xC0E00000⟩),
            ("audioFeatures.timeSignature", bson.Value.int 4)])]] :=
  ⟨by decide, rfl⟩

/-- With a body whose only non-zero field is the title, the merge changes the title only. -/
theorem updatetrack.Handler.merge_title {A : Type} (lib : Lib A) (t : models.TrackInfo)
    (b : updatetrack.UpdateTrackRequestBody)
    (hArtist : b.ArtistID = "") (hFeatured : b.FeaturedArtistIDs = []) (hTitle : b.Title ≠ "")
    (hLabel : b.Label = "") (hDate : b.ReleaseDate = "")
    (hStreams : b.TrackStats.Streams = 0) (hLikes : b.TrackStats.Likes = 0)
    (hKey : b.AudioFeatures.Key = "")
    (hTempo : b.AudioFeatures.Tempo.isNonZero = false)
    (hDuration : b.AudioFeatures.Duration.isNonZero = false)
    (hEnergy : b.AudioFeatures.Energy.isNonZero = false)
    (hDance : b.AudioFeatures.Danceability.isNonZero = false)
    (hAcc : b.AudioFeatures.Accousticness.isNonZero = false)
    (hInstr : b.AudioFeatures.Instrumentalness.isNonZero = false)
    (hLive : b.AudioFeatures.Liveness.isNonZero = false)
    (hLoud : b.AudioFeatures.Loudness.isNonZero = false)
    (hSig : b.AudioFeatures.TimeSignature = 0) :
    updatetrack.Handler.merge lib t b = { t with Title := b.Title } := by
  simp [updatetrack.Handler.merge, hArtist, hFeatured, hTitle, hLabel, hDate, hStreams, hLikes,
    hKey, hTempo, hDuration, hEnergy, hDance, hAcc, hInstr, hLive, hLoud, hSig]

/-- C10: when the update handler finds the stored track `t` and the request body `b` has a
non-empty title and the zero value in every other field, the handler makes exactly one
further database call, the update of the document with the request's id, and the `$set`
document it writes holds `t`'s stored values for `artistId`, `trackStats.streams`,
`trackStats.likes` and the ten `audioFeatures` fields (as for every other field but the
title) and the body's title for `title`. -/
theorem updatetrack.Handler_title_only {σ A : Type} (lib : Lib A)
    (Unmarshal : String → Except String updatetrack.UpdateTrackRequestBody)
    (request : api.APIRequest) (injector : inject.Injector σ) (w w' : mongo.World σ)
    (id : String) (t : models.TrackInfo) (b : updatetrack.UpdateTrackRequestBody)
    (hid : updatetrack.GetAndValidateID lib request = Except.ok id)
    (hfind : updatetrack.FindTrackByID lib
      (store.NewMongoStore models.TrackInfo injector.MongoInstance "gostream" "tracks") id w
      = (Except.ok t, w'))
    (hbody : updatetrack.ExtractRequestBody Unmarshal request = Except.ok b)
    (hvalid : updatetrack.ValidateRequestBody lib b = none)
    (hArtist : b.ArtistID = "") (hFeatured : b.FeaturedArtistIDs = []) (hTitle : b.Title ≠ "")
    (hLabel : b.Label = "") (hDate : b.ReleaseDate = "")
    (hStreams : b.TrackStats.Streams = 0) (hLikes : b.TrackStats.Likes = 0)
    (hKey : b.AudioFeatures.Key = "")
    (hTempo : b.AudioFeatures.Tempo.isNonZero = false)
    (hDuration : b.AudioFeatures.Duration.isNonZero = false)
    (hEnergy : b.AudioFeatures.Energy.isNonZero = false)
    (hDance : b.AudioFeatures.Danceability.isNonZero = false)
    (hAcc : b.AudioFeatures.Accousticness.isNonZero = false)
    (hInstr : b.AudioFeatures.Instrumentalness.isNonZero = false)
    (hLive : b.AudioFeatures.Liveness.isNonZero = false)
    (hLoud : b.AudioFeatures.Loudness.isNonZero = false)
    (hSig : b.AudioFeatures.TimeSignature = 0) :
    (updatetrack.Handler lib Unmarshal request (inject.Object.Injector injector) w).2.calls
      = w'.calls ++ [mongo.Call.UpdateOne "gostream" "tracks" [("_id", bson.Value.str id)]
          [("$set", bson.Value.doc [
            ("artistId", bson.Value.str t.ArtistID),
            ("featuredArtistIds", bson.Value.strs t.FeaturedArtistIDs),
            ("title", bson.Value.str b.Title),
            ("label", bson.Value.str t.Label),
            ("releaseDate", bson.Value.time t.ReleaseDate),
            ("trackStats.streams", bson.Value.uint32 t.TrackStats.Streams),
            ("trackStats.likes", bson.Value.uint32 t.TrackStats.Likes),
            ("audioFeatures.key", bson.Value.str t.AudioFeatures.Key),
            ("audioFeatures.tempo", bson.Value.float32 t.AudioFeatures.Tempo),
            ("audioFeatures.duration", bson.Value.float32 t.AudioFeatures.Duration),
            ("audioFeatures.energy", bson.Value.float32 t.AudioFeatures.Energy),
            ("audioFeatures.danceability", bson.Value.float32 t.AudioFeatures.Danceability),
            ("audioFeatures.accousticness", bson.Value.float32 t.AudioFeatures.Accousticness),
            ("audioFeatures.instrumentalness",
              bson.Value.float32 t.AudioFeatures.Instrumentalness),
            ("audioFeatures.liveness", bson.Value.float32 t.AudioFeatures.Liveness),
            ("audioFeatures.loudness", bson.Value.float32 t.AudioFeatures.Loudness),
            ("audioFeatures.timeSignature", bson.Value.int t.AudioFeatures.TimeSignature)])]] := by
  have hmerge := updatetrack.Handler.merge_title lib t b hArtist hFeatured hTitle hLabel hDate
    hStreams hLikes hKey hTempo hDuration hEnergy hDance hAcc hInstr hLive hLoud hSig
  have hworld := store.UpdateItem_world
    (store.NewMongoStore models.TrackInfo injector.MongoInstance "gostream" "tracks")
    { Root := some (query.IQuery.FilterOperatorEq "_id" (bson.Value.str id)), Limit := 0 }
    (updatetrack.Handler.updateOperator (updatetrack.Handler.merge lib t b)) w'
  unfold updatetrack.Handler
  simp only [updatetrack.GetSafeInjector, hid, hfind, hbody, hvalid, hArtist, hFeatured]
  simp only [ne_eq, not_true_eq_false, if_false, List.length_nil, gt_iff_lt, lt_self_iff_false]
  rcases hres : store.MongoStore.UpdateItem
      (store.NewMongoStore models.TrackInfo injector.MongoInstance "gostream" "tracks")
      { Root := some (query.IQuery.FilterOperatorEq "_id" (bson.Value.str id)), Limit := 0 }
      (updatetrack.Handler.updateOperator (updatetrack.Handler.merge lib t b)) w'
    with ⟨r, w''⟩
  rw [hres] at hworld
  simp only at hworld
  rw [hworld, hmerge]
  cases r with
  | error e =>
    simp [mongo.Collection.UpdateOne_calls, store.NewMongoStore, query.IQuery.Compile,
      updatetrack.Handler.updateOperator]
  | ok count =>
    simp only []
    split <;>
    simp [mongo.Collection.UpdateOne_calls, store.NewMongoStore, query.IQuery.Compile,
      updatetrack.Handler.updateOperator]

/-- Witness of C10: the request `PUT /tracks/<id>` with the body `{"title": "New Title"}`
against the stored track `sample.track`. -/
theorem updatetrack.Handler_title_only_witness :
    (updatetrack.Handler updatetrack.sample.lib
        (fun _ => Except.ok updatetrack.sample.titleOnly)
        (updatetrack.sample.request "\x7b\"title\": \"New Title\"\x7d")
        (inject.Object.Injector ⟨⟨updatetrack.sample.client⟩⟩) ⟨(), []⟩).2.calls
      = [mongo.Call.Find "gostream" "tracks" [("_id", bson.Value.str updatetrack.sample.id)] 1]
        ++ [mongo.Call.UpdateOne "gostream" "tracks"
          [("_id", bson.Value.str updatetrack.sample.id)]
          [("$set", bson.Value.doc [
            ("artistId", bson.Value.str updatetrack.sample.track.ArtistID),
            ("featuredArtistIds", bson.Value.strs updatetrack.sample.track.FeaturedArtistIDs),
            ("title", bson.Value.str updatetrack.sample.titleOnly.Title),
            ("label", bson.Value.str updatetrack.sample.track.Label),
            ("releaseDate", bson.Value.time updatetrack.sample.track.ReleaseDate),
            ("trackStats.streams", bson.Value.uint32 updatetrack.sample.track.TrackStats.Streams),
            ("trackStats.likes", bson.Value.uint32 updatetrack.sample.track.TrackStats.Likes),
            ("audioFeatures.key", bson.Value.str updatetrack.sample.track.AudioFeatures.Key),
            ("audioFeatures.tempo",
              bson.Value.float32 updatetrack.sample.track.AudioFeatures.Tempo),
            ("audioFeatures.duration",
              bson.Value.float32 updatetrack.sample.track.AudioFeatures.Duration),
            ("audioFeatures.energy",
              bson.Value.float32 updatetrack.sample.track.AudioFeatures.Energy),
            ("audioFeatures.danceability",
              bson.Value.float32 updatetrack.sample.track.AudioFeatures.Danceability),
            ("audioFeatures.accousticness",
              bson.Value.float32 updatetrack.sample.track.AudioFeatures.Accousticness),
            ("audioFeatures.instrumentalness",
              bson.Value.float32 updatetrack.sample.track.AudioFeatures.Instrumentalness),
            ("audioFeatures.liveness",
              bson.Value.float32 updatetrack.sample.track.AudioFeatures.Liveness),
            ("audioFeatures.loudness",
              bson.Value.float32 updatetrack.sample.track.AudioFeatures.Loudness),
            ("audioFeatures.timeSignature",
              bson.Value.int updatetrack.sample.track.AudioFeatures.TimeSignature)])]] :=
  updatetrack.Handler_title_only updatetrack.sample.lib
    (fun _ => Except.ok updatetrack.sample.titleOnly)
    (updatetrack.sample.request "\x7b\"title\": \"New Title\"\x7d")
    ⟨⟨updatetrack.sample.client⟩⟩ ⟨(), []⟩
    ⟨(), [mongo.Call.Find "gostream" "tracks" [("_id", bson.Value.str updatetrack.sample.id)] 1]⟩
    updatetrack.sample.id updatetrack.sample.track updatetrack.sample.titleOnly
    rfl rfl rfl rfl rfl rfl (by decide) rfl rfl rfl rfl rfl rfl rfl rfl rfl rfl rfl rfl rfl rfl

/-! ### The handlers and the store -/

theorem store.CreateItem_world {σ T : Type} (s : store.MongoStore σ T) (item : bson.Value)
    (w : mongo.World σ) :
    (s.CreateItem item w).2 = (s.Collection.InsertOne item w).2 := by
  unfold store.MongoStore.CreateItem
  split <;> simp_all

theorem store.DeleteItem_world {σ T : Type} (s : store.MongoStore σ T) (id : String)
    (w : mongo.World σ) :
    (s.DeleteItem id w).2 = (s.Collection.DeleteOne [("_id", bson.Value.str id)] w).2 := by
  unfold store.MongoStore.DeleteItem
  split <;> simp_all

theorem store.FindItems_calls {σ T : Type} (decode : bson.Value → Except String T)
    (s : store.MongoStore σ T) (root : query.IQuery) (limit : Nat) (w : mongo.World σ) :
    (s.FindItems decode ⟨some root, limit⟩ w).2.calls = w.calls ++
      [mongo.Call.Find s.Collection.database s.Collection.name root.Compile
        (Int.ofNat (limit % 2 ^ 32))] := by
  simp [store.FindItems_world, mongo.Collection.Find]

/-- C13: in each of the five handlers, when the injected object is not an
`inject.Injector` value the response has status 500 and no body, and the database state and
the log of database calls are those before the request: no store operation is performed. -/
theorem handlers_without_injector {σ A : Type} (lib : Lib A)
    (UnmarshalCreate : String → Except String createtrack.CreateTrackRequestBody)
    (UnmarshalUpdate : String → Except String updatetrack.UpdateTrackRequestBody)
    (newID : String) (request : api.APIRequest) (w : mongo.World σ) :
    gettracks.Handler lib request inject.Object.other w
      = ({ StatusCode := 500, Headers := [], Body := none }, w) ∧
    gettrack.Handler lib request inject.Object.other w
      = ({ StatusCode := 500, Headers := [], Body := none }, w) ∧
    createtrack.Handler lib UnmarshalCreate newID request inject.Object.other w
      = ({ StatusCode := 500, Headers := [], Body := none }, w) ∧
    updatetrack.Handler lib UnmarshalUpdate request inject.Object.other w
      = ({ StatusCode := 500, Headers := [], Body := none }, w) ∧
    deletetrack.Handler request inject.Object.other w
      = ({ StatusCode := 500, Headers := [], Body := none }, w) := by
  refine ⟨rfl, rfl, rfl, rfl, rfl⟩

/-- C17: the get-by-id handler makes exactly one database call, a `Find` with the query
`{"_id": id}` for the `id` path parameter and the limit 10; when the store returns no
item the response is 404 without body, and when it returns a non-empty list the response
is 200 with the first item as body. Each of the three statements stands for every state of
the database. -/
theorem gettrack.Handler_found_or_not {σ A : Type} (lib : Lib A) (request : api.APIRequest)
    (injector : inject.Injector σ) :
    (∀ (w : mongo.World σ),
      (gettrack.Handler lib request (inject.Object.Injector injector) w).2.calls
        = w.calls ++ [mongo.Call.Find "tracks" "tracks"
            [("_id", bson.Value.str ((request.PathParameters.get? "id").getD ""))] 10]) ∧
    (∀ (w : mongo.World σ),
      (store.MongoStore.FindItems lib.decodeTrack
          (store.NewMongoStore models.TrackInfo injector.MongoInstance "tracks" "tracks")
          ⟨some (query.IQuery.FilterOperatorEq "_id"
            (bson.Value.str ((request.PathParameters.get? "id").getD ""))), 10⟩ w).1
        = Except.ok [] →
      (gettrack.Handler lib request (inject.Object.Injector injector) w).1
        = { StatusCode := 404, Headers := [], Body := none }) ∧
    (∀ (w : mongo.World σ) (item : models.TrackInfo) (rest : List models.TrackInfo),
      (store.MongoStore.FindItems lib.decodeTrack
          (store.NewMongoStore models.TrackInfo injector.MongoInstance "tracks" "tracks")
          ⟨some (query.IQuery.FilterOperatorEq "_id"
            (bson.Value.str ((request.PathParameters.get? "id").getD ""))), 10⟩ w).1
        = Except.ok (item :: rest) →
      (gettrack.Handler lib request (inject.Object.Injector injector) w).1
        = { StatusCode := 200, Headers := [], Body := some item }) := by
  refine ⟨?_, ?_, ?_⟩
  · intro w
    have hc := store.FindItems_calls lib.decodeTrack
      (store.NewMongoStore models.TrackInfo injector.MongoInstance "tracks" "tracks")
      (query.IQuery.FilterOperatorEq "_id"
        (bson.Value.str ((request.PathParameters.get? "id").getD ""))) 10 w
    simp only [gettrack.Handler, gettrack.GetSafeInjector]
    split <;> simp_all [store.NewMongoStore, query.IQuery.Compile]
  · intro w hnone
    simp only [gettrack.Handler, gettrack.GetSafeInjector]
    split <;> simp_all
  · intro w item rest hsome
    simp only [gettrack.Handler, gettrack.GetSafeInjector]
    split <;> simp_all

/-- Witness of C17: against the sample database, the id `sample.newID` is looked up once in
a state without tracks and once in a state whose collection holds the track of that id. -/
theorem gettrack.Handler_found_or_not_witness :
    (gettrack.Handler sample.lib (sample.request "GET" [("id", sample.newID)] [] "")
        (inject.Object.Injector ⟨⟨sample.memoryClient⟩⟩) ⟨sample.oneArtist, []⟩).2.calls
      = [] ++ [mongo.Call.Find "tracks" "tracks"
          [("_id", bson.Value.str (((sample.request "GET" [("id", sample.newID)] []
            "").PathParameters.get? "id").getD ""))] 10] ∧
    (gettrack.Handler sample.lib (sample.request "GET" [("id", sample.newID)] [] "")
        (inject.Object.Injector ⟨⟨sample.memoryClient⟩⟩) ⟨sample.oneArtist, []⟩).1
      = { StatusCode := 404, Headers := [], Body := none } ∧
    (gettrack.Handler sample.lib (sample.request "GET" [("id", sample.newID)] [] "")
        (inject.Object.Injector ⟨⟨sample.memoryClient⟩⟩)
        ⟨[("tracks", "tracks",
          (createtrack.Handler.track sample.lib sample.newID sample.createBody).Marshal)],
          []⟩).1
      = { StatusCode := 200, Headers := [],
          Body := some (createtrack.Handler.track sample.lib sample.newID sample.createBody) } :=
  ⟨(gettrack.Handler_found_or_not sample.lib
      (sample.request "GET" [("id", sample.newID)] [] "") ⟨⟨sample.memoryClient⟩⟩).1
      ⟨sample.oneArtist, []⟩,
    (gettrack.Handler_found_or_not sample.lib
      (sample.request "GET" [("id", sample.newID)] [] "") ⟨⟨sample.memoryClient⟩⟩).2.1
      ⟨sample.oneArtist, []⟩ rfl,
    (gettrack.Handler_found_or_not sample.lib
      (sample.request "GET" [("id", sample.newID)] [] "") ⟨⟨sample.memoryClient⟩⟩).2.2
      ⟨[("tracks", "tracks",
        (createtrack.Handler.track sample.lib sample.newID sample.createBody).Marshal)], []⟩
      (createtrack.Handler.track sample.lib sample.newID sample.createBody) [] rfl⟩

/-- C18: the delete handler makes exactly one database call, a `DeleteOne` with the query
`{"_id": id}` for the `id` path parameter; when the store call succeeds the response is 204
without body if the deleted count is 0 and 202 without body if it is greater than 0. Each of
the three statements stands for every state of the database. -/
theorem deletetrack.Handler_count {σ : Type} (request : api.APIRequest)
    (injector : inject.Injector σ) :
    (∀ (w : mongo.World σ),
      (deletetrack.Handler request (inject.Object.Injector injector) w).2.calls
        = w.calls ++ [mongo.Call.DeleteOne "tracks" "tracks"
            [("_id", bson.Value.str ((request.PathParameters.get? "id").getD ""))]]) ∧
    (∀ (w : mongo.World σ),
      (store.MongoStore.DeleteItem
          (store.NewMongoStore models.TrackInfo injector.MongoInstance "tracks" "tracks")
          ((request.PathParameters.get? "id").getD "") w).1 = Except.ok 0 →
      (deletetrack.Handler request (inject.Object.Injector injector) w).1
        = { StatusCode := 204, Headers := [], Body := none }) ∧
    (∀ (w : mongo.World σ) (count : Int),
      (store.MongoStore.DeleteItem
          (store.NewMongoStore models.TrackInfo injector.MongoInstance "tracks" "tracks")
          ((request.PathParameters.get? "id").getD "") w).1 = Except.ok count →
      0 < count →
      (deletetrack.Handler request (inject.Object.Injector injector) w).1
        = { StatusCode := 202, Headers := [], Body := none }) := by
  refine ⟨?_, ?_, ?_⟩
  · intro w
    have hw := store.DeleteItem_world
      (store.NewMongoStore models.TrackInfo injector.MongoInstance "tracks" "tracks")
      ((request.PathParameters.get? "id").getD "") w
    simp only [deletetrack.Handler, deletetrack.GetSafeInjector]
    split
    · simp_all [store.NewMongoStore, mongo.Collection.DeleteOne]
    · split <;> simp_all [store.NewMongoStore, mongo.Collection.DeleteOne]
  · intro w hzero
    simp only [deletetrack.Handler, deletetrack.GetSafeInjector]
    split <;> simp_all
  · intro w count hcount hpos
    have hne : count ≠ 0 := by omega
    simp only [deletetrack.Handler, deletetrack.GetSafeInjector]
    split
    · simp_all
    · split <;> simp_all

/-- Witness of C18: against the sample database, the id `sample.newID` is deleted once in a
state without tracks and once in a state whose collection holds the track of that id. -/
theorem deletetrack.Handler_count_witness :
    (deletetrack.Handler (sample.request "DELETE" [("id", sample.newID)] [] "")
        (inject.Object.Injector ⟨⟨sample.memoryClient⟩⟩) ⟨sample.oneArtist, []⟩).2.calls
      = [] ++ [mongo.Call.DeleteOne "tracks" "tracks"
          [("_id", bson.Value.str (((sample.request "DELETE" [("id", sample.newID)] []
            "").PathParameters.get? "id").getD ""))]] ∧
    (deletetrack.Handler (sample.request "DELETE" [("id", sample.newID)] [] "")
        (inject.Object.Injector ⟨⟨sample.memoryClient⟩⟩) ⟨sample.oneArtist, []⟩).1
      = { StatusCode := 204, Headers := [], Body := none } ∧
    (deletetrack.Handler (sample.request "DELETE" [("id", sample.newID)] [] "")
        (inject.Object.Injector ⟨⟨sample.memoryClient⟩⟩)
        ⟨[("tracks", "tracks",
          (createtrack.Handler.track sample.lib sample.newID sample.createBody).Marshal)],
          []⟩).1
      = { StatusCode := 202, Headers := [], Body := none } :=
  ⟨(deletetrack.Handler_count (sample.request "DELETE" [("id", sample.newID)] [] "")
      ⟨⟨sample.memoryClient⟩⟩).1 ⟨sample.oneArtist, []⟩,
    (deletetrack.Handler_count (sample.request "DELETE" [("id", sample.newID)] [] "")
      ⟨⟨sample.memoryClient⟩⟩).2.1 ⟨sample.oneArtist, []⟩ rfl,
    (deletetrack.Handler_count (sample.request "DELETE" [("id", sample.newID)] [] "")
      ⟨⟨sample.memoryClient⟩⟩).2.2
      ⟨[("tracks", "tracks",
        (createtrack.Handler.track sample.lib sample.newID sample.createBody).Marshal)], []⟩
      1 rfl (by decide)⟩

/-! ### Decimal numerals and `strconv.Atoi` -/

theorem strconv.digitChar_spec (d : Nat) (hd : d < 10) :
    ('0' ≤ Nat.digitChar d ∧ Nat.digitChar d ≤ '9') ∧
    (Nat.digitChar d).toNat - '0'.toNat = d ∧
    Nat.digitChar d ≠ '-' ∧ Nat.digitChar d ≠ '+' := by
  interval_cases d <;> decide

theorem strconv.parseDigits_append (xs ys : List Char) :
    ∀ acc : Nat, strconv.parseDigits (xs ++ ys) acc
      = (strconv.parseDigits xs acc).bind (strconv.parseDigits ys) := by
  induction xs with
  | nil => intro acc; simp [strconv.parseDigits]
  | cons c cs ih =>
    intro acc
    by_cases hc : '0' ≤ c ∧ c ≤ '9'
    · simp [strconv.parseDigits, hc, ih]
    · simp [strconv.parseDigits, hc]

theorem strconv.toDigitsCore_append (fuel : Nat) :
    ∀ (n : Nat) (ds : List Char),
      Nat.toDigitsCore 10 fuel n ds = Nat.toDigitsCore 10 fuel n [] ++ ds := by
  induction fuel with
  | zero => intro n ds; simp [Nat.toDigitsCore]
  | succ fuel ih =>
    intro n ds
    by_cases h : n / 10 = 0
    · simp [Nat.toDigitsCore, h]
    · simp only [Nat.toDigitsCore, h, if_false]
      rw [ih (n / 10) (Nat.digitChar (n % 10) :: ds), ih (n / 10) [Nat.digitChar (n % 10)]]
      simp

/-- With enough fuel the digits of `n` are the digits of `n / 10` followed by the digit of
`n % 10`, and they read back as `n`. -/
theorem strconv.parseDigits_toDigitsCore (fuel : Nat) :
    ∀ n : Nat, n < fuel →
      strconv.parseDigits (Nat.toDigitsCore 10 fuel n []) 0 = some n ∧
      (∃ c cs, Nat.toDigitsCore 10 fuel n [] = c :: cs ∧ c ≠ '-' ∧ c ≠ '+') := by
  induction fuel with
  | zero => intro n h; omega
  | succ fuel ih =>
    intro n hn
    have hd := strconv.digitChar_spec (n % 10) (Nat.mod_lt n (by decide))
    by_cases h : n / 10 = 0
    · have hlt : n < 10 := by omega
      have hmod : n % 10 = n := Nat.mod_eq_of_lt hlt
      refine ⟨?_, Nat.digitChar (n % 10), [], by simp [Nat.toDigitsCore, h], hd.2.2.1, hd.2.2.2⟩
      simp only [Nat.toDigitsCore, h, if_true, strconv.parseDigits, hd.1, and_self]
      simp only [hd.2.1]
      simp [hmod]
    · have hlt : n / 10 < fuel := by omega
      obtain ⟨hp, c, cs, hcs, hc1, hc2⟩ := ih (n / 10) hlt
      have heq : Nat.toDigitsCore 10 (fuel + 1) n []
          = Nat.toDigitsCore 10 fuel (n / 10) [] ++ [Nat.digitChar (n % 10)] := by
        simp only [Nat.toDigitsCore, h, if_false]
        rw [strconv.toDigitsCore_append]
      refine ⟨?_, c, cs ++ [Nat.digitChar (n % 10)], by rw [heq, hcs]; simp, hc1, hc2⟩
      rw [heq, strconv.parseDigits_append, hp]
      simp only [Option.bind, strconv.parseDigits, hd.1, and_self, if_true]
      simp only [hd.2.1]
      congr 1
      omega

/-- `strconv.Atoi` reads the decimal form of a natural number below `2 ^ 63` back. -/
theorem strconv.Atoi_toString (n : Nat) (hn : n < 2 ^ 63) :
    strconv.Atoi (toString n) = Except.ok (n : Int) := by
  obtain ⟨hp, c, cs, hcs, hc1, hc2⟩ := strconv.parseDigits_toDigitsCore (n + 1) n (by omega)
  have hdata : (toString n).data = Nat.toDigitsCore 10 (n + 1) n [] := rfl
  have hrange : ¬ ((n : Int) < -(2 ^ 63) ∨ (2 : Int) ^ 63 - 1 < (n : Int)) := by
    have : (n : Int) < 2 ^ 63 := by exact_mod_cast hn
    omega
  unfold strconv.Atoi
  simp only [hdata, hcs, List.head?_cons, Option.some.injEq, hc1, hc2, or_self, if_false]
  rw [← hcs, hp]
  simp only [hcs]
  have hn' : n < 9223372036854775808 := by simpa using hn
  simp
  constructor <;> omega

/-- C19: for a list request whose query parameters hold `artist = a` and, as `limit`, the
decimal form of a natural number `n` below `2 ^ 32`, `CreateFilterFromQueryParameters`
returns the filter with root `And[Eq("artistId", a)]` and limit `n`, and the root compiles
to `{"$and": [{"artistId": a}]}`; for a request without `artist` parameter the root is
nil. -/
theorem gettracks.CreateFilterFromQueryParameters_artist_limit (request request' : api.APIRequest)
    (a : String) (n : Nat)
    (hartist : request.QueryParameters.get? "artist" = some a)
    (hlimit : request.QueryParameters.get? "limit" = some (toString n))
    (hn : n < 2 ^ 32)
    (habsent : request'.QueryParameters.get? "artist" = none) :
    gettracks.CreateFilterFromQueryParameters request
      = { Root := some (query.IQuery.FilterOperatorAnd
            [query.IQuery.FilterOperatorEq "artistId" (bson.Value.str a)]),
          Limit := n } ∧
    (query.IQuery.FilterOperatorAnd
        [query.IQuery.FilterOperatorEq "artistId" (bson.Value.str a)]).Compile
      = [("$and", bson.Value.arr [bson.Value.doc [("artistId", bson.Value.str a)]])] ∧
    (gettracks.CreateFilterFromQueryParameters request').Root = none := by
  have hatoi := strconv.Atoi_toString n (by omega)
  have hn' : n < 4294967296 := by simpa using hn
  have hmod : ((n : Int) % 2 ^ 32).toNat = n := by
    have h1 : (n : Int) % 2 ^ 32 = (n : Int) := by
      apply Int.emod_eq_of_lt <;> omega
    rw [h1]
    simp
  refine ⟨?_, ?_, ?_⟩
  · simp only [gettracks.CreateFilterFromQueryParameters, hartist, hlimit, hatoi, hmod]
    simp
  · simp [query.IQuery.Compile, query.compileRange]
  · simp only [gettracks.CreateFilterFromQueryParameters, habsent]
    simp only [List.length_nil, gt_iff_lt, lt_self_iff_false, if_false]
    split <;> rfl

/-- Witness of C19 at the query `artist=<uuid>&limit=2` and at the empty query. -/
theorem gettracks.CreateFilterFromQueryParameters_artist_limit_witness :
    gettracks.CreateFilterFromQueryParameters
        (sample.request "GET" [] [("artist", sample.artistID), ("limit", "2")] "")
      = { Root := some (query.IQuery.FilterOperatorAnd
            [query.IQuery.FilterOperatorEq "artistId" (bson.Value.str sample.artistID)]),
          Limit := 2 } ∧
    (query.IQuery.FilterOperatorAnd
        [query.IQuery.FilterOperatorEq "artistId" (bson.Value.str sample.artistID)]).Compile
      = [("$and", bson.Value.arr
          [bson.Value.doc [("artistId", bson.Value.str sample.artistID)]])] ∧
    (gettracks.CreateFilterFromQueryParameters (sample.request "GET" [] [] "")).Root = none :=
  gettracks.CreateFilterFromQueryParameters_artist_limit
    (sample.request "GET" [] [("artist", sample.artistID), ("limit", "2")] "")
    (sample.request "GET" [] [] "") sample.artistID 2 rfl rfl (by decide) rfl

/-- C20: for a list request whose `limit` query parameter is present and is not accepted by
`strconv.Atoi`, `CreateFilterFromQueryParameters` returns a filter with limit 0, and the
filter is the one it returns for a request with the same `artist` parameter and no `limit`
parameter; no error is reported. -/
theorem gettracks.CreateFilterFromQueryParameters_bad_limit (request request' : api.APIRequest)
    (limit err : String)
    (hlimit : request.QueryParameters.get? "limit" = some limit)
    (herr : strconv.Atoi limit = Except.error err)
    (hsame : request'.QueryParameters.get? "artist" = request.QueryParameters.get? "artist")
    (hwithout : request'.QueryParameters.get? "limit" = none) :
    (gettracks.CreateFilterFromQueryParameters request).Limit = 0 ∧
    (gettracks.CreateFilterFromQueryParameters request).Root
      = (gettracks.CreateFilterFromQueryParameters request').Root ∧
    gettracks.CreateFilterFromQueryParameters request
      = gettracks.CreateFilterFromQueryParameters request' := by
  have h : gettracks.CreateFilterFromQueryParameters request
      = gettracks.CreateFilterFromQueryParameters request' := by
    simp only [gettracks.CreateFilterFromQueryParameters, hlimit, herr, hsame, hwithout]
  refine ⟨?_, by rw [h], h⟩
  simp only [gettracks.CreateFilterFromQueryParameters, hlimit, herr]
  split <;> rfl

/-- Witness of C20 at the query `artist=<uuid>&limit=abc`. -/
theorem gettracks.CreateFilterFromQueryParameters_bad_limit_witness :
    (gettracks.CreateFilterFromQueryParameters
      (sample.request "GET" [] [("artist", sample.artistID), ("limit", "abc")] "")).Limit = 0 ∧
    (gettracks.CreateFilterFromQueryParameters
      (sample.request "GET" [] [("artist", sample.artistID), ("limit", "abc")] "")).Root
      = (gettracks.CreateFilterFromQueryParameters
          (sample.request "GET" [] [("artist", sample.artistID)] "")).Root ∧
    gettracks.CreateFilterFromQueryParameters
      (sample.request "GET" [] [("artist", sample.artistID), ("limit", "abc")] "")
      = gettracks.CreateFilterFromQueryParameters
          (sample.request "GET" [] [("artist", sample.artistID)] "") :=
  gettracks.CreateFilterFromQueryParameters_bad_limit
    (sample.request "GET" [] [("artist", sample.artistID), ("limit", "abc")] "")
    (sample.request "GET" [] [("artist", sample.artistID)] "")
    "abc" "invalid syntax" rfl rfl rfl rfl

/-! ### The create handler -/

/-- C14: when the `artistId` of a create request body, trimmed of surrounding white space,
is not accepted by `uuid.Parse`, `ValidateRequestBody` returns the validation error with
`ref` `artistId`, whatever the other fields hold, and the create handler, given that body,
answers 400 with that error as body and calls no store operation. -/
theorem createtrack.invalid_artistId {σ A : Type} (lib : Lib A)
    (Unmarshal : String → Except String createtrack.CreateTrackRequestBody) (newID : String)
    (request : api.APIRequest) (injector : inject.Injector σ) (w : mongo.World σ)
    (b : createtrack.CreateTrackRequestBody)
    (hbody : Unmarshal request.Body = Except.ok b)
    (hartist : lib.uuidParseOk (strings.TrimSpace b.ArtistID) = false) :
    createtrack.ValidateRequestBody lib b
      = some { FieldRef := "artistId", ErrorMessage := "value is not a valid uuid" } ∧
    createtrack.Handler lib Unmarshal newID request (inject.Object.Injector injector) w
      = ({ StatusCode := 400, Headers := [],
           Body := some (createtrack.ResponseBody.ValidationError
             { FieldRef := "artistId", ErrorMessage := "value is not a valid uuid" }) }, w) := by
  have hv : createtrack.ValidateRequestBody lib b
      = some { FieldRef := "artistId", ErrorMessage := "value is not a valid uuid" } := by
    simp [createtrack.ValidateRequestBody, hartist]
  refine ⟨hv, ?_⟩
  simp [createtrack.Handler, createtrack.GetSafeInjector, createtrack.ExtractRequestBody,
    hbody, hv]

/-- Witness of C14: the sample body with the artist id ` not-a-uuid `. -/
theorem createtrack.invalid_artistId_witness :
    createtrack.ValidateRequestBody sample.lib
        { sample.createBody with ArtistID := " not-a-uuid " }
      = some { FieldRef := "artistId", ErrorMessage := "value is not a valid uuid" } ∧
    createtrack.Handler sample.lib
        (fun _ => Except.ok { sample.createBody with ArtistID := " not-a-uuid " })
        sample.newID (sample.request "POST" [] [] "")
        (inject.Object.Injector ⟨⟨sample.memoryClient⟩⟩) ⟨sample.oneArtist, []⟩
      = ({ StatusCode := 400, Headers := [],
           Body := some (createtrack.ResponseBody.ValidationError
             { FieldRef := "artistId", ErrorMessage := "value is not a valid uuid" }) },
         ⟨sample.oneArtist, []⟩) :=
  createtrack.invalid_artistId sample.lib
    (fun _ => Except.ok { sample.createBody with ArtistID := " not-a-uuid " })
    sample.newID (sample.request "POST" [] [] "") ⟨⟨sample.memoryClient⟩⟩
    ⟨sample.oneArtist, []⟩ { sample.createBody with ArtistID := " not-a-uuid " } rfl rfl

theorem createtrack.ValidateRequestBody.loop_none {A : Type} (lib : Lib A) :
    ∀ artists : List String, (∀ a ∈ artists, lib.uuidParseOk a = true) →
      createtrack.ValidateRequestBody.loop lib artists = none := by
  intro artists
  induction artists with
  | nil => intro _; rfl
  | cons a rest ih =>
    intro h
    have ha := h a (by simp)
    simp only [createtrack.ValidateRequestBody.loop, ha, Bool.not_true, Bool.false_eq_true,
      if_false]
    exact ih (fun x hx => h x (by simp [hx]))

/-- C15: for a create request body whose trimmed `artistId` and trimmed featured artist ids
are accepted by `uuid.Parse` and whose trimmed title is not empty, when `time.Parse` with
the layout `2006-01-02` rejects the trimmed `releaseDate`, `ValidateRequestBody` returns the
error with `ref` `releaseDate` and the message `expected following format: yyyy-MM-dd`, and
the create handler, given that body, answers 400 with that error as body; `2024-13-40` is
rejected by `time.Parse` with that layout. -/
theorem createtrack.invalid_releaseDate {σ A : Type} (lib : Lib A)
    (Unmarshal : String → Except String createtrack.CreateTrackRequestBody) (newID : String)
    (request : api.APIRequest) (injector : inject.Injector σ) (w : mongo.World σ)
    (b : createtrack.CreateTrackRequestBody) (err : String)
    (hbody : Unmarshal request.Body = Except.ok b)
    (hartist : lib.uuidParseOk (strings.TrimSpace b.ArtistID) = true)
    (hfeatured : ∀ a ∈ b.FeaturedArtistIDs, lib.uuidParseOk (strings.TrimSpace a) = true)
    (htitle : strings.TrimSpace b.Title ≠ "")
    (hdate : lib.timeParse "2006-01-02" (strings.TrimSpace b.ReleaseDate) = Except.error err) :
    createtrack.ValidateRequestBody lib b
      = some { FieldRef := "releaseDate",
               ErrorMessage := "expected following format: yyyy-MM-dd" } ∧
    createtrack.Handler lib Unmarshal newID request (inject.Object.Injector injector) w
      = ({ StatusCode := 400, Headers := [],
           Body := some (createtrack.ResponseBody.ValidationError
             { FieldRef := "releaseDate",
               ErrorMessage := "expected following format: yyyy-MM-dd" }) }, w) ∧
    (∃ e, time.ParseDate "2024-13-40" = Except.error e) := by
  have hloop : createtrack.ValidateRequestBody.loop lib
      (arrays.Map b.FeaturedArtistIDs (fun artist => strings.TrimSpace artist)) = none := by
    apply createtrack.ValidateRequestBody.loop_none
    intro a ha
    simp only [arrays.Map, List.mem_map] at ha
    obtain ⟨x, hx, rfl⟩ := ha
    exact hfeatured x hx
  have hlen : (strings.TrimSpace b.Title).length ≠ 0 := by
    intro h
    apply htitle
    have : (strings.TrimSpace b.Title).data = [] := List.length_eq_zero.mp h
    exact String.ext this
  have hv : createtrack.ValidateRequestBody lib b
      = some { FieldRef := "releaseDate",
               ErrorMessage := "expected following format: yyyy-MM-dd" } := by
    simp [createtrack.ValidateRequestBody, hartist, hloop, hlen, hdate, Except.toBool]
  refine ⟨hv, ?_, ⟨_, rfl⟩⟩
  simp [createtrack.Handler, createtrack.GetSafeInjector, createtrack.ExtractRequestBody,
    hbody, hv]

/-- Witness of C15: the sample body with the release date `2024-13-40`. -/
theorem createtrack.invalid_releaseDate_witness :
    createtrack.ValidateRequestBody sample.lib
        { sample.createBody with ReleaseDate := "2024-13-40" }
      = some { FieldRef := "releaseDate",
               ErrorMessage := "expected following format: yyyy-MM-dd" } ∧
    createtrack.Handler sample.lib
        (fun _ => Except.ok { sample.createBody with ReleaseDate := "2024-13-40" })
        sample.newID (sample.request "POST" [] [] "")
        (inject.Object.Injector ⟨⟨sample.memoryClient⟩⟩) ⟨sample.oneArtist, []⟩
      = ({ StatusCode := 400, Headers := [],
           Body := some (createtrack.ResponseBody.ValidationError
             { FieldRef := "releaseDate",
               ErrorMessage := "expected following format: yyyy-MM-dd" }) },
         ⟨sample.oneArtist, []⟩) ∧
    (∃ e, time.ParseDate "2024-13-40" = Except.error e) :=
  createtrack.invalid_releaseDate sample.lib
    (fun _ => Except.ok { sample.createBody with ReleaseDate := "2024-13-40" })
    sample.newID (sample.request "POST" [] [] "") ⟨⟨sample.memoryClient⟩⟩
    ⟨sample.oneArtist, []⟩ { sample.createBody with ReleaseDate := "2024-13-40" }
    "parsing time: month out of range" rfl rfl (by decide) (by decide) rfl

theorem createtrack.CheckIfArtistExists_calls {σ A : Type} (lib : Lib A)
    (s : store.MongoStore σ A) (artistID : String) (w : mongo.World σ) :
    (createtrack.CheckIfArtistExists lib s artistID w).2.calls = w.calls ++
      [mongo.Call.Find s.Collection.database s.Collection.name
        [("_id", bson.Value.str artistID)] 1] := by
  have hc := store.FindItems_calls lib.decodeArtist s
    (query.IQuery.FilterOperatorEq "_id" (bson.Value.str artistID)) 1 w
  simp only [createtrack.CheckIfArtistExists]
  split <;> simp_all [query.IQuery.Compile]

theorem createtrack.CheckIfArtistExists_create_error {σ A : Type} (lib : Lib A)
    (s : store.MongoStore σ A) (artistID : String) (w : mongo.World σ)
    (h : (s.FindItems lib.decodeArtist
        ⟨some (query.IQuery.FilterOperatorEq "_id" (bson.Value.str artistID)), 1⟩ w).1
          = Except.ok [] ∨
        ∃ e, (s.FindItems lib.decodeArtist
        ⟨some (query.IQuery.FilterOperatorEq "_id" (bson.Value.str artistID)), 1⟩ w).1
          = Except.error e) :
    ∃ e, (createtrack.CheckIfArtistExists lib s artistID w).1 = Except.error e := by
  simp only [createtrack.CheckIfArtistExists]
  split
  · exact ⟨_, rfl⟩
  · exact ⟨_, rfl⟩
  · rename_i heq
    rcases h with h | ⟨e, h⟩ <;> simp [heq] at h

theorem createtrack.Handler.featuredLoop_append {σ A : Type} (lib : Lib A)
    (s : store.MongoStore σ A) (post : List String) :
    ∀ (pre : List String) (w w' : mongo.World σ),
      createtrack.Handler.featuredLoop lib s pre w = (none, w') →
      createtrack.Handler.featuredLoop lib s (pre ++ post) w
        = createtrack.Handler.featuredLoop lib s post w' := by
  intro pre
  induction pre with
  | nil =>
    intro w w' h
    simp only [createtrack.Handler.featuredLoop, Prod.mk.injEq, true_and] at h
    simp [h]
  | cons a pre ih =>
    intro w w' h
    simp only [createtrack.Handler.featuredLoop, List.cons_append] at h ⊢
    split at h
    · simp at h
    · exact ih _ _ h

theorem createtrack.Handler.featuredLoop_calls {σ A : Type} (lib : Lib A)
    (s : store.MongoStore σ A) :
    ∀ (artists : List String) (w : mongo.World σ),
      ∃ added, (createtrack.Handler.featuredLoop lib s artists w).2.calls = w.calls ++ added ∧
        ∀ c ∈ added, ∃ id, c = mongo.Call.Find s.Collection.database s.Collection.name
          [("_id", bson.Value.str id)] 1 := by
  intro artists
  induction artists with
  | nil => intro w; exact ⟨[], by simp [createtrack.Handler.featuredLoop], by simp⟩
  | cons a rest ih =>
    intro w
    have hc := createtrack.CheckIfArtistExists_calls lib s a w
    simp only [createtrack.Handler.featuredLoop]
    split
    · rename_i heq
      rw [heq] at hc
      exact ⟨_, hc, by simp⟩
    · rename_i w1 heq
      rw [heq] at hc
      obtain ⟨added, h1, h2⟩ := ih w1
      refine ⟨mongo.Call.Find s.Collection.database s.Collection.name
        [("_id", bson.Value.str a)] 1 :: added, ?_, ?_⟩
      · rw [h1]
        simp only at hc
        rw [hc]
        simp
      · intro c hcmem
        rcases List.mem_cons.mp hcmem with h | h
        · exact ⟨a, h⟩
        · exact h2 c h

/-- C16: for a create request whose body passes validation the handler first looks the
artist up with the query `{"_id": artistId}` and the limit 1 in the artist collection. First
part, for every such request, whatever its featured artists: when that lookup returns no
item, the response is 400 with the message `artist does not exist` and the lookup is the only
database call. Second part, for every such request: when the lookup of the artist returns an
item and the lookup of a featured artist, all featured artists before it having been found,
returns no item, the response is 400 with the message `featured artist does not exist` and
every database call is such a lookup with limit 1. In both cases no document is inserted. -/
theorem createtrack.missing_artist {σ A : Type} (lib : Lib A) :
    (∀ (Unmarshal : String → Except String createtrack.CreateTrackRequestBody)
        (newID : String) (request : api.APIRequest) (injector : inject.Injector σ)
        (b : createtrack.CreateTrackRequestBody) (w : mongo.World σ),
      Unmarshal request.Body = Except.ok b →
      createtrack.ValidateRequestBody lib b = none →
      (store.MongoStore.FindItems lib.decodeArtist
          (store.NewMongoStore A injector.MongoInstance "gostream" "artists")
          ⟨some (query.IQuery.FilterOperatorEq "_id" (bson.Value.str b.ArtistID)), 1⟩ w).1
        = Except.ok [] →
      (createtrack.Handler lib Unmarshal newID request (inject.Object.Injector injector) w).1
        = { StatusCode := 400, Headers := [],
            Body := some (createtrack.ResponseBody.ErrorResponseBody
              { Message := "artist does not exist" }) } ∧
      (createtrack.Handler lib Unmarshal newID request
          (inject.Object.Injector injector) w).2.calls
        = w.calls ++ [mongo.Call.Find "gostream" "artists"
            [("_id", bson.Value.str b.ArtistID)] 1]) ∧
    (∀ (Unmarshal : String → Except String createtrack.CreateTrackRequestBody)
        (newID : String) (request : api.APIRequest) (injector : inject.Injector σ)
        (b : createtrack.CreateTrackRequestBody) (w w1 w2 : mongo.World σ)
        (pre post : List String) (f : String),
      Unmarshal request.Body = Except.ok b →
      createtrack.ValidateRequestBody lib b = none →
      createtrack.CheckIfArtistExists lib
          (store.NewMongoStore A injector.MongoInstance "gostream" "artists") b.ArtistID w
        = (Except.ok (), w1) →
      b.FeaturedArtistIDs = pre ++ f :: post →
      createtrack.Handler.featuredLoop lib
          (store.NewMongoStore A injector.MongoInstance "gostream" "artists") pre w1
        = (none, w2) →
      (store.MongoStore.FindItems lib.decodeArtist
          (store.NewMongoStore A injector.MongoInstance "gostream" "artists")
          ⟨some (query.IQuery.FilterOperatorEq "_id" (bson.Value.str f)), 1⟩ w2).1
        = Except.ok [] →
      (createtrack.Handler lib Unmarshal newID request (inject.Object.Injector injector) w).1
        = { StatusCode := 400, Headers := [],
            Body := some (createtrack.ResponseBody.ErrorResponseBody
              { Message := "featured artist does not exist" }) } ∧
      (∃ lookups,
        (createtrack.Handler lib Unmarshal newID request
          (inject.Object.Injector injector) w).2.calls
          = w.calls ++ mongo.Call.Find "gostream" "artists"
              [("_id", bson.Value.str b.ArtistID)] 1 :: lookups ∧
        ∀ c ∈ lookups, ∃ id, c = mongo.Call.Find "gostream" "artists"
          [("_id", bson.Value.str id)] 1)) := by
  constructor
  · -- the artist is missing
    intro Unmarshal newID request injector b wA hbody hvalid hA
    obtain ⟨eA, hcheckA⟩ := createtrack.CheckIfArtistExists_create_error lib
      (store.NewMongoStore A injector.MongoInstance "gostream" "artists") b.ArtistID wA
      (Or.inl hA)
    have hcallsA := createtrack.CheckIfArtistExists_calls lib
      (store.NewMongoStore A injector.MongoInstance "gostream" "artists") b.ArtistID wA
    rcases hresA : createtrack.CheckIfArtistExists lib
      (store.NewMongoStore A injector.MongoInstance "gostream" "artists") b.ArtistID wA
      with ⟨rA, wA1⟩
    rw [hresA] at hcheckA hcallsA
    simp only at hcheckA hcallsA
    subst hcheckA
    refine ⟨?_, ?_⟩
    · simp only [createtrack.Handler, createtrack.GetSafeInjector,
        createtrack.ExtractRequestBody, hbody, hvalid, hresA]
    · simp only [createtrack.Handler, createtrack.GetSafeInjector,
        createtrack.ExtractRequestBody, hbody, hvalid, hresA]
      simpa [store.NewMongoStore] using hcallsA
  · -- a featured artist is missing
    intro Unmarshal newID request injector b wF w1 w2 pre post f hbody hvalid hF1 hF2 hF3 hF4
    obtain ⟨eF, hcheckF⟩ := createtrack.CheckIfArtistExists_create_error lib
      (store.NewMongoStore A injector.MongoInstance "gostream" "artists") f w2 (Or.inl hF4)
    have hcallsF := createtrack.CheckIfArtistExists_calls lib
      (store.NewMongoStore A injector.MongoInstance "gostream" "artists") f w2
    rcases hresF : createtrack.CheckIfArtistExists lib
      (store.NewMongoStore A injector.MongoInstance "gostream" "artists") f w2
      with ⟨rF, w3⟩
    rw [hresF] at hcheckF hcallsF
    simp only at hcheckF hcallsF
    subst hcheckF
    have hcalls1 := createtrack.CheckIfArtistExists_calls lib
      (store.NewMongoStore A injector.MongoInstance "gostream" "artists") b.ArtistID wF
    rw [hF1] at hcalls1
    simp only at hcalls1
    obtain ⟨added, hadded, hfinds⟩ := createtrack.Handler.featuredLoop_calls lib
      (store.NewMongoStore A injector.MongoInstance "gostream" "artists") pre w1
    rw [hF3] at hadded
    simp only at hadded
    have hloop : createtrack.Handler.featuredLoop lib
        (store.NewMongoStore A injector.MongoInstance "gostream" "artists")
        b.FeaturedArtistIDs w1
        = (some { StatusCode := 400,
                  Body := some (createtrack.ResponseBody.ErrorResponseBody
                    ⟨"featured artist does not exist"⟩) }, w3) := by
      rw [hF2, createtrack.Handler.featuredLoop_append lib _ (f :: post) pre w1 w2 hF3]
      simp only [createtrack.Handler.featuredLoop, hresF]
    refine ⟨?_, ?_⟩
    · simp only [createtrack.Handler, createtrack.GetSafeInjector,
        createtrack.ExtractRequestBody, hbody, hvalid, hF1, hloop]
    · refine ⟨added ++ [mongo.Call.Find "gostream" "artists" [("_id", bson.Value.str f)] 1],
        ?_, ?_⟩
      · simp only [createtrack.Handler, createtrack.GetSafeInjector,
          createtrack.ExtractRequestBody, hbody, hvalid, hF1, hloop]
        rw [hcallsF, hadded, hcalls1]
        simp [store.NewMongoStore]
      · intro c hc
        rcases List.mem_append.mp hc with h | h
        · simpa [store.NewMongoStore] using hfinds c h
        · exact ⟨f, by simpa using h⟩

/-- Witness of C16: the sample body, which names no featured artist, against the empty
sample database (the artist is missing); and the sample body with one featured artist
against the sample database that holds the artist and not the featured artist. -/
theorem createtrack.missing_artist_witness :
    ((createtrack.Handler sample.lib (fun _ => Except.ok sample.createBody)
        sample.newID (sample.request "POST" [] [] "")
        (inject.Object.Injector ⟨⟨sample.memoryClient⟩⟩) ⟨[], []⟩).1
      = { StatusCode := 400, Headers := [],
          Body := some (createtrack.ResponseBody.ErrorResponseBody
            { Message := "artist does not exist" }) } ∧
    (createtrack.Handler sample.lib (fun _ => Except.ok sample.createBody)
        sample.newID (sample.request "POST" [] [] "")
        (inject.Object.Injector ⟨⟨sample.memoryClient⟩⟩) ⟨[], []⟩).2.calls
      = [] ++ [mongo.Call.Find "gostream" "artists"
          [("_id", bson.Value.str sample.artistID)] 1]) ∧
    ((createtrack.Handler sample.lib
        (fun _ => Except.ok { sample.createBody with FeaturedArtistIDs := [sample.featuredID] })
        sample.newID (sample.request "POST" [] [] "")
        (inject.Object.Injector ⟨⟨sample.memoryClient⟩⟩) ⟨sample.oneArtist, []⟩).1
      = { StatusCode := 400, Headers := [],
          Body := some (createtrack.ResponseBody.ErrorResponseBody
            { Message := "featured artist does not exist" }) } ∧
    (∃ lookups,
      (createtrack.Handler sample.lib
        (fun _ => Except.ok { sample.createBody with FeaturedArtistIDs := [sample.featuredID] })
        sample.newID (sample.request "POST" [] [] "")
        (inject.Object.Injector ⟨⟨sample.memoryClient⟩⟩) ⟨sample.oneArtist, []⟩).2.calls
        = [] ++ mongo.Call.Find "gostream" "artists"
            [("_id", bson.Value.str sample.artistID)] 1 :: lookups ∧
      ∀ c ∈ lookups, ∃ id, c = mongo.Call.Find "gostream" "artists"
        [("_id", bson.Value.str id)] 1)) :=
  ⟨(createtrack.missing_artist sample.lib).1
      (fun _ => Except.ok sample.createBody) sample.newID (sample.request "POST" [] [] "")
      ⟨⟨sample.memoryClient⟩⟩ sample.createBody ⟨[], []⟩ rfl rfl rfl,
    (createtrack.missing_artist sample.lib).2
      (fun _ => Except.ok { sample.createBody with FeaturedArtistIDs := [sample.featuredID] })
      sample.newID (sample.request "POST" [] [] "") ⟨⟨sample.memoryClient⟩⟩
      { sample.createBody with FeaturedArtistIDs := [sample.featuredID] }
      ⟨sample.oneArtist, []⟩
      ⟨sample.oneArtist,
        [mongo.Call.Find "gostream" "artists" [("_id", bson.Value.str sample.artistID)] 1]⟩
      ⟨sample.oneArtist,
        [mongo.Call.Find "gostream" "artists" [("_id", bson.Value.str sample.artistID)] 1]⟩
      [] [] sample.featuredID rfl rfl rfl rfl rfl rfl⟩

/-- C11 at a failing input: against the sample database that holds the artist, the create
handler answers 200 with a track of id `sample.newID` after inserting it into the collection
`tracks` of the database `gostream`; the get-by-id handler, run with that id against the
database state the create left, queries the collection `tracks` of the database `tracks` and
answers 404, although the collection written by the create holds the track. -/
theorem createtrack.Handler_then_gettrack_evaluated :
    (createtrack.Handler sample.lib (fun _ => Except.ok sample.createBody) sample.newID
        (sample.request "POST" [] [] "") (inject.Object.Injector ⟨⟨sample.memoryClient⟩⟩)
        ⟨sample.oneArtist, []⟩).1
      = { StatusCode := 200, Headers := [],
          Body := some (createtrack.ResponseBody.Track
            (createtrack.Handler.track sample.lib sample.newID sample.createBody)) } ∧
    (createtrack.Handler.track sample.lib sample.newID sample.createBody).ID = sample.newID ∧
    (createtrack.Handler sample.lib (fun _ => Except.ok sample.createBody) sample.newID
        (sample.request "POST" [] [] "") (inject.Object.Injector ⟨⟨sample.memoryClient⟩⟩)
        ⟨sample.oneArtist, []⟩).2.calls
      = [mongo.Call.Find "gostream" "artists" [("_id", bson.Value.str sample.artistID)] 1,
         mongo.Call.InsertOne "gostream" "tracks"
          (createtrack.Handler.track sample.lib sample.newID sample.createBody).Marshal] ∧
    gettrack.Handler sample.lib (sample.request "GET" [("id", sample.newID)] [] "")
        (inject.Object.Injector ⟨⟨sample.memoryClient⟩⟩)
        ⟨(createtrack.Handler sample.lib (fun _ => Except.ok sample.createBody) sample.newID
          (sample.request "POST" [] [] "") (inject.Object.Injector ⟨⟨sample.memoryClient⟩⟩)
          ⟨sample.oneArtist, []⟩).2.db, []⟩
      = ({ StatusCode := 404, Headers := [], Body := none },
         ⟨(createtrack.Handler sample.lib (fun _ => Except.ok sample.createBody) sample.newID
            (sample.request "POST" [] [] "") (inject.Object.Injector ⟨⟨sample.memoryClient⟩⟩)
            ⟨sample.oneArtist, []⟩).2.db,
          [mongo.Call.Find "tracks" "tracks" [("_id", bson.Value.str sample.newID)] 10]⟩) ∧
    (store.MongoStore.FindItems sample.lib.decodeTrack
        (store.NewMongoStore models.TrackInfo ⟨sample.memoryClient⟩ "gostream" "tracks")
        ⟨some (query.IQuery.FilterOperatorEq "_id" (bson.Value.str sample.newID)), 10⟩
        ⟨(createtrack.Handler sample.lib (fun _ => Except.ok sample.createBody) sample.newID
          (sample.request "POST" [] [] "") (inject.Object.Injector ⟨⟨sample.memoryClient⟩⟩)
          ⟨sample.oneArtist, []⟩).2.db, []⟩).1
      = Except.ok [createtrack.Handler.track sample.lib sample.newID sample.createBody] :=
  ⟨rfl, rfl, rfl, rfl, rfl⟩

/-! ### Errors of store operations -/

theorem gettracks.Handler_list_error {σ A : Type} (lib : Lib A) (request : api.APIRequest)
    (injector : inject.Injector σ) (w : mongo.World σ) (e : String)
    (h : (store.MongoStore.FindItems lib.decodeTrack
        (store.NewMongoStore models.TrackInfo injector.MongoInstance "gostream" "tracks")
        (gettracks.CreateFilterFromQueryParameters request) w).1 = Except.error e) :
    (gettracks.Handler lib request (inject.Object.Injector injector) w).1
      = { StatusCode := 500, Headers := [], Body := none } := by
  simp only [gettracks.Handler, gettracks.GetSafeInjector]
  split <;> simp_all

theorem gettrack.Handler_get_error {σ A : Type} (lib : Lib A) (request : api.APIRequest)
    (injector : inject.Injector σ) (w : mongo.World σ) (e : String)
    (h : (store.MongoStore.FindItems lib.decodeTrack
        (store.NewMongoStore models.TrackInfo injector.MongoInstance "tracks" "tracks")
        ⟨some (query.IQuery.FilterOperatorEq "_id"
          (bson.Value.str ((request.PathParameters.get? "id").getD ""))), 10⟩ w).1
      = Except.error e) :
    (gettrack.Handler lib request (inject.Object.Injector injector) w).1
      = { StatusCode := 500, Headers := [], Body := none } := by
  simp only [gettrack.Handler, gettrack.GetSafeInjector]
  split <;> simp_all

theorem deletetrack.Handler_delete_error {σ : Type} (request : api.APIRequest)
    (injector : inject.Injector σ) (w : mongo.World σ) (e : String)
    (h : (store.MongoStore.DeleteItem
        (store.NewMongoStore models.TrackInfo injector.MongoInstance "tracks" "tracks")
        ((request.PathParameters.get? "id").getD "") w).1 = Except.error e) :
    (deletetrack.Handler request (inject.Object.Injector injector) w).1
      = { StatusCode := 500, Headers := [], Body := none } := by
  simp only [deletetrack.Handler, deletetrack.GetSafeInjector]
  split
  · simp_all
  · simp_all

theorem createtrack.Handler_insert_error {σ A : Type} (lib : Lib A)
    (Unmarshal : String → Except String createtrack.CreateTrackRequestBody) (newID : String)
    (request : api.APIRequest) (injector : inject.Injector σ)
    (b : createtrack.CreateTrackRequestBody) (w w1 w2 : mongo.World σ) (e : String)
    (hbody : Unmarshal request.Body = Except.ok b)
    (hvalid : createtrack.ValidateRequestBody lib b = none)
    (hartist : createtrack.CheckIfArtistExists lib
        (store.NewMongoStore A injector.MongoInstance "gostream" "artists") b.ArtistID w
      = (Except.ok (), w1))
    (hfeatured : createtrack.Handler.featuredLoop lib
        (store.NewMongoStore A injector.MongoInstance "gostream" "artists")
        b.FeaturedArtistIDs w1 = (none, w2))
    (hinsert : (store.MongoStore.CreateItem
        (store.NewMongoStore models.TrackInfo injector.MongoInstance "gostream" "tracks")
        (createtrack.Handler.track lib newID b).Marshal w2).1 = Except.error e) :
    (createtrack.Handler lib Unmarshal newID request (inject.Object.Injector injector) w).1
      = { StatusCode := 500, Headers := [], Body := none } := by
  simp only [createtrack.Handler, createtrack.GetSafeInjector,
    createtrack.ExtractRequestBody, hbody, hvalid, hartist, hfeatured]
  split <;> simp_all

theorem createtrack.Handler_create_lookup_error {σ A : Type} (lib : Lib A)
    (Unmarshal : String → Except String createtrack.CreateTrackRequestBody) (newID : String)
    (request : api.APIRequest) (injector : inject.Injector σ)
    (b : createtrack.CreateTrackRequestBody) (w : mongo.World σ) (e : String)
    (hbody : Unmarshal request.Body = Except.ok b)
    (hvalid : createtrack.ValidateRequestBody lib b = none)
    (hlookup : (store.MongoStore.FindItems lib.decodeArtist
        (store.NewMongoStore A injector.MongoInstance "gostream" "artists")
        ⟨some (query.IQuery.FilterOperatorEq "_id" (bson.Value.str b.ArtistID)), 1⟩ w).1
      = Except.error e) :
    (createtrack.Handler lib Unmarshal newID request (inject.Object.Injector injector) w).1
      = { StatusCode := 400, Headers := [],
          Body := some (createtrack.ResponseBody.ErrorResponseBody
            { Message := "artist does not exist" }) } := by
  obtain ⟨e', hcheck⟩ := createtrack.CheckIfArtistExists_create_error lib
    (store.NewMongoStore A injector.MongoInstance "gostream" "artists") b.ArtistID w
    (Or.inr ⟨e, hlookup⟩)
  rcases hres : createtrack.CheckIfArtistExists lib
    (store.NewMongoStore A injector.MongoInstance "gostream" "artists") b.ArtistID w
    with ⟨r, w'⟩
  rw [hres] at hcheck
  simp only at hcheck
  subst hcheck
  simp only [createtrack.Handler, createtrack.GetSafeInjector,
    createtrack.ExtractRequestBody, hbody, hvalid, hres]

theorem updatetrack.CheckIfArtistExists_update_error {σ A : Type} (lib : Lib A)
    (s : store.MongoStore σ A) (artistID : String) (w : mongo.World σ) (e : String)
    (h : (s.FindItems lib.decodeArtist
        ⟨some (query.IQuery.FilterOperatorEq "_id" (bson.Value.str artistID)), 1⟩ w).1
          = Except.error e) :
    ∃ e', (updatetrack.CheckIfArtistExists lib s artistID w).1 = Except.error e' := by
  simp only [updatetrack.CheckIfArtistExists]
  split
  · exact ⟨_, rfl⟩
  · exact ⟨_, rfl⟩
  · rename_i heq
    simp [heq] at h

theorem updatetrack.FindTrackByID_error {σ A : Type} (lib : Lib A)
    (s : store.MongoStore σ models.TrackInfo) (id : String) (w : mongo.World σ) (e : String)
    (h : (s.FindItems lib.decodeTrack
        ⟨some (query.IQuery.FilterOperatorEq "_id" (bson.Value.str id)), 1⟩ w).1
          = Except.error e) :
    ∃ e', (updatetrack.FindTrackByID lib s id w).1 = Except.error e' := by
  simp only [updatetrack.FindTrackByID]
  split
  · exact ⟨_, rfl⟩
  · exact ⟨_, rfl⟩
  · rename_i heq
    simp [heq] at h

theorem updatetrack.Handler_target_error {σ A : Type} (lib : Lib A)
    (Unmarshal : String → Except String updatetrack.UpdateTrackRequestBody)
    (request : api.APIRequest) (injector : inject.Injector σ) (w : mongo.World σ)
    (id e : String)
    (hid : updatetrack.GetAndValidateID lib request = Except.ok id)
    (hlookup : (store.MongoStore.FindItems lib.decodeTrack
        (store.NewMongoStore models.TrackInfo injector.MongoInstance "gostream" "tracks")
        ⟨some (query.IQuery.FilterOperatorEq "_id" (bson.Value.str id)), 1⟩ w).1
      = Except.error e) :
    (updatetrack.Handler lib Unmarshal request (inject.Object.Injector injector) w).1
      = { StatusCode := 404, Headers := [], Body := none } := by
  obtain ⟨e', hfind⟩ := updatetrack.FindTrackByID_error lib
    (store.NewMongoStore models.TrackInfo injector.MongoInstance "gostream" "tracks") id w e
    hlookup
  rcases hres : updatetrack.FindTrackByID lib
    (store.NewMongoStore models.TrackInfo injector.MongoInstance "gostream" "tracks") id w
    with ⟨r, w'⟩
  rw [hres] at hfind
  simp only at hfind
  subst hfind
  simp only [updatetrack.Handler, updatetrack.GetSafeInjector, hid, hres]

theorem updatetrack.Handler_update_lookup_error {σ A : Type} (lib : Lib A)
    (Unmarshal : String → Except String updatetrack.UpdateTrackRequestBody)
    (request : api.APIRequest) (injector : inject.Injector σ) (w w1 : mongo.World σ)
    (id e : String) (t : models.TrackInfo) (b : updatetrack.UpdateTrackRequestBody)
    (hid : updatetrack.GetAndValidateID lib request = Except.ok id)
    (hfind : updatetrack.FindTrackByID lib
      (store.NewMongoStore models.TrackInfo injector.MongoInstance "gostream" "tracks") id w
      = (Except.ok t, w1))
    (hbody : Unmarshal request.Body = Except.ok b)
    (hvalid : updatetrack.ValidateRequestBody lib b = none)
    (hartist : b.ArtistID ≠ "")
    (hlookup : (store.MongoStore.FindItems lib.decodeArtist
        (store.NewMongoStore A injector.MongoInstance "gostream" "artists")
        ⟨some (query.IQuery.FilterOperatorEq "_id" (bson.Value.str b.ArtistID)), 1⟩ w1).1
      = Except.error e) :
    (updatetrack.Handler lib Unmarshal request (inject.Object.Injector injector) w).1
      = { StatusCode := 400, Headers := [],
          Body := some (updatetrack.ResponseBody.ErrorResponseBody
            { Message := "artist does not exist" }) } := by
  obtain ⟨e', hcheck⟩ := updatetrack.CheckIfArtistExists_update_error lib
    (store.NewMongoStore A injector.MongoInstance "gostream" "artists") b.ArtistID w1 e
    hlookup
  rcases hres : updatetrack.CheckIfArtistExists lib
    (store.NewMongoStore A injector.MongoInstance "gostream" "artists") b.ArtistID w1
    with ⟨r, w'⟩
  rw [hres] at hcheck
  simp only at hcheck
  subst hcheck
  simp only [updatetrack.Handler, updatetrack.GetSafeInjector, hid, hfind,
    updatetrack.ExtractRequestBody, hbody, hvalid, hartist, ne_eq, not_false_eq_true,
    if_true, hres]

theorem updatetrack.Handler_update_error {σ A : Type} (lib : Lib A)
    (Unmarshal : String → Except String updatetrack.UpdateTrackRequestBody)
    (request : api.APIRequest) (injector : inject.Injector σ) (w w1 w2 w3 : mongo.World σ)
    (id e : String) (t : models.TrackInfo) (b : updatetrack.UpdateTrackRequestBody)
    (hid : updatetrack.GetAndValidateID lib request = Except.ok id)
    (hfind : updatetrack.FindTrackByID lib
      (store.NewMongoStore models.TrackInfo injector.MongoInstance "gostream" "tracks") id w
      = (Except.ok t, w1))
    (hbody : Unmarshal request.Body = Except.ok b)
    (hvalid : updatetrack.ValidateRequestBody lib b = none)
    (hartist : (if b.ArtistID ≠ "" then
        updatetrack.CheckIfArtistExists lib
          (store.NewMongoStore A injector.MongoInstance "gostream" "artists") b.ArtistID w1
        else (Except.ok (), w1)) = (Except.ok (), w2))
    (hfeatured : (if b.FeaturedArtistIDs.length > 0 then
        updatetrack.Handler.featuredLoop lib
          (store.NewMongoStore A injector.MongoInstance "gostream" "artists")
          b.FeaturedArtistIDs w2
        else (none, w2)) = (none, w3))
    (hupdate : (store.MongoStore.UpdateItem
        (store.NewMongoStore models.TrackInfo injector.MongoInstance "gostream" "tracks")
        { Root := some (query.IQuery.FilterOperatorEq "_id" (bson.Value.str id)), Limit := 0 }
        (updatetrack.Handler.updateOperator (updatetrack.Handler.merge lib t b)) w3).1
      = Except.error e) :
    (updatetrack.Handler lib Unmarshal request (inject.Object.Injector injector) w).1
      = { StatusCode := 500, Headers := [], Body := none } := by
  simp only [updatetrack.Handler, updatetrack.GetSafeInjector, hid, hfind,
    updatetrack.ExtractRequestBody, hbody, hvalid, hartist, hfeatured]
  split <;> simp_all

/-- C12, as stated, fails for the lookups: against the sample database that answers every
call with an error, the artist lookup of the create handler returns an error and the
response is 400 with the body `artist does not exist`, and the lookup of the current track
of the update handler returns an error and the response is 404; neither is 500. -/
theorem handlers_lookup_error_evaluated :
    (store.MongoStore.FindItems sample.lib.decodeArtist
        (store.NewMongoStore Unit ⟨sample.downClient⟩ "gostream" "artists")
        ⟨some (query.IQuery.FilterOperatorEq "_id" (bson.Value.str sample.createBody.ArtistID)),
          1⟩ ⟨[], []⟩).1 = Except.error "connection lost" ∧
    (createtrack.Handler sample.lib (fun _ => Except.ok sample.createBody) sample.newID
        sample.idRequest (inject.Object.Injector ⟨⟨sample.downClient⟩⟩) ⟨[], []⟩).1
      = { StatusCode := 400, Headers := [],
          Body := some (createtrack.ResponseBody.ErrorResponseBody
            { Message := "artist does not exist" }) } ∧
    (createtrack.Handler sample.lib (fun _ => Except.ok sample.createBody) sample.newID
        sample.idRequest (inject.Object.Injector ⟨⟨sample.downClient⟩⟩)
        ⟨[], []⟩).1.StatusCode ≠ 500 ∧
    (store.MongoStore.FindItems sample.lib.decodeTrack
        (store.NewMongoStore models.TrackInfo ⟨sample.downClient⟩ "gostream" "tracks")
        ⟨some (query.IQuery.FilterOperatorEq "_id" (bson.Value.str sample.newID)), 1⟩
        ⟨[], []⟩).1 = Except.error "connection lost" ∧
    (updatetrack.Handler sample.lib (fun _ => Except.ok sample.updateBody)
        sample.idRequest (inject.Object.Injector ⟨⟨sample.downClient⟩⟩) ⟨[], []⟩).1
      = { StatusCode := 404, Headers := [], Body := none } ∧
    (updatetrack.Handler sample.lib (fun _ => Except.ok sample.updateBody)
        sample.idRequest (inject.Object.Injector ⟨⟨sample.downClient⟩⟩)
        ⟨[], []⟩).1.StatusCode ≠ 500 :=
  ⟨rfl, rfl, by decide, rfl, rfl, by decide⟩

/-- C12, amended: in every handler, when the store operation that serves the request itself
returns an error (the `FindItems` of list and of get, the `DeleteItem` of delete, the
`CreateItem` of create, the `UpdateItem` of update), the response is 500 without body; when
the `artistId` lookup of create or of update returns an error, the response is 400 with the
message `artist does not exist`; when the lookup of the current track of update returns an
error, the response is 404 without body. Each of the eight statements stands for every
request, body, injector and database of its own, under the conditions of its own path only. -/
theorem handlers_store_error {σ A : Type} (lib : Lib A) :
    (∀ (request : api.APIRequest) (injector : inject.Injector σ) (w : mongo.World σ)
        (e : String),
      (store.MongoStore.FindItems lib.decodeTrack
          (store.NewMongoStore models.TrackInfo injector.MongoInstance "gostream" "tracks")
          (gettracks.CreateFilterFromQueryParameters request) w).1 = Except.error e →
      (gettracks.Handler lib request (inject.Object.Injector injector) w).1
        = { StatusCode := 500, Headers := [], Body := none }) ∧
    (∀ (request : api.APIRequest) (injector : inject.Injector σ) (w : mongo.World σ)
        (e : String),
      (store.MongoStore.FindItems lib.decodeTrack
          (store.NewMongoStore models.TrackInfo injector.MongoInstance "tracks" "tracks")
          ⟨some (query.IQuery.FilterOperatorEq "_id"
            (bson.Value.str ((request.PathParameters.get? "id").getD ""))), 10⟩ w).1
        = Except.error e →
      (gettrack.Handler lib request (inject.Object.Injector injector) w).1
        = { StatusCode := 500, Headers := [], Body := none }) ∧
    (∀ (request : api.APIRequest) (injector : inject.Injector σ) (w : mongo.World σ)
        (e : String),
      (store.MongoStore.DeleteItem
          (store.NewMongoStore models.TrackInfo injector.MongoInstance "tracks" "tracks")
          ((request.PathParameters.get? "id").getD "") w).1 = Except.error e →
      (deletetrack.Handler request (inject.Object.Injector injector) w).1
        = { StatusCode := 500, Headers := [], Body := none }) ∧
    (∀ (Unmarshal : String → Except String createtrack.CreateTrackRequestBody)
        (newID : String) (request : api.APIRequest) (injector : inject.Injector σ)
        (b : createtrack.CreateTrackRequestBody) (w w1 w2 : mongo.World σ) (e : String),
      Unmarshal request.Body = Except.ok b →
      createtrack.ValidateRequestBody lib b = none →
      createtrack.CheckIfArtistExists lib
          (store.NewMongoStore A injector.MongoInstance "gostream" "artists") b.ArtistID w
        = (Except.ok (), w1) →
      createtrack.Handler.featuredLoop lib
          (store.NewMongoStore A injector.MongoInstance "gostream" "artists")
          b.FeaturedArtistIDs w1 = (none, w2) →
      (store.MongoStore.CreateItem
          (store.NewMongoStore models.TrackInfo injector.MongoInstance "gostream" "tracks")
          (createtrack.Handler.track lib newID b).Marshal w2).1 = Except.error e →
      (createtrack.Handler lib Unmarshal newID request (inject.Object.Injector injector) w).1
        = { StatusCode := 500, Headers := [], Body := none }) ∧
    (∀ (Unmarshal : String → Except String updatetrack.UpdateTrackRequestBody)
        (request : api.APIRequest) (injector : inject.Injector σ)
        (w w1 w2 w3 : mongo.World σ) (id e : String) (t : models.TrackInfo)
        (b : updatetrack.UpdateTrackRequestBody),
      updatetrack.GetAndValidateID lib request = Except.ok id →
      updatetrack.FindTrackByID lib
          (store.NewMongoStore models.TrackInfo injector.MongoInstance "gostream" "tracks")
          id w
        = (Except.ok t, w1) →
      Unmarshal request.Body = Except.ok b →
      updatetrack.ValidateRequestBody lib b = none →
      (if b.ArtistID ≠ "" then
          updatetrack.CheckIfArtistExists lib
            (store.NewMongoStore A injector.MongoInstance "gostream" "artists") b.ArtistID w1
          else (Except.ok (), w1)) = (Except.ok (), w2) →
      (if b.FeaturedArtistIDs.length > 0 then
          updatetrack.Handler.featuredLoop lib
            (store.NewMongoStore A injector.MongoInstance "gostream" "artists")
            b.FeaturedArtistIDs w2
          else (none, w2)) = (none, w3) →
      (store.MongoStore.UpdateItem
          (store.NewMongoStore models.TrackInfo injector.MongoInstance "gostream" "tracks")
          { Root := some (query.IQuery.FilterOperatorEq "_id" (bson.Value.str id)), Limit := 0 }
          (updatetrack.Handler.updateOperator (updatetrack.Handler.merge lib t b)) w3).1
        = Except.error e →
      (updatetrack.Handler lib Unmarshal request (inject.Object.Injector injector) w).1
        = { StatusCode := 500, Headers := [], Body := none }) ∧
    (∀ (Unmarshal : String → Except String createtrack.CreateTrackRequestBody)
        (newID : String) (request : api.APIRequest) (injector : inject.Injector σ)
        (b : createtrack.CreateTrackRequestBody) (w : mongo.World σ) (e : String),
      Unmarshal request.Body = Except.ok b →
      createtrack.ValidateRequestBody lib b = none →
      (store.MongoStore.FindItems lib.decodeArtist
          (store.NewMongoStore A injector.MongoInstance "gostream" "artists")
          ⟨some (query.IQuery.FilterOperatorEq "_id" (bson.Value.str b.ArtistID)), 1⟩ w).1
        = Except.error e →
      (createtrack.Handler lib Unmarshal newID request (inject.Object.Injector injector) w).1
        = { StatusCode := 400, Headers := [],
            Body := some (createtrack.ResponseBody.ErrorResponseBody
              { Message := "artist does not exist" }) }) ∧
    (∀ (Unmarshal : String → Except String updatetrack.UpdateTrackRequestBody)
        (request : api.APIRequest) (injector : inject.Injector σ) (w : mongo.World σ)
        (id e : String),
      updatetrack.GetAndValidateID lib request = Except.ok id →
      (store.MongoStore.FindItems lib.decodeTrack
          (store.NewMongoStore models.TrackInfo injector.MongoInstance "gostream" "tracks")
          ⟨some (query.IQuery.FilterOperatorEq "_id" (bson.Value.str id)), 1⟩ w).1
        = Except.error e →
      (updatetrack.Handler lib Unmarshal request (inject.Object.Injector injector) w).1
        = { StatusCode := 404, Headers := [], Body := none }) ∧
    (∀ (Unmarshal : String → Except String updatetrack.UpdateTrackRequestBody)
        (request : api.APIRequest) (injector : inject.Injector σ) (w w1 : mongo.World σ)
        (id e : String) (t : models.TrackInfo) (b : updatetrack.UpdateTrackRequestBody),
      updatetrack.GetAndValidateID lib request = Except.ok id →
      updatetrack.FindTrackByID lib
          (store.NewMongoStore models.TrackInfo injector.MongoInstance "gostream" "tracks")
          id w
        = (Except.ok t, w1) →
      Unmarshal request.Body = Except.ok b →
      updatetrack.ValidateRequestBody lib b = none →
      b.ArtistID ≠ "" →
      (store.MongoStore.FindItems lib.decodeArtist
          (store.NewMongoStore A injector.MongoInstance "gostream" "artists")
          ⟨some (query.IQuery.FilterOperatorEq "_id" (bson.Value.str b.ArtistID)), 1⟩ w1).1
        = Except.error e →
      (updatetrack.Handler lib Unmarshal request (inject.Object.Injector injector) w).1
        = { StatusCode := 400, Headers := [],
            Body := some (updatetrack.ResponseBody.ErrorResponseBody
              { Message := "artist does not exist" }) }) :=
  ⟨fun request injector w e h => gettracks.Handler_list_error lib request injector w e h,
   fun request injector w e h => gettrack.Handler_get_error lib request injector w e h,
   fun request injector w e h => deletetrack.Handler_delete_error request injector w e h,
   fun Unmarshal newID request injector b w w1 w2 e hbody hvalid hartist hfeatured hinsert =>
     createtrack.Handler_insert_error lib Unmarshal newID request injector b w w1 w2 e
       hbody hvalid hartist hfeatured hinsert,
   fun Unmarshal request injector w w1 w2 w3 id e t b hid hfind hbody hvalid hartist hfeatured
       hupdate =>
     updatetrack.Handler_update_error lib Unmarshal request injector w w1 w2 w3 id e t b
       hid hfind hbody hvalid hartist hfeatured hupdate,
   fun Unmarshal newID request injector b w e hbody hvalid hlookup =>
     createtrack.Handler_create_lookup_error lib Unmarshal newID request injector b w e
       hbody hvalid hlookup,
   fun Unmarshal request injector w id e hid hlookup =>
     updatetrack.Handler_target_error lib Unmarshal request injector w id e hid hlookup,
   fun Unmarshal request injector w w1 id e t b hid hfind hbody hvalid hartist hlookup =>
     updatetrack.Handler_update_lookup_error lib Unmarshal request injector w w1 id e t b
       hid hfind hbody hvalid hartist hlookup⟩

/-- Witness of C12 (amended) against the sample databases: the database that answers every
call with an error, the read-only database, the database in memory (which does not support
updates) and the database whose artist collection cannot be read. The list and the create
request carry no path parameter, and the body of the update that fails in `UpdateItem` only
sets the title. -/
theorem handlers_store_error_witness :
    (gettracks.Handler sample.lib (sample.request "GET" [] [] "")
        (inject.Object.Injector ⟨⟨sample.downClient⟩⟩) ⟨[], []⟩).1
      = { StatusCode := 500, Headers := [], Body := none } ∧
    (gettrack.Handler sample.lib (sample.request "GET" [("id", sample.newID)] [] "")
        (inject.Object.Injector ⟨⟨sample.downClient⟩⟩) ⟨[], []⟩).1
      = { StatusCode := 500, Headers := [], Body := none } ∧
    (deletetrack.Handler (sample.request "DELETE" [("id", sample.newID)] [] "")
        (inject.Object.Injector ⟨⟨sample.downClient⟩⟩) ⟨[], []⟩).1
      = { StatusCode := 500, Headers := [], Body := none } ∧
    (createtrack.Handler sample.lib (fun _ => Except.ok sample.createBody) sample.newID
        (sample.request "POST" [] [] "") (inject.Object.Injector ⟨⟨sample.readOnlyClient⟩⟩)
        ⟨sample.oneArtist, []⟩).1
      = { StatusCode := 500, Headers := [], Body := none } ∧
    (updatetrack.Handler sample.lib
        (fun _ => Except.ok { sample.updateBody with ArtistID := "", Title := "New Title" })
        sample.idRequest
        (inject.Object.Injector ⟨⟨sample.memoryClient⟩⟩) ⟨sample.artistAndTrack, []⟩).1
      = { StatusCode := 500, Headers := [], Body := none } ∧
    (createtrack.Handler sample.lib (fun _ => Except.ok sample.createBody) sample.newID
        (sample.request "POST" [] [] "") (inject.Object.Injector ⟨⟨sample.downClient⟩⟩)
        ⟨[], []⟩).1
      = { StatusCode := 400, Headers := [],
          Body := some (createtrack.ResponseBody.ErrorResponseBody
            { Message := "artist does not exist" }) } ∧
    (updatetrack.Handler sample.lib (fun _ => Except.ok sample.updateBody) sample.idRequest
        (inject.Object.Injector ⟨⟨sample.downClient⟩⟩) ⟨[], []⟩).1
      = { StatusCode := 404, Headers := [], Body := none } ∧
    (updatetrack.Handler sample.lib (fun _ => Except.ok sample.updateBody) sample.idRequest
        (inject.Object.Injector ⟨⟨sample.artistsDownClient⟩⟩) ⟨sample.artistAndTrack, []⟩).1
      = { StatusCode := 400, Headers := [],
          Body := some (updatetrack.ResponseBody.ErrorResponseBody
            { Message := "artist does not exist" }) } :=
  ⟨(handlers_store_error sample.lib).1 (sample.request "GET" [] [] "")
      ⟨⟨sample.downClient⟩⟩ ⟨[], []⟩ "connection lost" rfl,
    (handlers_store_error sample.lib).2.1 (sample.request "GET" [("id", sample.newID)] [] "")
      ⟨⟨sample.downClient⟩⟩ ⟨[], []⟩ "connection lost" rfl,
    (handlers_store_error sample.lib).2.2.1
      (sample.request "DELETE" [("id", sample.newID)] [] "")
      ⟨⟨sample.downClient⟩⟩ ⟨[], []⟩ "connection lost" rfl,
    (handlers_store_error sample.lib).2.2.2.1 (fun _ => Except.ok sample.createBody)
      sample.newID (sample.request "POST" [] [] "") ⟨⟨sample.readOnlyClient⟩⟩
      sample.createBody ⟨sample.oneArtist, []⟩
      ⟨sample.oneArtist,
        [mongo.Call.Find "gostream" "artists" [("_id", bson.Value.str sample.artistID)] 1]⟩
      ⟨sample.oneArtist,
        [mongo.Call.Find "gostream" "artists" [("_id", bson.Value.str sample.artistID)] 1]⟩
      "read only" rfl rfl rfl rfl rfl,
    (handlers_store_error sample.lib).2.2.2.2.1
      (fun _ => Except.ok { sample.updateBody with ArtistID := "", Title := "New Title" })
      sample.idRequest ⟨⟨sample.memoryClient⟩⟩ ⟨sample.artistAndTrack, []⟩
      ⟨sample.artistAndTrack,
        [mongo.Call.Find "gostream" "tracks" [("_id", bson.Value.str sample.newID)] 1]⟩
      ⟨sample.artistAndTrack,
        [mongo.Call.Find "gostream" "tracks" [("_id", bson.Value.str sample.newID)] 1]⟩
      ⟨sample.artistAndTrack,
        [mongo.Call.Find "gostream" "tracks" [("_id", bson.Value.str sample.newID)] 1]⟩
      sample.newID "update is not supported" sample.createdTrack
      { sample.updateBody with ArtistID := "", Title := "New Title" }
      rfl rfl rfl rfl rfl rfl rfl,
    (handlers_store_error sample.lib).2.2.2.2.2.1 (fun _ => Except.ok sample.createBody)
      sample.newID (sample.request "POST" [] [] "") ⟨⟨sample.downClient⟩⟩
      sample.createBody ⟨[], []⟩ "connection lost" rfl rfl rfl,
    (handlers_store_error sample.lib).2.2.2.2.2.2.1 (fun _ => Except.ok sample.updateBody)
      sample.idRequest ⟨⟨sample.downClient⟩⟩ ⟨[], []⟩ sample.newID "connection lost" rfl rfl,
    (handlers_store_error sample.lib).2.2.2.2.2.2.2 (fun _ => Except.ok sample.updateBody)
      sample.idRequest ⟨⟨sample.artistsDownClient⟩⟩ ⟨sample.artistAndTrack, []⟩
      ⟨sample.artistAndTrack,
        [mongo.Call.Find "gostream" "tracks" [("_id", bson.Value.str sample.newID)] 1]⟩
      sample.newID "connection lost" sample.createdTrack sample.updateBody
      rfl rfl rfl rfl (by decide) rfl⟩

/-! ### The selective merge, field by field -/

theorem updatetrack.Handler.merge_field_ID {A : Type} (lib : Lib A) (t : models.TrackInfo)
    (b : updatetrack.UpdateTrackRequestBody) :
    (updatetrack.Handler.merge lib t b).ID
      = t.ID := by
  simp only [updatetrack.Handler.merge, apply_ite models.TrackInfo.ID, ite_self]

theorem updatetrack.Handler.merge_field_ArtistID {A : Type} (lib : Lib A) (t : models.TrackInfo)
    (b : updatetrack.UpdateTrackRequestBody) :
    (updatetrack.Handler.merge lib t b).ArtistID
      = if b.ArtistID ≠ "" then b.ArtistID else t.ArtistID := by
  simp only [updatetrack.Handler.merge, apply_ite models.TrackInfo.ArtistID, ite_self]

theorem updatetrack.Handler.merge_field_FeaturedArtistIDs {A : Type} (lib : Lib A) (t : models.TrackInfo)
    (b : updatetrack.UpdateTrackRequestBody) :
    (updatetrack.Handler.merge lib t b).FeaturedArtistIDs
      = if b.FeaturedArtistIDs.length > 0 then b.FeaturedArtistIDs else t.FeaturedArtistIDs := by
  simp only [updatetrack.Handler.merge, apply_ite models.TrackInfo.FeaturedArtistIDs, ite_self]

theorem updatetrack.Handler.merge_field_Title {A : Type} (lib : Lib A) (t : models.TrackInfo)
    (b : updatetrack.UpdateTrackRequestBody) :
    (updatetrack.Handler.merge lib t b).Title
      = if b.Title ≠ "" then b.Title else t.Title := by
  simp only [updatetrack.Handler.merge, apply_ite models.TrackInfo.Title, ite_self]

theorem updatetrack.Handler.merge_field_Label {A : Type} (lib : Lib A) (t : models.TrackInfo)
    (b : updatetrack.UpdateTrackRequestBody) :
    (updatetrack.Handler.merge lib t b).Label
      = if b.Label ≠ "" then b.Label else t.Label := by
  simp only [updatetrack.Handler.merge, apply_ite models.TrackInfo.Label, ite_self]

theorem updatetrack.Handler.merge_field_ReleaseDate {A : Type} (lib : Lib A) (t : models.TrackInfo)
    (b : updatetrack.UpdateTrackRequestBody) :
    (updatetrack.Handler.merge lib t b).ReleaseDate
      = if b.ReleaseDate ≠ "" then
          (match lib.timeParse "2006-01-02" b.ReleaseDate with
           | Except.ok d => d
           | Except.error _ => time.Time.zero)
        else t.ReleaseDate := by
  simp only [updatetrack.Handler.merge, apply_ite models.TrackInfo.ReleaseDate, ite_self]

theorem updatetrack.Handler.merge_field_Streams {A : Type} (lib : Lib A) (t : models.TrackInfo)
    (b : updatetrack.UpdateTrackRequestBody) :
    (updatetrack.Handler.merge lib t b).TrackStats.Streams
      = if b.TrackStats.Streams ≠ 0 then b.TrackStats.Streams else t.TrackStats.Streams := by
  simp only [updatetrack.Handler.merge, apply_ite models.TrackInfo.TrackStats, apply_ite models.TrackStats.Streams, ite_self]

theorem updatetrack.Handler.merge_field_Likes {A : Type} (lib : Lib A) (t : models.TrackInfo)
    (b : updatetrack.UpdateTrackRequestBody) :
    (updatetrack.Handler.merge lib t b).TrackStats.Likes
      = if b.TrackStats.Likes ≠ 0 then b.TrackStats.Likes else t.TrackStats.Likes := by
  simp only [updatetrack.Handler.merge, apply_ite models.TrackInfo.TrackStats, apply_ite models.TrackStats.Likes, ite_self]

theorem updatetrack.Handler.merge_field_Key {A : Type} (lib : Lib A) (t : models.TrackInfo)
    (b : updatetrack.UpdateTrackRequestBody) :
    (updatetrack.Handler.merge lib t b).AudioFeatures.Key
      = if b.AudioFeatures.Key ≠ "" then b.AudioFeatures.Key else t.AudioFeatures.Key := by
  simp only [updatetrack.Handler.merge, apply_ite models.TrackInfo.AudioFeatures, apply_ite models.AudioFeatures.Key, ite_self]

theorem updatetrack.Handler.merge_field_Tempo {A : Type} (lib : Lib A) (t : models.TrackInfo)
    (b : updatetrack.UpdateTrackRequestBody) :
    (updatetrack.Handler.merge lib t b).AudioFeatures.Tempo
      = if b.AudioFeatures.Tempo.isNonZero then b.AudioFeatures.Tempo
        else t.AudioFeatures.Tempo := by
  simp only [updatetrack.Handler.merge, apply_ite models.TrackInfo.AudioFeatures, apply_ite models.AudioFeatures.Tempo, ite_self]

theorem updatetrack.Handler.merge_field_Duration {A : Type} (lib : Lib A) (t : models.TrackInfo)
    (b : updatetrack.UpdateTrackRequestBody) :
    (updatetrack.Handler.merge lib t b).AudioFeatures.Duration
      = if b.AudioFeatures.Duration.isNonZero then b.AudioFeatures.Duration
        else t.AudioFeatures.Duration := by
  simp only [updatetrack.Handler.merge, apply_ite models.TrackInfo.AudioFeatures, apply_ite models.AudioFeatures.Duration, ite_self]

theorem updatetrack.Handler.merge_field_Energy {A : Type} (lib : Lib A) (t : models.TrackInfo)
    (b : updatetrack.UpdateTrackRequestBody) :
    (updatetrack.Handler.merge lib t b).AudioFeatures.Energy
      = if b.AudioFeatures.Energy.isNonZero then b.AudioFeatures.Energy
        else t.AudioFeatures.Energy := by
  simp only [updatetrack.Handler.merge, apply_ite models.TrackInfo.AudioFeatures, apply_ite models.AudioFeatures.Energy, ite_self]

theorem updatetrack.Handler.merge_field_Danceability {A : Type} (lib : Lib A) (t : models.TrackInfo)
    (b : updatetrack.UpdateTrackRequestBody) :
    (updatetrack.Handler.merge lib t b).AudioFeatures.Danceability
      = if b.AudioFeatures.Danceability.isNonZero then b.AudioFeatures.Danceability
        else t.AudioFeatures.Danceability := by
  simp only [updatetrack.Handler.merge, apply_ite models.TrackInfo.AudioFeatures, apply_ite models.AudioFeatures.Danceability, ite_self]

theorem updatetrack.Handler.merge_field_Accousticness {A : Type} (lib : Lib A) (t : models.TrackInfo)
    (b : updatetrack.UpdateTrackRequestBody) :
    (updatetrack.Handler.merge lib t b).AudioFeatures.Accousticness
      = if b.AudioFeatures.Accousticness.isNonZero then b.AudioFeatures.Accousticness
        else t.AudioFeatures.Accousticness := by
  simp only [updatetrack.Handler.merge, apply_ite models.TrackInfo.AudioFeatures, apply_ite models.AudioFeatures.Accousticness, ite_self]

theorem updatetrack.Handler.merge_field_Liveness {A : Type} (lib : Lib A) (t : models.TrackInfo)
    (b : updatetrack.UpdateTrackRequestBody) :
    (updatetrack.Handler.merge lib t b).AudioFeatures.Liveness
      = if b.AudioFeatures.Liveness.isNonZero then b.AudioFeatures.Liveness
        else t.AudioFeatures.Liveness := by
  simp only [updatetrack.Handler.merge, apply_ite models.TrackInfo.AudioFeatures, apply_ite models.AudioFeatures.Liveness, ite_self]

theorem updatetrack.Handler.merge_field_Instrumentalness {A : Type} (lib : Lib A) (t : models.TrackInfo)
    (b : updatetrack.UpdateTrackRequestBody) :
    (updatetrack.Handler.merge lib t b).AudioFeatures.Instrumentalness
      = if b.AudioFeatures.Loudness.isNonZero then b.AudioFeatures.Loudness
        else if b.AudioFeatures.Instrumentalness.isNonZero then b.AudioFeatures.Instrumentalness
        else t.AudioFeatures.Instrumentalness := by
  simp only [updatetrack.Handler.merge, apply_ite models.TrackInfo.AudioFeatures, apply_ite models.AudioFeatures.Instrumentalness, ite_self]

theorem updatetrack.Handler.merge_field_Loudness {A : Type} (lib : Lib A) (t : models.TrackInfo)
    (b : updatetrack.UpdateTrackRequestBody) :
    (updatetrack.Handler.merge lib t b).AudioFeatures.Loudness
      = t.AudioFeatures.Loudness := by
  simp only [updatetrack.Handler.merge, apply_ite models.TrackInfo.AudioFeatures, apply_ite models.AudioFeatures.Loudness, ite_self]

theorem updatetrack.Handler.merge_field_TimeSignature {A : Type} (lib : Lib A) (t : models.TrackInfo)
    (b : updatetrack.UpdateTrackRequestBody) :
    (updatetrack.Handler.merge lib t b).AudioFeatures.TimeSignature
      = if b.AudioFeatures.TimeSignature ≠ 0 then b.AudioFeatures.TimeSignature
        else t.AudioFeatures.TimeSignature := by
  simp only [updatetrack.Handler.merge, apply_ite models.TrackInfo.AudioFeatures, apply_ite models.AudioFeatures.TimeSignature, ite_self]

/-- C22: for every stored track `t` and every update body whose loudness is not zero, the
merged track's instrumentalness is the body's loudness and the merged track's loudness is
`t`'s stored loudness. -/
theorem updatetrack.Handler.merge_loudness_slot {A : Type} (lib : Lib A)
    (t : models.TrackInfo) (b : updatetrack.UpdateTrackRequestBody)
    (hloud : b.AudioFeatures.Loudness.isNonZero = true) :
    (updatetrack.Handler.merge lib t b).AudioFeatures.Instrumentalness
      = b.AudioFeatures.Loudness ∧
    (updatetrack.Handler.merge lib t b).AudioFeatures.Loudness
      = t.AudioFeatures.Loudness := by
  rw [updatetrack.Handler.merge_field_Instrumentalness,
    updatetrack.Handler.merge_field_Loudness]
  simp [hloud]

/-- Witness of C22: the sample track (loudness -7) and the body with loudness -5. -/
theorem updatetrack.Handler.merge_loudness_slot_witness :
    (updatetrack.Handler.merge updatetrack.sample.lib updatetrack.sample.track
        updatetrack.sample.loudnessOnly).AudioFeatures.Instrumentalness
      = updatetrack.sample.loudnessOnly.AudioFeatures.Loudness ∧
    (updatetrack.Handler.merge updatetrack.sample.lib updatetrack.sample.track
        updatetrack.sample.loudnessOnly).AudioFeatures.Loudness
      = updatetrack.sample.track.AudioFeatures.Loudness :=
  updatetrack.Handler.merge_loudness_slot updatetrack.sample.lib updatetrack.sample.track
    updatetrack.sample.loudnessOnly (by decide)

/-- C23: for every stored track `t` and every update body `b`: if the streams of `b` are 0
the merged streams are those of `t`, if its likes are 0 the merged likes are those of `t`,
if its label is empty the merged label is that of `t`, and if its featured artists are empty
the merged featured artists are those of `t`; and whatever `b` holds, a streams counter of
`t` that is not 0 is not 0 after the merge, and likewise a likes counter. Each of the six
statements stands for every track and every body, under its own condition only. -/
theorem updatetrack.Handler.merge_zero_omitted {A : Type} (lib : Lib A) :
    (∀ (t : models.TrackInfo) (b : updatetrack.UpdateTrackRequestBody),
      b.TrackStats.Streams = 0 →
      (updatetrack.Handler.merge lib t b).TrackStats.Streams = t.TrackStats.Streams) ∧
    (∀ (t : models.TrackInfo) (b : updatetrack.UpdateTrackRequestBody),
      b.TrackStats.Likes = 0 →
      (updatetrack.Handler.merge lib t b).TrackStats.Likes = t.TrackStats.Likes) ∧
    (∀ (t : models.TrackInfo) (b : updatetrack.UpdateTrackRequestBody),
      b.Label = "" →
      (updatetrack.Handler.merge lib t b).Label = t.Label) ∧
    (∀ (t : models.TrackInfo) (b : updatetrack.UpdateTrackRequestBody),
      b.FeaturedArtistIDs = [] →
      (updatetrack.Handler.merge lib t b).FeaturedArtistIDs = t.FeaturedArtistIDs) ∧
    (∀ (t : models.TrackInfo) (b : updatetrack.UpdateTrackRequestBody),
      t.TrackStats.Streams ≠ 0 →
      (updatetrack.Handler.merge lib t b).TrackStats.Streams ≠ 0) ∧
    (∀ (t : models.TrackInfo) (b : updatetrack.UpdateTrackRequestBody),
      t.TrackStats.Likes ≠ 0 →
      (updatetrack.Handler.merge lib t b).TrackStats.Likes ≠ 0) := by
  refine ⟨?_, ?_, ?_, ?_, ?_, ?_⟩
  · intro t b hstreams
    rw [updatetrack.Handler.merge_field_Streams]
    simp [hstreams]
  · intro t b hlikes
    rw [updatetrack.Handler.merge_field_Likes]
    simp [hlikes]
  · intro t b hlabel
    rw [updatetrack.Handler.merge_field_Label]
    simp [hlabel]
  · intro t b hfeatured
    rw [updatetrack.Handler.merge_field_FeaturedArtistIDs]
    simp [hfeatured]
  · intro t b htstreams
    rw [updatetrack.Handler.merge_field_Streams]
    split <;> assumption
  · intro t b htlikes
    rw [updatetrack.Handler.merge_field_Likes]
    split <;> assumption

/-- Witness of C23: the sample track (10 streams, 3 likes) and the same track with both
counters at 0, each merged with the body whose fields are all zero; and the sample track
merged with the body that only sets the loudness. -/
theorem updatetrack.Handler.merge_zero_omitted_witness :
    (updatetrack.Handler.merge updatetrack.sample.lib updatetrack.sample.track
      updatetrack.sample.emptyBody).TrackStats.Streams
      = updatetrack.sample.track.TrackStats.Streams ∧
    (updatetrack.Handler.merge updatetrack.sample.lib updatetrack.sample.track
      updatetrack.sample.emptyBody).TrackStats.Likes
      = updatetrack.sample.track.TrackStats.Likes ∧
    (updatetrack.Handler.merge updatetrack.sample.lib
      { updatetrack.sample.track with TrackStats := { Streams := 0, Likes := 0 } }
      updatetrack.sample.emptyBody).Label = updatetrack.sample.track.Label ∧
    (updatetrack.Handler.merge updatetrack.sample.lib
      { updatetrack.sample.track with TrackStats := { Streams := 0, Likes := 0 } }
      updatetrack.sample.emptyBody).FeaturedArtistIDs
      = updatetrack.sample.track.FeaturedArtistIDs ∧
    (updatetrack.Handler.merge updatetrack.sample.lib updatetrack.sample.track
      updatetrack.sample.loudnessOnly).TrackStats.Streams ≠ 0 ∧
    (updatetrack.Handler.merge updatetrack.sample.lib updatetrack.sample.track
      updatetrack.sample.loudnessOnly).TrackStats.Likes ≠ 0 :=
  ⟨(updatetrack.Handler.merge_zero_omitted updatetrack.sample.lib).1
      updatetrack.sample.track updatetrack.sample.emptyBody rfl,
    (updatetrack.Handler.merge_zero_omitted updatetrack.sample.lib).2.1
      updatetrack.sample.track updatetrack.sample.emptyBody rfl,
    (updatetrack.Handler.merge_zero_omitted updatetrack.sample.lib).2.2.1
      { updatetrack.sample.track with TrackStats := { Streams := 0, Likes := 0 } }
      updatetrack.sample.emptyBody rfl,
    (updatetrack.Handler.merge_zero_omitted updatetrack.sample.lib).2.2.2.1
      { updatetrack.sample.track with TrackStats := { Streams := 0, Likes := 0 } }
      updatetrack.sample.emptyBody rfl,
    (updatetrack.Handler.merge_zero_omitted updatetrack.sample.lib).2.2.2.2.1
      updatetrack.sample.track updatetrack.sample.loudnessOnly (by decide),
    (updatetrack.Handler.merge_zero_omitted updatetrack.sample.lib).2.2.2.2.2
      updatetrack.sample.track updatetrack.sample.loudnessOnly (by decide)⟩

theorem models.TrackInfo.eq_of_fields (x y : models.TrackInfo)
    (h1 : x.ID = y.ID) (h2 : x.ArtistID = y.ArtistID)
    (h3 : x.FeaturedArtistIDs = y.FeaturedArtistIDs) (h4 : x.Title = y.Title)
    (h5 : x.Label = y.Label) (h6 : x.ReleaseDate = y.ReleaseDate)
    (h7 : x.TrackStats.Streams = y.TrackStats.Streams)
    (h8 : x.TrackStats.Likes = y.TrackStats.Likes)
    (h9 : x.AudioFeatures.Key = y.AudioFeatures.Key)
    (h10 : x.AudioFeatures.Tempo = y.AudioFeatures.Tempo)
    (h11 : x.AudioFeatures.Duration = y.AudioFeatures.Duration)
    (h12 : x.AudioFeatures.Energy = y.AudioFeatures.Energy)
    (h13 : x.AudioFeatures.Danceability = y.AudioFeatures.Danceability)
    (h14 : x.AudioFeatures.Accousticness = y.AudioFeatures.Accousticness)
    (h15 : x.AudioFeatures.Instrumentalness = y.AudioFeatures.Instrumentalness)
    (h16 : x.AudioFeatures.Liveness = y.AudioFeatures.Liveness)
    (h17 : x.AudioFeatures.Loudness = y.AudioFeatures.Loudness)
    (h18 : x.AudioFeatures.TimeSignature = y.AudioFeatures.TimeSignature) : x = y := by
  obtain ⟨_, _, _, _, _, _, ⟨_, _⟩, ⟨_, _, _, _, _, _, _, _, _, _⟩⟩ := x
  obtain ⟨_, _, _, _, _, _, ⟨_, _⟩, ⟨_, _, _, _, _, _, _, _, _, _⟩⟩ := y
  simp_all

/-- C30: the selective merge of the update handler is idempotent: for every stored track
`t` and every update body `b`, merging `b` into the result of merging `b` into `t` gives
the track that merging `b` into `t` once gives. -/
theorem updatetrack.Handler.merge_idempotent {A : Type} (lib : Lib A)
    (t : models.TrackInfo) (b : updatetrack.UpdateTrackRequestBody) :
    updatetrack.Handler.merge lib (updatetrack.Handler.merge lib t b) b
      = updatetrack.Handler.merge lib t b := by
  apply models.TrackInfo.eq_of_fields
  · simp only [updatetrack.Handler.merge_field_ID]
  · simp only [updatetrack.Handler.merge_field_ArtistID]
    split <;> rfl
  · simp only [updatetrack.Handler.merge_field_FeaturedArtistIDs]
    split <;> rfl
  · simp only [updatetrack.Handler.merge_field_Title]
    split <;> rfl
  · simp only [updatetrack.Handler.merge_field_Label]
    split <;> rfl
  · simp only [updatetrack.Handler.merge_field_ReleaseDate]
    split <;> rfl
  · simp only [updatetrack.Handler.merge_field_Streams]
    split <;> rfl
  · simp only [updatetrack.Handler.merge_field_Likes]
    split <;> rfl
  · simp only [updatetrack.Handler.merge_field_Key]
    split <;> rfl
  · simp only [updatetrack.Handler.merge_field_Tempo]
    split <;> rfl
  · simp only [updatetrack.Handler.merge_field_Duration]
    split <;> rfl
  · simp only [updatetrack.Handler.merge_field_Energy]
    split <;> rfl
  · simp only [updatetrack.Handler.merge_field_Danceability]
    split <;> rfl
  · simp only [updatetrack.Handler.merge_field_Accousticness]
    split <;> rfl
  · simp only [updatetrack.Handler.merge_field_Instrumentalness]
    split
    · rfl
    · split <;> rfl
  · simp only [updatetrack.Handler.merge_field_Liveness]
    split <;> rfl
  · simp only [updatetrack.Handler.merge_field_Loudness]
  · simp only [updatetrack.Handler.merge_field_TimeSignature]
    split <;> rfl

/-! ### The database calls of the update handler -/

theorem updatetrack.FindTrackByID_calls {σ A : Type} (lib : Lib A)
    (s : store.MongoStore σ models.TrackInfo) (id : String) (w : mongo.World σ) :
    (updatetrack.FindTrackByID lib s id w).2.calls = w.calls ++
      [mongo.Call.Find s.Collection.database s.Collection.name
        [("_id", bson.Value.str id)] 1] := by
  have hc := store.FindItems_calls lib.decodeTrack s
    (query.IQuery.FilterOperatorEq "_id" (bson.Value.str id)) 1 w
  simp only [updatetrack.FindTrackByID]
  split <;> simp_all [query.IQuery.Compile]

theorem updatetrack.CheckIfArtistExists_update_calls {σ A : Type} (lib : Lib A)
    (s : store.MongoStore σ A) (artistID : String) (w : mongo.World σ) :
    (updatetrack.CheckIfArtistExists lib s artistID w).2.calls = w.calls ++
      [mongo.Call.Find s.Collection.database s.Collection.name
        [("_id", bson.Value.str artistID)] 1] := by
  have hc := store.FindItems_calls lib.decodeArtist s
    (query.IQuery.FilterOperatorEq "_id" (bson.Value.str artistID)) 1 w
  simp only [updatetrack.CheckIfArtistExists]
  split <;> simp_all [query.IQuery.Compile]

theorem updatetrack.Handler.featuredLoop_update_calls {σ A : Type} (lib : Lib A)
    (s : store.MongoStore σ A) :
    ∀ (artists : List String) (w : mongo.World σ),
      ∃ added, (updatetrack.Handler.featuredLoop lib s artists w).2.calls = w.calls ++ added ∧
        ∀ c ∈ added, ∃ database collection filter limit,
          c = mongo.Call.Find database collection filter limit := by
  intro artists
  induction artists with
  | nil => intro w; exact ⟨[], by simp [updatetrack.Handler.featuredLoop], by simp⟩
  | cons a rest ih =>
    intro w
    have hc := updatetrack.CheckIfArtistExists_update_calls lib s a w
    simp only [updatetrack.Handler.featuredLoop]
    split
    · rename_i heq
      rw [heq] at hc
      refine ⟨_, hc, ?_⟩
      intro c hcmem
      simp only [List.mem_singleton] at hcmem
      exact ⟨_, _, _, _, hcmem⟩
    · rename_i w1 heq
      rw [heq] at hc
      obtain ⟨added, h1, h2⟩ := ih w1
      refine ⟨mongo.Call.Find s.Collection.database s.Collection.name
        [("_id", bson.Value.str a)] 1 :: added, ?_, ?_⟩
      · rw [h1]
        simp only at hc
        rw [hc]
        simp
      · intro c hcmem
        rcases List.mem_cons.mp hcmem with h | h
        · exact ⟨_, _, _, _, h⟩
        · exact h2 c h

theorem updatetrack.Handler.updateOperator_keys (trackInfo : models.TrackInfo) :
    ∃ m, updatetrack.Handler.updateOperator trackInfo
        = { Root := some (query.IQuery.UpdateOperatorSet m) } ∧
      GoMap.keys m = ["artistId", "featuredArtistIds", "title", "label", "releaseDate",
        "trackStats.streams", "trackStats.likes", "audioFeatures.key", "audioFeatures.tempo",
        "audioFeatures.duration", "audioFeatures.energy", "audioFeatures.danceability",
        "audioFeatures.accousticness", "audioFeatures.instrumentalness",
        "audioFeatures.liveness", "audioFeatures.loudness", "audioFeatures.timeSignature"] ∧
      "_id" ∉ GoMap.keys m :=
  ⟨_, rfl, rfl, by simp [GoMap.keys]⟩

/-- C21: whatever the request, the database calls of the update handler are lookups
followed by at most one update, and when there is an update its query is `{"_id": id}`,
the compiled `Eq("_id", id)`, for the validated path parameter `id`, and its update document
is `{"$set": m}` where the keys of `m` are exactly the 17 field paths `artistId`,
`featuredArtistIds`, `title`, `label`, `releaseDate`, `trackStats.streams`,
`trackStats.likes` and the ten `audioFeatures` paths; `_id` is not among them. -/
theorem updatetrack.Handler_update_call {σ A : Type} (lib : Lib A)
    (Unmarshal : String → Except String updatetrack.UpdateTrackRequestBody)
    (request : api.APIRequest) (object : inject.Object σ) (w : mongo.World σ) :
    ∃ lookups updates,
      (updatetrack.Handler lib Unmarshal request object w).2.calls
        = w.calls ++ lookups ++ updates ∧
      (∀ c ∈ lookups, ∃ database collection filter limit,
        c = mongo.Call.Find database collection filter limit) ∧
      (updates = [] ∨
        ∃ id m, updatetrack.GetAndValidateID lib request = Except.ok id ∧
          (query.IQuery.FilterOperatorEq "_id" (bson.Value.str id)).Compile
            = [("_id", bson.Value.str id)] ∧
          updates = [mongo.Call.UpdateOne "gostream" "tracks" [("_id", bson.Value.str id)]
            [("$set", bson.Value.doc m)]] ∧
          GoMap.keys m = ["artistId", "featuredArtistIds", "title", "label", "releaseDate",
            "trackStats.streams", "trackStats.likes", "audioFeatures.key",
            "audioFeatures.tempo", "audioFeatures.duration", "audioFeatures.energy",
            "audioFeatures.danceability", "audioFeatures.accousticness",
            "audioFeatures.instrumentalness", "audioFeatures.liveness",
            "audioFeatures.loudness", "audioFeatures.timeSignature"] ∧
          "_id" ∉ GoMap.keys m) := by
  cases object with
  | other => exact ⟨[], [], by simp [updatetrack.Handler, updatetrack.GetSafeInjector],
      by simp, Or.inl rfl⟩
  | Injector injector =>
  cases hid : updatetrack.GetAndValidateID lib request with
  | error e => exact ⟨[], [], by simp [updatetrack.Handler, updatetrack.GetSafeInjector, hid],
      by simp, Or.inl rfl⟩
  | ok id =>
  have hfc := updatetrack.FindTrackByID_calls lib
    (store.NewMongoStore models.TrackInfo injector.MongoInstance "gostream" "tracks") id w
  rcases hfind : updatetrack.FindTrackByID lib
    (store.NewMongoStore models.TrackInfo injector.MongoInstance "gostream" "tracks") id w
    with ⟨rfind, w1⟩
  rw [hfind] at hfc
  simp only at hfc
  have hfindCall : ∀ c ∈ [mongo.Call.Find "gostream" "tracks"
      [("_id", bson.Value.str id)] 1], ∃ database collection filter limit,
      c = mongo.Call.Find database collection filter limit := by
    intro c hc
    simp only [List.mem_singleton] at hc
    exact ⟨_, _, _, _, hc⟩
  cases rfind with
  | error e =>
    refine ⟨_, [], ?_, hfindCall, Or.inl rfl⟩
    simp only [updatetrack.Handler, updatetrack.GetSafeInjector, hid, hfind]
    simpa [store.NewMongoStore] using hfc
  | ok t =>
  cases hbody : updatetrack.ExtractRequestBody Unmarshal request with
  | error e =>
    refine ⟨_, [], ?_, hfindCall, Or.inl rfl⟩
    simp only [updatetrack.Handler, updatetrack.GetSafeInjector, hid, hfind, hbody]
    simpa [store.NewMongoStore] using hfc
  | ok b =>
  cases hvalid : updatetrack.ValidateRequestBody lib b with
  | some err =>
    refine ⟨_, [], ?_, hfindCall, Or.inl rfl⟩
    simp only [updatetrack.Handler, updatetrack.GetSafeInjector, hid, hfind, hbody, hvalid]
    simpa [store.NewMongoStore] using hfc
  | none =>
  -- the artist check
  have hac : ∃ added, (if b.ArtistID ≠ "" then
      updatetrack.CheckIfArtistExists lib
        (store.NewMongoStore A injector.MongoInstance "gostream" "artists") b.ArtistID w1
      else (Except.ok (), w1)).2.calls = w1.calls ++ added ∧
      ∀ c ∈ added, ∃ database collection filter limit,
        c = mongo.Call.Find database collection filter limit := by
    by_cases hne : b.ArtistID ≠ ""
    · rw [if_pos hne]
      refine ⟨_, updatetrack.CheckIfArtistExists_update_calls lib _ b.ArtistID w1, ?_⟩
      intro c hc
      simp only [List.mem_singleton] at hc
      exact ⟨_, _, _, _, hc⟩
    · rw [if_neg hne]
      exact ⟨[], by simp, by simp⟩
  obtain ⟨addedA, hcallsA, hfindsA⟩ := hac
  rcases hartist : (if b.ArtistID ≠ "" then
      updatetrack.CheckIfArtistExists lib
        (store.NewMongoStore A injector.MongoInstance "gostream" "artists") b.ArtistID w1
      else (Except.ok (), w1)) with ⟨rartist, w2⟩
  rw [hartist] at hcallsA
  simp only at hcallsA
  have hfinds2 : ∀ c ∈ mongo.Call.Find "gostream" "tracks"
      [("_id", bson.Value.str id)] 1 :: addedA, ∃ database collection filter limit,
      c = mongo.Call.Find database collection filter limit := by
    intro c hc
    rcases List.mem_cons.mp hc with h | h
    · exact ⟨_, _, _, _, h⟩
    · exact hfindsA c h
  have hw2 : w2.calls = w.calls ++ (mongo.Call.Find "gostream" "tracks"
      [("_id", bson.Value.str id)] 1 :: addedA) := by
    rw [hcallsA, hfc]
    simp [store.NewMongoStore]
  cases rartist with
  | error e =>
    refine ⟨_, [], ?_, hfinds2, Or.inl rfl⟩
    simp only [updatetrack.Handler, updatetrack.GetSafeInjector, hid, hfind, hbody, hvalid,
      hartist]
    simpa using hw2
  | ok u =>
  -- the featured artists
  have hfl : ∃ added, (if b.FeaturedArtistIDs.length > 0 then
      updatetrack.Handler.featuredLoop lib
        (store.NewMongoStore A injector.MongoInstance "gostream" "artists")
        b.FeaturedArtistIDs w2
      else (none, w2)).2.calls = w2.calls ++ added ∧
      ∀ c ∈ added, ∃ database collection filter limit,
        c = mongo.Call.Find database collection filter limit := by
    by_cases hlen : b.FeaturedArtistIDs.length > 0
    · rw [if_pos hlen]
      exact updatetrack.Handler.featuredLoop_update_calls lib _ b.FeaturedArtistIDs w2
    · rw [if_neg hlen]
      exact ⟨[], by simp, by simp⟩
  obtain ⟨addedF, hcallsF, hfindsF⟩ := hfl
  rcases hfeatured : (if b.FeaturedArtistIDs.length > 0 then
      updatetrack.Handler.featuredLoop lib
        (store.NewMongoStore A injector.MongoInstance "gostream" "artists")
        b.FeaturedArtistIDs w2
      else (none, w2)) with ⟨rfeatured, w3⟩
  rw [hfeatured] at hcallsF
  simp only at hcallsF
  have hfinds3 : ∀ c ∈ (mongo.Call.Find "gostream" "tracks"
      [("_id", bson.Value.str id)] 1 :: addedA) ++ addedF,
      ∃ database collection filter limit,
      c = mongo.Call.Find database collection filter limit := by
    intro c hc
    rcases List.mem_append.mp hc with h | h
    · exact hfinds2 c h
    · exact hfindsF c h
  have hw3 : w3.calls = w.calls ++ ((mongo.Call.Find "gostream" "tracks"
      [("_id", bson.Value.str id)] 1 :: addedA) ++ addedF) := by
    rw [hcallsF, hw2]
    simp
  cases rfeatured with
  | some response =>
    refine ⟨_, [], ?_, hfinds3, Or.inl rfl⟩
    simp only [updatetrack.Handler, updatetrack.GetSafeInjector, hid, hfind, hbody, hvalid,
      hartist, hfeatured]
    simpa using hw3
  | none =>
  -- the update
  obtain ⟨m, hm, hkeys, hnotid⟩ :=
    updatetrack.Handler.updateOperator_keys (updatetrack.Handler.merge lib t b)
  have hworld := store.UpdateItem_world
    (store.NewMongoStore models.TrackInfo injector.MongoInstance "gostream" "tracks")
    { Root := some (query.IQuery.FilterOperatorEq "_id" (bson.Value.str id)), Limit := 0 }
    (updatetrack.Handler.updateOperator (updatetrack.Handler.merge lib t b)) w3
  rcases hupdate : store.MongoStore.UpdateItem
    (store.NewMongoStore models.TrackInfo injector.MongoInstance "gostream" "tracks")
    { Root := some (query.IQuery.FilterOperatorEq "_id" (bson.Value.str id)), Limit := 0 }
    (updatetrack.Handler.updateOperator (updatetrack.Handler.merge lib t b)) w3
    with ⟨rupdate, w4⟩
  rw [hupdate, hm] at hworld
  simp only at hworld
  have hw4 : w4.calls = w.calls ++ ((mongo.Call.Find "gostream" "tracks"
      [("_id", bson.Value.str id)] 1 :: addedA) ++ addedF)
      ++ [mongo.Call.UpdateOne "gostream" "tracks" [("_id", bson.Value.str id)]
        [("$set", bson.Value.doc m)]] := by
    rw [hworld]
    simp [mongo.Collection.UpdateOne_calls, store.NewMongoStore, query.IQuery.Compile, hw3]
  refine ⟨_, _, ?_, hfinds3, Or.inr ⟨id, m, rfl, by simp [query.IQuery.Compile], rfl,
    hkeys, hnotid⟩⟩
  simp only [updatetrack.Handler, updatetrack.GetSafeInjector, hid, hfind, hbody, hvalid,
    hartist, hfeatured, hupdate]
  cases rupdate with
  | error e => simpa using hw4
  | ok count =>
    simp only []
    split <;> simpa using hw4

theorem updatetrack.FindTrackByID_none {σ A : Type} (lib : Lib A)
    (s : store.MongoStore σ models.TrackInfo) (id : String) (w : mongo.World σ)
    (h : (s.FindItems lib.decodeTrack
        ⟨some (query.IQuery.FilterOperatorEq "_id" (bson.Value.str id)), 1⟩ w).1
          = Except.ok []) :
    ∃ e, (updatetrack.FindTrackByID lib s id w).1 = Except.error e := by
  simp only [updatetrack.FindTrackByID]
  split
  · exact ⟨_, rfl⟩
  · exact ⟨_, rfl⟩
  · rename_i heq
    simp [heq] at h

/-- C29: in the update handler, when the path id is accepted by `uuid.Parse` and the lookup
of the current track yields no track, the response is 404 without body whatever
`json.Unmarshal` makes of the request body (an error, a body that fails validation or a
valid body), and the lookup is the only database call: no update is executed. -/
theorem updatetrack.Handler_target_missing {σ A : Type} (lib : Lib A)
    (Unmarshal : String → Except String updatetrack.UpdateTrackRequestBody)
    (request : api.APIRequest) (injector : inject.Injector σ) (w : mongo.World σ)
    (id : String)
    (hid : updatetrack.GetAndValidateID lib request = Except.ok id)
    (hnone : (store.MongoStore.FindItems lib.decodeTrack
        (store.NewMongoStore models.TrackInfo injector.MongoInstance "gostream" "tracks")
        ⟨some (query.IQuery.FilterOperatorEq "_id" (bson.Value.str id)), 1⟩ w).1
      = Except.ok []) :
    (updatetrack.Handler lib Unmarshal request (inject.Object.Injector injector) w).1
      = { StatusCode := 404, Headers := [], Body := none } ∧
    (updatetrack.Handler lib Unmarshal request (inject.Object.Injector injector) w).2.calls
      = w.calls ++ [mongo.Call.Find "gostream" "tracks" [("_id", bson.Value.str id)] 1] := by
  obtain ⟨e, hfind⟩ := updatetrack.FindTrackByID_none lib
    (store.NewMongoStore models.TrackInfo injector.MongoInstance "gostream" "tracks") id w
    hnone
  have hfc := updatetrack.FindTrackByID_calls lib
    (store.NewMongoStore models.TrackInfo injector.MongoInstance "gostream" "tracks") id w
  rcases hres : updatetrack.FindTrackByID lib
    (store.NewMongoStore models.TrackInfo injector.MongoInstance "gostream" "tracks") id w
    with ⟨r, w'⟩
  rw [hres] at hfind hfc
  simp only at hfind hfc
  subst hfind
  refine ⟨?_, ?_⟩
  · simp only [updatetrack.Handler, updatetrack.GetSafeInjector, hid, hres]
  · simp only [updatetrack.Handler, updatetrack.GetSafeInjector, hid, hres]
    simpa [store.NewMongoStore] using hfc

/-- Witness of C29: the sample database without tracks, with a request body that
`json.Unmarshal` rejects. -/
theorem updatetrack.Handler_target_missing_witness :
    (updatetrack.Handler sample.lib (fun _ => Except.error "unexpected end of JSON input")
        sample.idRequest (inject.Object.Injector ⟨⟨sample.memoryClient⟩⟩)
        ⟨sample.oneArtist, []⟩).1
      = { StatusCode := 404, Headers := [], Body := none } ∧
    (updatetrack.Handler sample.lib (fun _ => Except.error "unexpected end of JSON input")
        sample.idRequest (inject.Object.Injector ⟨⟨sample.memoryClient⟩⟩)
        ⟨sample.oneArtist, []⟩).2.calls
      = [] ++ [mongo.Call.Find "gostream" "tracks"
          [("_id", bson.Value.str sample.newID)] 1] :=
  updatetrack.Handler_target_missing sample.lib
    (fun _ => Except.error "unexpected end of JSON input") sample.idRequest
    ⟨⟨sample.memoryClient⟩⟩ ⟨sample.oneArtist, []⟩ sample.newID rfl rfl

/-! ### Literal template segments -/

theorem router.extractPathParameters.loop_congr (ps ps' : List String) :
    ∀ (rest : List String) (idx : Nat) (result : GoMap String),
      (∀ j seg, rest[j]? = some seg → strings.HasPrefix seg ":" = true →
        ps[idx + j]? = ps'[idx + j]?) →
      router.extractPathParameters.loop ps rest idx result
        = router.extractPathParameters.loop ps' rest idx result := by
  intro rest
  induction rest with
  | nil => intro idx result _; rfl
  | cons s rest ih =>
    intro idx result h
    have hrest : ∀ j seg, rest[j]? = some seg → strings.HasPrefix seg ":" = true →
        ps[idx + 1 + j]? = ps'[idx + 1 + j]? := by
      intro j seg hj hseg
      have := h (j + 1) seg (by simpa using hj) hseg
      have e : idx + (j + 1) = idx + 1 + j := by omega
      rwa [e] at this
    by_cases hp : strings.HasPrefix s ":" = true
    · have h0 := h 0 s (by simp) hp
      simp only [Nat.add_zero] at h0
      simp only [router.extractPathParameters.loop, hp, Bool.not_true, Bool.false_eq_true,
        if_false, h0]
      cases ps'[idx]? with
      | none => rfl
      | some value => exact ih (idx + 1) _ hrest
    · simp only [router.extractPathParameters.loop, hp, Bool.not_false, if_true]
      exact ih (idx + 1) result hrest

/-- C26: `extractPathParameters` does not compare the literal template segments with the
path: for a template and two paths with the template's number of segments that agree at the
positions of the template's `:`-prefixed segments, extraction succeeds on both paths with
the same result; the template `/tracks/:id` against the path `/albums/abc` yields the map
with the one entry `id` to `abc`, without error. -/
theorem router.extractPathParameters_literals_ignored (handle path path' : String)
    (hlen : (strings.Split (strings.TrimPrefix handle "/") '/').length
      = (strings.Split (strings.TrimPrefix path "/") '/').length)
    (hlen' : (strings.Split (strings.TrimPrefix handle "/") '/').length
      = (strings.Split (strings.TrimPrefix path' "/") '/').length)
    (hsame : ∀ (i : Nat) (seg : String),
      (strings.Split (strings.TrimPrefix handle "/") '/')[i]? = some seg →
      strings.HasPrefix seg ":" = true →
      (strings.Split (strings.TrimPrefix path "/") '/')[i]?
        = (strings.Split (strings.TrimPrefix path' "/") '/')[i]?) :
    (∃ m, router.extractPathParameters handle path = Except.ok m ∧
      router.extractPathParameters handle path' = Except.ok m) ∧
    router.extractPathParameters "/tracks/:id" "/albums/abc" = Except.ok [("id", "abc")] := by
  refine ⟨?_, rfl⟩
  obtain ⟨m, hm, -⟩ :=
    router.extractPathParameters.loop_spec (strings.Split (strings.TrimPrefix path "/") '/')
      (strings.Split (strings.TrimPrefix handle "/") '/') 0 [] (by omega)
  have hcongr := router.extractPathParameters.loop_congr
    (strings.Split (strings.TrimPrefix path "/") '/')
    (strings.Split (strings.TrimPrefix path' "/") '/')
    (strings.Split (strings.TrimPrefix handle "/") '/') 0 []
    (by intro j seg hj hseg; simpa using hsame j seg hj hseg)
  refine ⟨m, ?_, ?_⟩
  · simp [router.extractPathParameters, hlen, hm]
  · simp [router.extractPathParameters, hlen', ← hcongr, hm]

/-- Witness of C26: the template `/tracks/:id` against the paths `/tracks/abc` and
`/albums/abc`. -/
theorem router.extractPathParameters_literals_ignored_witness :
    (∃ m, router.extractPathParameters "/tracks/:id" "/tracks/abc" = Except.ok m ∧
      router.extractPathParameters "/tracks/:id" "/albums/abc" = Except.ok m) ∧
    router.extractPathParameters "/tracks/:id" "/albums/abc" = Except.ok [("id", "abc")] :=
  router.extractPathParameters_literals_ignored "/tracks/:id" "/tracks/abc" "/albums/abc"
    (by decide) (by decide)
    (by
      have hs : strings.Split (strings.TrimPrefix "/tracks/:id" "/") '/' = ["tracks", ":id"] := by
        decide
      intro i seg h1 h2
      rw [hs] at h1
      match i with
      | 0 =>
        simp only [List.getElem?_cons_zero, Option.some.injEq] at h1
        subst h1
        exact absurd h2 (by decide)
      | 1 => rfl
      | n + 2 => simp at h1)

/-! ### The limit of the list handler -/

theorem gettracks.Handler_world {σ A : Type} (lib : Lib A) (request : api.APIRequest)
    (injector : inject.Injector σ) (w : mongo.World σ) :
    (gettracks.Handler lib request (inject.Object.Injector injector) w).2
      = (store.MongoStore.FindItems lib.decodeTrack
          (store.NewMongoStore models.TrackInfo injector.MongoInstance "gostream" "tracks")
          (gettracks.CreateFilterFromQueryParameters request) w).2 := by
  simp only [gettracks.Handler, gettracks.GetSafeInjector]
  split <;> simp_all

/-- C27: when the `limit` query value is accepted by `strconv.Atoi` with the value `n`,
negative or not, `CreateFilterFromQueryParameters` sets the limit to `n mod 2 ^ 32`, and the
one `Find` call of the list handler passes exactly that number, which is not negative, as
limit; `limit=-1` gives the limit 4294967295 and `limit=4294967296` gives the limit 0. -/
theorem gettracks.CreateFilterFromQueryParameters_limit_mod {σ A : Type} (lib : Lib A)
    (request : api.APIRequest) (injector : inject.Injector σ) (w : mongo.World σ)
    (limit : String) (n : Int)
    (hlimit : request.QueryParameters.get? "limit" = some limit)
    (hparse : strconv.Atoi limit = Except.ok n) :
    ((gettracks.CreateFilterFromQueryParameters request).Limit : Int) = n % 2 ^ 32 ∧
    (gettracks.Handler lib request (inject.Object.Injector injector) w).2.calls
      = w.calls ++ [mongo.Call.Find "gostream" "tracks"
          (match (gettracks.CreateFilterFromQueryParameters request).Root with
           | none => []
           | some root => root.Compile) (n % 2 ^ 32)] ∧
    0 ≤ n % 2 ^ 32 ∧
    (gettracks.CreateFilterFromQueryParameters
      (sample.request "GET" [] [("limit", "-1")] "")).Limit = 4294967295 ∧
    (gettracks.CreateFilterFromQueryParameters
      (sample.request "GET" [] [("limit", "4294967296")] "")).Limit = 0 := by
  have hnonneg : 0 ≤ n % 2 ^ 32 := Int.emod_nonneg n (by norm_num)
  have hlt : n % 2 ^ 32 < 2 ^ 32 := Int.emod_lt_of_pos n (by norm_num)
  have hL : (gettracks.CreateFilterFromQueryParameters request).Limit = (n % 2 ^ 32).toNat := by
    simp only [gettracks.CreateFilterFromQueryParameters, hlimit, hparse]
    split <;> rfl
  have hcast : ((gettracks.CreateFilterFromQueryParameters request).Limit : Int)
      = n % 2 ^ 32 := by
    rw [hL]
    exact Int.toNat_of_nonneg hnonneg
  have hmod : (gettracks.CreateFilterFromQueryParameters request).Limit % 2 ^ 32
      = (gettracks.CreateFilterFromQueryParameters request).Limit := by
    apply Nat.mod_eq_of_lt
    have : ((gettracks.CreateFilterFromQueryParameters request).Limit : Int) < 2 ^ 32 := by
      rw [hcast]
      exact hlt
    exact_mod_cast this
  refine ⟨hcast, ?_, hnonneg, by decide, by decide⟩
  rw [gettracks.Handler_world, store.FindItems_world]
  simp only [mongo.Collection.Find, store.NewMongoStore, hmod, Int.ofNat_eq_coe, hcast]

/-- Witness of C27 at the query `limit=-1`. -/
theorem gettracks.CreateFilterFromQueryParameters_limit_mod_witness :
    ((gettracks.CreateFilterFromQueryParameters
      (sample.request "GET" [] [("limit", "-1")] "")).Limit : Int) = (-1) % 2 ^ 32 ∧
    (gettracks.Handler sample.lib (sample.request "GET" [] [("limit", "-1")] "")
        (inject.Object.Injector ⟨⟨sample.memoryClient⟩⟩) ⟨sample.oneArtist, []⟩).2.calls
      = [] ++ [mongo.Call.Find "gostream" "tracks"
          (match (gettracks.CreateFilterFromQueryParameters
              (sample.request "GET" [] [("limit", "-1")] "")).Root with
           | none => []
           | some root => root.Compile) ((-1) % 2 ^ 32)] ∧
    (0 : Int) ≤ (-1) % 2 ^ 32 ∧
    (gettracks.CreateFilterFromQueryParameters
      (sample.request "GET" [] [("limit", "-1")] "")).Limit = 4294967295 ∧
    (gettracks.CreateFilterFromQueryParameters
      (sample.request "GET" [] [("limit", "4294967296")] "")).Limit = 0 :=
  gettracks.CreateFilterFromQueryParameters_limit_mod sample.lib
    (sample.request "GET" [] [("limit", "-1")] "") ⟨⟨sample.memoryClient⟩⟩
    ⟨sample.oneArtist, []⟩ "-1" (-1) rfl rfl

/-- C28 at a failing input: the sample create body with the release date ` 2024-01-01`
(a leading blank) passes `ValidateRequestBody`, which parses the trimmed string to the date
2024-01-01; the handler parses the string as it is, the parse fails, and the track that is
inserted and returned with status 200 has the zero time as release date. -/
theorem createtrack.Handler_padded_date_evaluated :
    createtrack.ValidateRequestBody sample.lib
      { sample.createBody with ReleaseDate := " 2024-01-01" } = none ∧
    sample.lib.timeParse "2006-01-02" (strings.TrimSpace " 2024-01-01")
      = Except.ok (time.Date 2024 1 1) ∧
    sample.lib.timeParse "2006-01-02" " 2024-01-01"
      = Except.error "parsing time: cannot parse" ∧
    (createtrack.Handler sample.lib
        (fun _ => Except.ok { sample.createBody with ReleaseDate := " 2024-01-01" })
        sample.newID (sample.request "POST" [] [] "")
        (inject.Object.Injector ⟨⟨sample.memoryClient⟩⟩) ⟨sample.oneArtist, []⟩).1
      = { StatusCode := 200, Headers := [],
          Body := some (createtrack.ResponseBody.Track
            (createtrack.Handler.track sample.lib sample.newID
              { sample.createBody with ReleaseDate := " 2024-01-01" })) } ∧
    (createtrack.Handler sample.lib
        (fun _ => Except.ok { sample.createBody with ReleaseDate := " 2024-01-01" })
        sample.newID (sample.request "POST" [] [] "")
        (inject.Object.Injector ⟨⟨sample.memoryClient⟩⟩) ⟨sample.oneArtist, []⟩).2.calls
      = [mongo.Call.Find "gostream" "artists" [("_id", bson.Value.str sample.artistID)] 1,
         mongo.Call.InsertOne "gostream" "tracks"
          (createtrack.Handler.track sample.lib sample.newID
            { sample.createBody with ReleaseDate := " 2024-01-01" }).Marshal] ∧
    (createtrack.Handler.track sample.lib sample.newID
      { sample.createBody with ReleaseDate := " 2024-01-01" }).ReleaseDate = time.Time.zero ∧
    time.Time.zero ≠ time.Date 2024 1 1 :=
  ⟨rfl, rfl, rfl, rfl, rfl, rfl, by decide⟩

/-! ### The musical keys -/

/-- C24, as stated, fails: the number of musical-key constants of the track model is
not 30. -/
theorem models.AudioKeys_not_thirty : models.AudioKeys.length ≠ 30 := by
  decide

/-- C24, amended: the track model defines exactly 28 musical-key label constants, and
they are pairwise distinct. -/
theorem models.AudioKeys_count : models.AudioKeys.length = 28 ∧ models.AudioKeys.Nodup := by
  refine ⟨rfl, ?_⟩
  decide

/-! ### The request context -/

theorem base64.encode_length : ∀ src : List Nat,
    (base64.encode src).length = 4 * ((src.length + 2) / 3)
  | b0 :: b1 :: b2 :: rest => by
    simp only [base64.encode, List.length_cons, base64.encode_length rest]
    omega
  | [b0, b1] => by simp [base64.encode]
  | [b0] => by simp [base64.encode]
  | [] => by simp [base64.encode]

theorem sha256.Sum256_length (message : List Nat) : (sha256.Sum256 message).length = 32 := by
  simp [sha256.Sum256, sha256.wordBytes]

/-- C25: for every timestamp `NewContext` returns a context, without slicing out of range;
its `LongID` is the URL-safe base64 encoding of the SHA-256 digest of the bytes of the
timestamp's decimal string and has 44 characters, and its `ID` and its `ShortID` are both
the first 7 characters of the `LongID`. For the timestamp 1730715000123456789 the context
has the `ID` `KqoCq3B`. -/
theorem parallel.NewContext_ids (currentTime : Int) :
    (∃ context, parallel.NewContext currentTime = Except.ok context ∧
      context.LongID = base64.EncodeToString
        (sha256.Sum256 ((strconv.FormatInt currentTime).data.map Char.toNat)) ∧
      context.LongID.length = 44 ∧
      context.ID = ⟨context.LongID.data.take 7⟩ ∧
      context.ShortID = ⟨context.LongID.data.take 7⟩ ∧
      context.ID.length = 7) ∧
    parallel.NewContext 1730715000123456789
      = Except.ok ⟨"KqoCq3B", "KqoCq3B", "KqoCq3BvOuNdYBQ52-n1eqrO8cP9SV-lx3IgTpbLGiQ="⟩ := by
  have hlen : (base64.EncodeToString
      (sha256.Sum256 ((strconv.FormatInt currentTime).data.map Char.toNat))).length = 44 := by
    show (base64.encode _).length = 44
    rw [base64.encode_length, sha256.Sum256_length]
  refine ⟨⟨⟨⟨(base64.EncodeToString
      (sha256.Sum256 ((strconv.FormatInt currentTime).data.map Char.toNat))).data.take 7⟩,
    ⟨(base64.EncodeToString
      (sha256.Sum256 ((strconv.FormatInt currentTime).data.map Char.toNat))).data.take 7⟩,
    base64.EncodeToString
      (sha256.Sum256 ((strconv.FormatInt currentTime).data.map Char.toNat))⟩,
    ?_, rfl, hlen, rfl, rfl, ?_⟩, by rfl⟩
  · simp only [parallel.NewContext, hlen]
    simp
  · show (List.take 7 (base64.EncodeToString _).data).length = 7
    have h44 : (base64.EncodeToString
        (sha256.Sum256 ((strconv.FormatInt currentTime).data.map Char.toNat))).data.length
        = 44 := hlen
    rw [List.length_take, h44]
    rfl
